import Mathlib

/-!
Shallow embedding of the flyhoney SNES tile-graphics codec (src/graphics.rs)
and verification of the specification's claims about it.

Machine integers (`u8`, `u16`, `u32`, `usize`) are modelled as `Nat`.  All of
the source's arithmetic is shift/mask manipulation that never overflows the
machine width when the inputs are in the machine domain, so no explicit
`% 2 ^ w` is required; theorems restrict inputs to the machine domain
(`< 256`, `< 2 ^ 16`, `< 2 ^ 32`) where the domain matters.  Fixed-size Rust
arrays are modelled as `List Nat`; `Result<T, Error>` is `Except Error T`.
-/

/-- The error variants of `Error` (src/lib.rs) used by the graphics module. -/
inductive Error where
  | DataLengthMismatch (actual expected : Nat)
  | InvalidColorIndex (value : Nat)
  | OutOfBounds (value limit : Nat)
deriving DecidableEq, Repr

/-- `Rgb888` (src/graphics.rs line 5): a 24-bit color stored in a `u32`. -/
structure Rgb888 where
  val : Nat
deriving DecidableEq, Repr

/-- `Rgb888::get_red` (line 14): `((self.0 >> 16) & 0xFF) as u8`. -/
def Rgb888.get_red (c : Rgb888) : Nat := (c.val >>> 16) &&& 0xFF

/-- `Rgb888::set_red` (line 17): `self.0 = (self.0 & 0xFFFF) | ((r as u32) << 16)`. -/
def Rgb888.set_red (c : Rgb888) (r : Nat) : Rgb888 := ⟨(c.val &&& 0xFFFF) ||| (r <<< 16)⟩

/-- `Rgb888::get_green` (line 20): `((self.0 >> 8) & 0xFF) as u8`. -/
def Rgb888.get_green (c : Rgb888) : Nat := (c.val >>> 8) &&& 0xFF

/-- `Rgb888::set_green` (line 23): `self.0 = (self.0 & 0xFF00FF) | ((g as u32) << 8)`. -/
def Rgb888.set_green (c : Rgb888) (g : Nat) : Rgb888 := ⟨(c.val &&& 0xFF00FF) ||| (g <<< 8)⟩

/-- `Rgb888::get_blue` (line 27): `(self.0 & 0xFF) as u8`. -/
def Rgb888.get_blue (c : Rgb888) : Nat := c.val &&& 0xFF

/-- `Rgb888::set_blue` (line 30): `self.0 = (self.0 & 0xFFFF00) | (b as u32)`. -/
def Rgb888.set_blue (c : Rgb888) (b : Nat) : Rgb888 := ⟨(c.val &&& 0xFFFF00) ||| b⟩

/-- `Rgb888::new` (line 7): start from `Self(0)` and set red, green, blue. -/
def Rgb888.new (r g b : Nat) : Rgb888 :=
  (((Rgb888.mk 0).set_red r).set_green g).set_blue b

/-- `Bgr555` (src/graphics.rs line 53): a 15-bit color stored in a `u16`. -/
structure Bgr555 where
  val : Nat
deriving DecidableEq, Repr

/-- `Bgr555::get_blue` (line 62): `((self.0 >> 10) & 0x1F) as u8`. -/
def Bgr555.get_blue (c : Bgr555) : Nat := (c.val >>> 10) &&& 0x1F

/-- `Bgr555::set_blue` (line 65): `self.0 = (self.0 & 0x3FF) | ((value as u16 & 0x1F) << 10)`. -/
def Bgr555.set_blue (c : Bgr555) (value : Nat) : Bgr555 :=
  ⟨(c.val &&& 0x3FF) ||| ((value &&& 0x1F) <<< 10)⟩

/-- `Bgr555::get_green` (line 68): `((self.0 >> 5) & 0x1F) as u8`. -/
def Bgr555.get_green (c : Bgr555) : Nat := (c.val >>> 5) &&& 0x1F

/-- `Bgr555::set_green` (line 71): `self.0 = (self.0 & 0x7C1F) | ((value as u16 & 0x1F) << 5)`. -/
def Bgr555.set_green (c : Bgr555) (value : Nat) : Bgr555 :=
  ⟨(c.val &&& 0x7C1F) ||| ((value &&& 0x1F) <<< 5)⟩

/-- `Bgr555::get_red` (line 74): `(self.0 & 0x1F) as u8`. -/
def Bgr555.get_red (c : Bgr555) : Nat := c.val &&& 0x1F

/-- `Bgr555::set_red` (line 77): `self.0 = (self.0 & 0x7FE0) | (value as u16 & 0x1F)`. -/
def Bgr555.set_red (c : Bgr555) (value : Nat) : Bgr555 :=
  ⟨(c.val &&& 0x7FE0) ||| (value &&& 0x1F)⟩

/-- `Bgr555::new` (line 55): start from `Self(0)` and set red, green, blue. -/
def Bgr555.new (r g b : Nat) : Bgr555 :=
  (((Bgr555.mk 0).set_red r).set_green g).set_blue b

/-- `impl From<Bgr555> for Rgb888` (lines 42-50): each channel left-shifted by 3. -/
def Bgr555.as_rgb888 (c : Bgr555) : Rgb888 :=
  (((Rgb888.mk 0).set_red (c.get_red <<< 3)).set_green (c.get_green <<< 3)).set_blue
    (c.get_blue <<< 3)

/-- `impl From<Rgb888> for Bgr555` (lines 89-97): each channel right-shifted by 3. -/
def Rgb888.as_bgr555 (c : Rgb888) : Bgr555 :=
  (((Bgr555.mk 0).set_red (c.get_red >>> 3)).set_green (c.get_green >>> 3)).set_blue
    (c.get_blue >>> 3)

/-- Decode one little-endian `u16` color from bytes `2*i` and `2*i+1`, as the
`from_data` loops of both palettes do (lines 114-120 and 146-152). -/
def decodeBgr555At (data : List Nat) (i : Nat) : Bgr555 :=
  ⟨data.getD (2 * i) 0 ||| (data.getD (2 * i + 1) 0 <<< 8)⟩

/-- `SNESPalette16` (line 106): 16 `Bgr555` colors. -/
structure SNESPalette16 where
  colors : List Bgr555
deriving DecidableEq, Repr

/-- `SNESPalette16::from_data` (lines 108-123). -/
def SNESPalette16.from_data (data : List Nat) : Except Error SNESPalette16 :=
  if data.length ≠ 16 * 2 then .error (.DataLengthMismatch data.length (16 * 2))
  else .ok ⟨(List.range 16).map (decodeBgr555At data)⟩

/-- `SNESPalette16::set_index` (lines 124-129). -/
def SNESPalette16.set_index (p : SNESPalette16) (index : Nat) (color : Bgr555) :
    Except Error SNESPalette16 :=
  if 16 ≤ index then .error (.InvalidColorIndex index)
  else .ok ⟨p.colors.set index color⟩

/-- `SNESPalette16::get_index` (lines 130-134). -/
def SNESPalette16.get_index (p : SNESPalette16) (index : Nat) : Except Error Bgr555 :=
  if 16 ≤ index then .error (.InvalidColorIndex index)
  else .ok (p.colors.getD index ⟨0⟩)

/-- `SNESPalette256` (line 138): 256 `Bgr555` colors. -/
structure SNESPalette256 where
  colors : List Bgr555
deriving DecidableEq, Repr

/-- `SNESPalette256::from_data` (lines 140-155). -/
def SNESPalette256.from_data (data : List Nat) : Except Error SNESPalette256 :=
  if data.length ≠ 256 * 2 then .error (.DataLengthMismatch data.length (256 * 2))
  else .ok ⟨(List.range 256).map (decodeBgr555At data)⟩

/-- `SNESPalette256::set_index` (lines 156-159): no index check. -/
def SNESPalette256.set_index (p : SNESPalette256) (index : Nat) (color : Bgr555) :
    Except Error SNESPalette256 :=
  .ok ⟨p.colors.set index color⟩

/-- `SNESPalette256::get_index` (lines 160-162): no index check. -/
def SNESPalette256.get_index (p : SNESPalette256) (index : Nat) : Except Error Bgr555 :=
  .ok (p.colors.getD index ⟨0⟩)

/-- One in-place pass over tile storage: for each pair `(offset, w)` in order,
replace the byte at `offset` by `h w` of its current value.  The source's
`set_value` bodies are two such passes (a clear pass `byte &= mask ^ 0xFF`
followed by a write pass `byte |= bit << index`). -/
def sweep (h : Nat → Nat → Nat) (prs : List (Nat × Nat)) (data : List Nat) : List Nat :=
  prs.foldl (fun d pr => d.set pr.1 (h pr.2 (d.getD pr.1 0))) data

/-- The clear pass of a `set_value` body: `self.0[off] &= mask ^ 0xFF`. -/
def clearPass (index : Nat) (prs : List (Nat × Nat)) (data : List Nat) : List Nat :=
  sweep (fun _ b => b &&& ((1 <<< index) ^^^ 0xFF)) prs data

/-- The write pass of a `set_value` body: `self.0[off] |= w << index`. -/
def writePass (index : Nat) (prs : List (Nat × Nat)) (data : List Nat) : List Nat :=
  sweep (fun w b => b ||| (w <<< index)) prs data

/-- One plane read of a `get_value` body: `(self.0[off] & mask) >> index`. -/
def readBit (index : Nat) (data : List Nat) (off : Nat) : Nat :=
  (data.getD off 0 &&& (1 <<< index)) >>> index

/-- The `SNESTile` trait (src/graphics.rs lines 165-253): core operations. -/
class SNESTile (α : Type) where
  new : α
  from_data : List Nat → Except Error α
  set_value : α → Nat → Nat → Nat → Except Error α
  get_value : α → Nat → Nat → Except Error Nat

/-- `SNESTile::to_colormap` (lines 170-183): reads pixels with `y` outer and
`x` inner, so the pixel at linear index `i` is `get_value (i % 8) (i / 8)`;
the first error is propagated. -/
def SNESTile.to_colormap [SNESTile α] (t : α) : Except Error (List Nat) :=
  (List.range 64).mapM (fun i => SNESTile.get_value t (i % 8) (i / 8))

/-- `SNESTile::from_colormap` (lines 184-200): starting from `new`, writes
element `i` of the input to pixel `(i % 8, i / 8)`; the first error is
propagated. -/
def SNESTile.from_colormap [SNESTile α] (data : List Nat) : Except Error α :=
  (List.range data.length).foldlM
    (fun t i => SNESTile.set_value t (i % 8) (i / 8) (data.getD i 0)) SNESTile.new

/-- `SNESTile::direct_color_mode` (lines 227-252), transcribed bit for bit:
note `blue_bit = (palette_arg & 4) >> 1`, which is how the source writes it. -/
def SNESTile.direct_color_mode [SNESTile α] (t : α) (palette_arg : Nat) :
    Except Error (List Bgr555) := do
  let colormap ← SNESTile.to_colormap t
  let red_bit := (palette_arg &&& 1) >>> 0
  let green_bit := (palette_arg &&& 2) >>> 1
  let blue_bit := (palette_arg &&& 4) >>> 1
  pure (colormap.map (fun c =>
    let blue := ((c &&& 0xC0) >>> 4) ||| blue_bit
    let green := ((c &&& 0x38) >>> 2) ||| green_bit
    let red := ((c &&& 0x7) <<< 1) ||| red_bit
    (((Bgr555.mk 0).set_blue blue).set_green green).set_red red))

/-- `SNESTile::to_bgr555` (lines 201-218): colormap then palette lookups. -/
def SNESTile.to_bgr555_16 [SNESTile α] (t : α) (palette : SNESPalette16) :
    Except Error (List Bgr555) := do
  let colormap ← SNESTile.to_colormap t
  colormap.mapM (fun c => palette.get_index c)

/-- `SNESTile1BPP` (line 262): 8 bytes, one bit-plane. -/
structure SNESTile1BPP where
  data : List Nat
deriving DecidableEq, Repr

/-- `SNESTile1BPP::from_data` (lines 281-289). -/
def SNESTile1BPP.from_data (buf : List Nat) : Except Error SNESTile1BPP :=
  if buf.length = 8 then .ok ⟨buf⟩ else .error (.DataLengthMismatch buf.length 8)

/-- `SNESTile1BPP::set_value` (lines 290-302): bounds and value checks, then
clear and write bit `7 - x` of row byte `y`. -/
def SNESTile1BPP.set_value (t : SNESTile1BPP) (x y value : Nat) :
    Except Error SNESTile1BPP :=
  if 8 ≤ x then .error (.OutOfBounds x 8)
  else if 8 ≤ y then .error (.OutOfBounds y 8)
  else if 2 ≤ value then .error (.InvalidColorIndex value)
  else
    let index := 7 - x
    let prs := [(y, value)]
    .ok ⟨writePass index prs (clearPass index prs t.data)⟩

/-- `SNESTile1BPP::get_value` (lines 303-311). -/
def SNESTile1BPP.get_value (t : SNESTile1BPP) (x y : Nat) : Except Error Nat :=
  if 8 ≤ x then .error (.OutOfBounds x 8)
  else if 8 ≤ y then .error (.OutOfBounds y 8)
  else
    let index := 7 - x
    .ok (readBit index t.data y)

instance : SNESTile SNESTile1BPP where
  new := ⟨List.replicate 8 0⟩
  from_data := SNESTile1BPP.from_data
  set_value := SNESTile1BPP.set_value
  get_value := SNESTile1BPP.get_value

/-- `SNESTile2BPPPlanar` (line 315): 16 bytes, planes at offsets 0 and 8. -/
structure SNESTile2BPPPlanar where
  data : List Nat
deriving DecidableEq, Repr

/-- `SNESTile2BPPPlanar::from_data` (lines 334-342). -/
def SNESTile2BPPPlanar.from_data (buf : List Nat) : Except Error SNESTile2BPPPlanar :=
  if buf.length = 8 * 2 then .ok ⟨buf⟩ else .error (.DataLengthMismatch buf.length (8 * 2))

/-- `SNESTile2BPPPlanar::set_value` (lines 343-358): plane bytes `y` and `y+8`. -/
def SNESTile2BPPPlanar.set_value (t : SNESTile2BPPPlanar) (x y value : Nat) :
    Except Error SNESTile2BPPPlanar :=
  if 8 ≤ x then .error (.OutOfBounds x 8)
  else if 8 ≤ y then .error (.OutOfBounds y 8)
  else if 4 ≤ value then .error (.InvalidColorIndex value)
  else
    let index := 7 - x
    let prs := [(y, (value &&& 1) >>> 0), (y + 0x8, (value &&& 2) >>> 1)]
    .ok ⟨writePass index prs (clearPass index prs t.data)⟩

/-- `SNESTile2BPPPlanar::get_value` (lines 359-371). -/
def SNESTile2BPPPlanar.get_value (t : SNESTile2BPPPlanar) (x y : Nat) : Except Error Nat :=
  if 8 ≤ x then .error (.OutOfBounds x 8)
  else if 8 ≤ y then .error (.OutOfBounds y 8)
  else
    let index := 7 - x
    .ok (readBit index t.data y ||| (readBit index t.data (y + 0x8) <<< 1))

instance : SNESTile SNESTile2BPPPlanar where
  new := ⟨List.replicate (8 * 2) 0⟩
  from_data := SNESTile2BPPPlanar.from_data
  set_value := SNESTile2BPPPlanar.set_value
  get_value := SNESTile2BPPPlanar.get_value

/-- `SNESTile2BPPIntertwined` (line 375): 16 bytes, row bytes `2y` and `2y+1`. -/
structure SNESTile2BPPIntertwined where
  data : List Nat
deriving DecidableEq, Repr

/-- `SNESTile2BPPIntertwined::from_data` (lines 394-402). -/
def SNESTile2BPPIntertwined.from_data (buf : List Nat) :
    Except Error SNESTile2BPPIntertwined :=
  if buf.length = 8 * 2 then .ok ⟨buf⟩ else .error (.DataLengthMismatch buf.length (8 * 2))

/-- `SNESTile2BPPIntertwined::set_value` (lines 403-418): bytes `y*2`, `y*2+1`. -/
def SNESTile2BPPIntertwined.set_value (t : SNESTile2BPPIntertwined) (x y value : Nat) :
    Except Error SNESTile2BPPIntertwined :=
  if 8 ≤ x then .error (.OutOfBounds x 8)
  else if 8 ≤ y then .error (.OutOfBounds y 8)
  else if 4 ≤ value then .error (.InvalidColorIndex value)
  else
    let index := 7 - x
    let prs := [(y * 2, (value &&& 1) >>> 0), (y * 2 + 1, (value &&& 2) >>> 1)]
    .ok ⟨writePass index prs (clearPass index prs t.data)⟩

/-- `SNESTile2BPPIntertwined::get_value` (lines 419-431). -/
def SNESTile2BPPIntertwined.get_value (t : SNESTile2BPPIntertwined) (x y : Nat) :
    Except Error Nat :=
  if 8 ≤ x then .error (.OutOfBounds x 8)
  else if 8 ≤ y then .error (.OutOfBounds y 8)
  else
    let index := 7 - x
    .ok (readBit index t.data (y * 2) ||| (readBit index t.data (y * 2 + 1) <<< 1))

instance : SNESTile SNESTile2BPPIntertwined where
  new := ⟨List.replicate (8 * 2) 0⟩
  from_data := SNESTile2BPPIntertwined.from_data
  set_value := SNESTile2BPPIntertwined.set_value
  get_value := SNESTile2BPPIntertwined.get_value

/-- `SNESTile3BPPPlanar` (line 435): 24 bytes, planes at offsets 0, 8, 0x10. -/
structure SNESTile3BPPPlanar where
  data : List Nat
deriving DecidableEq, Repr

/-- `SNESTile3BPPPlanar::from_data` (lines 454-462). -/
def SNESTile3BPPPlanar.from_data (buf : List Nat) : Except Error SNESTile3BPPPlanar :=
  if buf.length = 8 * 3 then .ok ⟨buf⟩ else .error (.DataLengthMismatch buf.length (8 * 3))

/-- `SNESTile3BPPPlanar::set_value` (lines 463-480): bytes `y`, `y+8`, `y+0x10`. -/
def SNESTile3BPPPlanar.set_value (t : SNESTile3BPPPlanar) (x y value : Nat) :
    Except Error SNESTile3BPPPlanar :=
  if 8 ≤ x then .error (.OutOfBounds x 8)
  else if 8 ≤ y then .error (.OutOfBounds y 8)
  else if 8 ≤ value then .error (.InvalidColorIndex value)
  else
    let index := 7 - x
    let prs := [(y, (value &&& 1) >>> 0), (y + 0x8, (value &&& 2) >>> 1),
                (y + 0x10, (value &&& 4) >>> 2)]
    .ok ⟨writePass index prs (clearPass index prs t.data)⟩

/-- `SNESTile3BPPPlanar::get_value` (lines 481-494). -/
def SNESTile3BPPPlanar.get_value (t : SNESTile3BPPPlanar) (x y : Nat) : Except Error Nat :=
  if 8 ≤ x then .error (.OutOfBounds x 8)
  else if 8 ≤ y then .error (.OutOfBounds y 8)
  else
    let index := 7 - x
    .ok (readBit index t.data y ||| (readBit index t.data (y + 0x8) <<< 1) |||
         (readBit index t.data (y + 0x10) <<< 2))

instance : SNESTile SNESTile3BPPPlanar where
  new := ⟨List.replicate (8 * 3) 0⟩
  from_data := SNESTile3BPPPlanar.from_data
  set_value := SNESTile3BPPPlanar.set_value
  get_value := SNESTile3BPPPlanar.get_value

/-- `SNESTile3BPPIntertwined` (line 498): 24 bytes; planes 0-1 intertwined per
row, plane 2 planar at offset 0x10. -/
structure SNESTile3BPPIntertwined where
  data : List Nat
deriving DecidableEq, Repr

/-- `SNESTile3BPPIntertwined::from_data` (lines 517-525). -/
def SNESTile3BPPIntertwined.from_data (buf : List Nat) :
    Except Error SNESTile3BPPIntertwined :=
  if buf.length = 8 * 3 then .ok ⟨buf⟩ else .error (.DataLengthMismatch buf.length (8 * 3))

/-- `SNESTile3BPPIntertwined::set_value` (lines 526-543): bytes `y*2`, `y*2+1`,
`y+0x10`. -/
def SNESTile3BPPIntertwined.set_value (t : SNESTile3BPPIntertwined) (x y value : Nat) :
    Except Error SNESTile3BPPIntertwined :=
  if 8 ≤ x then .error (.OutOfBounds x 8)
  else if 8 ≤ y then .error (.OutOfBounds y 8)
  else if 8 ≤ value then .error (.InvalidColorIndex value)
  else
    let index := 7 - x
    let prs := [(y * 2, (value &&& 1) >>> 0), (y * 2 + 1, (value &&& 2) >>> 1),
                (y + 0x10, (value &&& 4) >>> 2)]
    .ok ⟨writePass index prs (clearPass index prs t.data)⟩

/-- `SNESTile3BPPIntertwined::get_value` (lines 544-557). -/
def SNESTile3BPPIntertwined.get_value (t : SNESTile3BPPIntertwined) (x y : Nat) :
    Except Error Nat :=
  if 8 ≤ x then .error (.OutOfBounds x 8)
  else if 8 ≤ y then .error (.OutOfBounds y 8)
  else
    let index := 7 - x
    .ok (readBit index t.data (y * 2) ||| (readBit index t.data (y * 2 + 1) <<< 1) |||
         (readBit index t.data (y + 0x10) <<< 2))

instance : SNESTile SNESTile3BPPIntertwined where
  new := ⟨List.replicate (8 * 3) 0⟩
  from_data := SNESTile3BPPIntertwined.from_data
  set_value := SNESTile3BPPIntertwined.set_value
  get_value := SNESTile3BPPIntertwined.get_value

/-- `SNESTile4BPPPlanar` (line 561): 32 bytes, planes at 0, 8, 0x10, 0x18. -/
structure SNESTile4BPPPlanar where
  data : List Nat
deriving DecidableEq, Repr

/-- `SNESTile4BPPPlanar::from_data` (lines 580-588). -/
def SNESTile4BPPPlanar.from_data (buf : List Nat) : Except Error SNESTile4BPPPlanar :=
  if buf.length = 8 * 4 then .ok ⟨buf⟩ else .error (.DataLengthMismatch buf.length (8 * 4))

/-- `SNESTile4BPPPlanar::set_value` (lines 589-608). -/
def SNESTile4BPPPlanar.set_value (t : SNESTile4BPPPlanar) (x y value : Nat) :
    Except Error SNESTile4BPPPlanar :=
  if 8 ≤ x then .error (.OutOfBounds x 8)
  else if 8 ≤ y then .error (.OutOfBounds y 8)
  else if 16 ≤ value then .error (.InvalidColorIndex value)
  else
    let index := 7 - x
    let prs := [(y, (value &&& 1) >>> 0), (y + 0x8, (value &&& 2) >>> 1),
                (y + 0x10, (value &&& 4) >>> 2), (y + 0x18, (value &&& 8) >>> 3)]
    .ok ⟨writePass index prs (clearPass index prs t.data)⟩

/-- `SNESTile4BPPPlanar::get_value` (lines 609-623). -/
def SNESTile4BPPPlanar.get_value (t : SNESTile4BPPPlanar) (x y : Nat) : Except Error Nat :=
  if 8 ≤ x then .error (.OutOfBounds x 8)
  else if 8 ≤ y then .error (.OutOfBounds y 8)
  else
    let index := 7 - x
    .ok (readBit index t.data y ||| (readBit index t.data (y + 0x8) <<< 1) |||
         (readBit index t.data (y + 0x10) <<< 2) ||| (readBit index t.data (y + 0x18) <<< 3))

instance : SNESTile SNESTile4BPPPlanar where
  new := ⟨List.replicate (8 * 4) 0⟩
  from_data := SNESTile4BPPPlanar.from_data
  set_value := SNESTile4BPPPlanar.set_value
  get_value := SNESTile4BPPPlanar.get_value

/-- `SNESTile4BPPIntertwined` (line 627): 32 bytes; plane pairs (0,1) at
`y*2+0x00`, `y*2+0x01` and (2,3) at `y*2+0x10`, `y*2+0x11`. -/
structure SNESTile4BPPIntertwined where
  data : List Nat
deriving DecidableEq, Repr

/-- `SNESTile4BPPIntertwined::from_data` (lines 646-654). -/
def SNESTile4BPPIntertwined.from_data (buf : List Nat) :
    Except Error SNESTile4BPPIntertwined :=
  if buf.length = 8 * 4 then .ok ⟨buf⟩ else .error (.DataLengthMismatch buf.length (8 * 4))

/-- `SNESTile4BPPIntertwined::set_value` (lines 655-674). -/
def SNESTile4BPPIntertwined.set_value (t : SNESTile4BPPIntertwined) (x y value : Nat) :
    Except Error SNESTile4BPPIntertwined :=
  if 8 ≤ x then .error (.OutOfBounds x 8)
  else if 8 ≤ y then .error (.OutOfBounds y 8)
  else if 16 ≤ value then .error (.InvalidColorIndex value)
  else
    let index := 7 - x
    let prs := [(y * 2 + 0x00, (value &&& 1) >>> 0), (y * 2 + 0x01, (value &&& 2) >>> 1),
                (y * 2 + 0x10, (value &&& 4) >>> 2), (y * 2 + 0x11, (value &&& 8) >>> 3)]
    .ok ⟨writePass index prs (clearPass index prs t.data)⟩

/-- `SNESTile4BPPIntertwined::get_value` (lines 675-689). -/
def SNESTile4BPPIntertwined.get_value (t : SNESTile4BPPIntertwined) (x y : Nat) :
    Except Error Nat :=
  if 8 ≤ x then .error (.OutOfBounds x 8)
  else if 8 ≤ y then .error (.OutOfBounds y 8)
  else
    let index := 7 - x
    .ok (readBit index t.data (y * 2 + 0x00) ||| (readBit index t.data (y * 2 + 0x01) <<< 1) |||
         (readBit index t.data (y * 2 + 0x10) <<< 2) |||
         (readBit index t.data (y * 2 + 0x11) <<< 3))

instance : SNESTile SNESTile4BPPIntertwined where
  new := ⟨List.replicate (8 * 4) 0⟩
  from_data := SNESTile4BPPIntertwined.from_data
  set_value := SNESTile4BPPIntertwined.set_value
  get_value := SNESTile4BPPIntertwined.get_value

/-- `SNESTile8BPPPlanar` (line 693): 64 bytes, planes at 0, 8, ..., 0x38. -/
structure SNESTile8BPPPlanar where
  data : List Nat
deriving DecidableEq, Repr

/-- `SNESTile8BPPPlanar::from_data` (lines 712-720). -/
def SNESTile8BPPPlanar.from_data (buf : List Nat) : Except Error SNESTile8BPPPlanar :=
  if buf.length = 8 * 8 then .ok ⟨buf⟩ else .error (.DataLengthMismatch buf.length (8 * 8))

/-- `SNESTile8BPPPlanar::set_value` (lines 721-748).  Note the value check on
line 724 rejects `value >= 16` even though this is an 8-bit-deep format. -/
def SNESTile8BPPPlanar.set_value (t : SNESTile8BPPPlanar) (x y value : Nat) :
    Except Error SNESTile8BPPPlanar :=
  if 8 ≤ x then .error (.OutOfBounds x 8)
  else if 8 ≤ y then .error (.OutOfBounds y 8)
  else if 16 ≤ value then .error (.InvalidColorIndex value)
  else
    let index := 7 - x
    let prs := [(y, (value &&& 0x01) >>> 0), (y + 0x8, (value &&& 0x02) >>> 1),
                (y + 0x10, (value &&& 0x04) >>> 2), (y + 0x18, (value &&& 0x08) >>> 3),
                (y + 0x20, (value &&& 0x10) >>> 4), (y + 0x28, (value &&& 0x20) >>> 5),
                (y + 0x30, (value &&& 0x40) >>> 6), (y + 0x38, (value &&& 0x80) >>> 7)]
    .ok ⟨writePass index prs (clearPass index prs t.data)⟩

/-- `SNESTile8BPPPlanar::get_value` (lines 749-767). -/
def SNESTile8BPPPlanar.get_value (t : SNESTile8BPPPlanar) (x y : Nat) : Except Error Nat :=
  if 8 ≤ x then .error (.OutOfBounds x 8)
  else if 8 ≤ y then .error (.OutOfBounds y 8)
  else
    let index := 7 - x
    .ok (readBit index t.data y ||| (readBit index t.data (y + 0x8) <<< 1) |||
         (readBit index t.data (y + 0x10) <<< 2) ||| (readBit index t.data (y + 0x18) <<< 3) |||
         (readBit index t.data (y + 0x20) <<< 4) ||| (readBit index t.data (y + 0x28) <<< 5) |||
         (readBit index t.data (y + 0x30) <<< 6) ||| (readBit index t.data (y + 0x38) <<< 7))

instance : SNESTile SNESTile8BPPPlanar where
  new := ⟨List.replicate (8 * 8) 0⟩
  from_data := SNESTile8BPPPlanar.from_data
  set_value := SNESTile8BPPPlanar.set_value
  get_value := SNESTile8BPPPlanar.get_value

/-- `SNESTile8BPPIntertwined` (line 771): 64 bytes; plane pairs intertwined per
row at offsets 0x00, 0x10, 0x20, 0x30. -/
structure SNESTile8BPPIntertwined where
  data : List Nat
deriving DecidableEq, Repr

/-- `SNESTile8BPPIntertwined::from_data` (lines 790-798). -/
def SNESTile8BPPIntertwined.from_data (buf : List Nat) :
    Except Error SNESTile8BPPIntertwined :=
  if buf.length = 8 * 8 then .ok ⟨buf⟩ else .error (.DataLengthMismatch buf.length (8 * 8))

/-- `SNESTile8BPPIntertwined::set_value` (lines 799-825): no value-range check. -/
def SNESTile8BPPIntertwined.set_value (t : SNESTile8BPPIntertwined) (x y value : Nat) :
    Except Error SNESTile8BPPIntertwined :=
  if 8 ≤ x then .error (.OutOfBounds x 8)
  else if 8 ≤ y then .error (.OutOfBounds y 8)
  else
    let index := 7 - x
    let prs := [(y * 2 + 0x00, (value &&& 0x01) >>> 0), (y * 2 + 0x01, (value &&& 0x02) >>> 1),
                (y * 2 + 0x10, (value &&& 0x04) >>> 2), (y * 2 + 0x11, (value &&& 0x08) >>> 3),
                (y * 2 + 0x20, (value &&& 0x10) >>> 4), (y * 2 + 0x21, (value &&& 0x20) >>> 5),
                (y * 2 + 0x30, (value &&& 0x40) >>> 6), (y * 2 + 0x31, (value &&& 0x80) >>> 7)]
    .ok ⟨writePass index prs (clearPass index prs t.data)⟩

/-- `SNESTile8BPPIntertwined::get_value` (lines 826-844). -/
def SNESTile8BPPIntertwined.get_value (t : SNESTile8BPPIntertwined) (x y : Nat) :
    Except Error Nat :=
  if 8 ≤ x then .error (.OutOfBounds x 8)
  else if 8 ≤ y then .error (.OutOfBounds y 8)
  else
    let index := 7 - x
    .ok (readBit index t.data (y * 2 + 0x00) ||| (readBit index t.data (y * 2 + 0x01) <<< 1) |||
         (readBit index t.data (y * 2 + 0x10) <<< 2) |||
         (readBit index t.data (y * 2 + 0x11) <<< 3) |||
         (readBit index t.data (y * 2 + 0x20) <<< 4) |||
         (readBit index t.data (y * 2 + 0x21) <<< 5) |||
         (readBit index t.data (y * 2 + 0x30) <<< 6) |||
         (readBit index t.data (y * 2 + 0x31) <<< 7))

instance : SNESTile SNESTile8BPPIntertwined where
  new := ⟨List.replicate (8 * 8) 0⟩
  from_data := SNESTile8BPPIntertwined.from_data
  set_value := SNESTile8BPPIntertwined.set_value
  get_value := SNESTile8BPPIntertwined.get_value

/-- `SNESTileMode7` (line 848): 64 bytes, one raw byte per pixel. -/
structure SNESTileMode7 where
  data : List Nat
deriving DecidableEq, Repr

/-- `SNESTileMode7::from_data` (lines 867-875). -/
def SNESTileMode7.from_data (buf : List Nat) : Except Error SNESTileMode7 :=
  if buf.length = 8 * 8 then .ok ⟨buf⟩ else .error (.DataLengthMismatch buf.length (8 * 8))

/-- `SNESTileMode7::set_value` (lines 876-882): `self.0[y*8+x] = value`,
no value-range check. -/
def SNESTileMode7.set_value (t : SNESTileMode7) (x y value : Nat) :
    Except Error SNESTileMode7 :=
  if 8 ≤ x then .error (.OutOfBounds x 8)
  else if 8 ≤ y then .error (.OutOfBounds y 8)
  else .ok ⟨t.data.set (y * 8 + x) value⟩

/-- `SNESTileMode7::get_value` (lines 883-888): `self.0[y*8+x]`. -/
def SNESTileMode7.get_value (t : SNESTileMode7) (x y : Nat) : Except Error Nat :=
  if 8 ≤ x then .error (.OutOfBounds x 8)
  else if 8 ≤ y then .error (.OutOfBounds y 8)
  else .ok (t.data.getD (y * 8 + x) 0)

instance : SNESTile SNESTileMode7 where
  new := ⟨List.replicate (8 * 8) 0⟩
  from_data := SNESTileMode7.from_data
  set_value := SNESTileMode7.set_value
  get_value := SNESTileMode7.get_value

/-! ### List and sweep helper lemmas -/

theorem getD_set_self (l : List Nat) (i a : Nat) (h : i < l.length) :
    (l.set i a).getD i 0 = a := by
  simp [List.getD_eq_getElem?_getD, List.getElem?_set_self, h]

theorem getD_set_ne (l : List Nat) (i j a : Nat) (h : i ≠ j) :
    (l.set i a).getD j 0 = l.getD j 0 := by
  simp [List.getD_eq_getElem?_getD, List.getElem?_set_ne h]

theorem sweep_cons (h : Nat → Nat → Nat) (p : Nat × Nat) (rest : List (Nat × Nat))
    (d : List Nat) :
    sweep h (p :: rest) d = sweep h rest (d.set p.1 (h p.2 (d.getD p.1 0))) := rfl

theorem sweep_length (h : Nat → Nat → Nat) (prs : List (Nat × Nat)) (d : List Nat) :
    (sweep h prs d).length = d.length := by
  induction prs generalizing d with
  | nil => rfl
  | cons p rest ih => rw [sweep_cons, ih, List.length_set]

theorem getD_sweep_notin (h : Nat → Nat → Nat) (prs : List (Nat × Nat)) (d : List Nat)
    (off : Nat) (hoff : off ∉ prs.map Prod.fst) :
    (sweep h prs d).getD off 0 = d.getD off 0 := by
  induction prs generalizing d with
  | nil => rfl
  | cons p rest ih =>
    rw [List.map_cons, List.mem_cons] at hoff
    push_neg at hoff
    rw [sweep_cons, ih _ hoff.2, getD_set_ne _ _ _ _ (fun he => hoff.1 he.symm)]

theorem getD_sweep_mem (h : Nat → Nat → Nat) (prs : List (Nat × Nat)) (d : List Nat)
    (off w : Nat) (hnd : (prs.map Prod.fst).Nodup) (hmem : (off, w) ∈ prs)
    (hlt : off < d.length) :
    (sweep h prs d).getD off 0 = h w (d.getD off 0) := by
  induction prs generalizing d with
  | nil => cases hmem
  | cons p rest ih =>
    rw [List.map_cons, List.nodup_cons] at hnd
    rw [sweep_cons]
    rcases List.mem_cons.mp hmem with he | hm
    · subst he
      rw [getD_sweep_notin _ _ _ _ hnd.1, getD_set_self _ _ _ hlt]
    · have hne : off ≠ p.1 := by
        intro he
        exact hnd.1 (he ▸ List.mem_map.mpr ⟨(off, w), hm, rfl⟩)
      rw [ih _ hnd.2 hm (by rw [List.length_set]; exact hlt), getD_set_ne _ _ _ _
        (fun he => hne he.symm)]

/-! ### Bit-level helper lemmas -/

theorem extract_eq_toNat (b k : Nat) : (b &&& (1 <<< k)) >>> k = (b.testBit k).toNat := by
  rw [Nat.one_shiftLeft, Nat.and_two_pow, Nat.shiftRight_eq_div_pow]
  exact Nat.mul_div_cancel _ (Nat.pos_pow_of_pos k (by norm_num))

theorem bit_le_one (b k : Nat) : (b &&& (1 <<< k)) >>> k ≤ 1 := by
  rw [extract_eq_toNat]; cases b.testBit k <;> simp

theorem and_mask_shift_le_one (v m p : Nat) (hm : m = 1 <<< p) : (v &&& m) >>> p ≤ 1 := by
  rw [hm]; exact bit_le_one v p

/-- Reading back the written bit: after `byte &= mask ^ 0xFF; byte |= w << k`,
bit `k` of the byte extracts to `w`. -/
theorem readBit_write_same (b w k : Nat) (hw : w ≤ 1) (hk : k ≤ 7) :
    (((b &&& ((1 <<< k) ^^^ 0xFF)) ||| (w <<< k)) &&& (1 <<< k)) >>> k = w := by
  rw [extract_eq_toNat]
  have h255 : Nat.testBit 0xFF k = true := by interval_cases k <;> decide
  have hm : Nat.testBit ((1 <<< k) ^^^ 0xFF) k = false := by
    rw [Nat.testBit_xor, Nat.one_shiftLeft, Nat.testBit_two_pow_self, h255]; rfl
  rw [Nat.testBit_or, Nat.testBit_and, hm, Bool.and_false, Bool.false_or,
      Nat.testBit_shiftLeft]
  interval_cases w
  · simp
  · simp

/-- Reading a different bit of the same byte: the clear-and-write at bit `k`
leaves bit `j ≠ k` (for `j ≤ 7`) untouched. -/
theorem readBit_write_other (b w k j : Nat) (hw : w ≤ 1) (hk : k ≤ 7) (hj : j ≤ 7)
    (hne : j ≠ k) :
    (((b &&& ((1 <<< k) ^^^ 0xFF)) ||| (w <<< k)) &&& (1 <<< j)) >>> j
      = (b &&& (1 <<< j)) >>> j := by
  rw [extract_eq_toNat, extract_eq_toNat]
  congr 1
  have hm : Nat.testBit ((1 <<< k) ^^^ 0xFF) j = true := by
    rw [Nat.testBit_xor, Nat.one_shiftLeft]
    have h1 : Nat.testBit (2 ^ k) j = false := Nat.testBit_two_pow_of_ne (Ne.symm hne)
    have h255 : Nat.testBit 0xFF j = true := by interval_cases j <;> decide
    rw [h1, h255]; rfl
  have hw' : Nat.testBit (w <<< k) j = false := by
    rw [Nat.testBit_shiftLeft]
    rcases Nat.lt_or_ge j k with h | h
    · simp [Nat.not_le.mpr h]
    · interval_cases w
      · simp
      · have hjk : (0 : Nat) ≠ j - k := by omega
        have h1 : Nat.testBit 1 (j - k) = false := by
          have he : (1 : Nat) = 2 ^ 0 := by norm_num
          rw [he]; exact Nat.testBit_two_pow_of_ne hjk
        simp [h1]
  rw [Nat.testBit_or, Nat.testBit_and, hm, Bool.and_true, hw', Bool.or_false]

/-- A numeral's bits above its width are all zero. -/
theorem testBit_lit_false {m : Nat} (k : Nat) {i : Nat} (hm : m < 2 ^ k) (hi : k ≤ i) :
    m.testBit i = false :=
  Nat.testBit_lt_two_pow (lt_of_lt_of_le hm (Nat.pow_le_pow_right (by norm_num) hi))

/-- Masking is the identity on a value whose support `[lo, hi)` is all ones
in the mask. -/
theorem and_eq_self_of_mask (a m lo hi : Nat) (halo : a % 2 ^ lo = 0) (hahi : a < 2 ^ hi)
    (hm : ∀ i, lo ≤ i → i < hi → m.testBit i = true) : a &&& m = a := by
  apply Nat.eq_of_testBit_eq
  intro i
  rw [Nat.testBit_and]
  by_cases h1 : i < lo
  · have h0 : (decide (i < lo) && a.testBit i) = false := by
      rw [← Nat.testBit_mod_two_pow, halo]; exact Nat.zero_testBit i
    simp only [h1, decide_True, Bool.true_and] at h0
    simp [h0]
  · by_cases h2 : i < hi
    · rw [hm i (le_of_not_lt h1) h2, Bool.and_true]
    · have h0 : a.testBit i = false := Nat.testBit_lt_two_pow
        (lt_of_lt_of_le hahi (Nat.pow_le_pow_right (by norm_num) (le_of_not_lt h2)))
      simp [h0]

/-- Masking annihilates a value whose support `[lo, hi)` is all zeros in the
mask. -/
theorem and_eq_zero_of_mask (a m lo hi : Nat) (halo : a % 2 ^ lo = 0) (hahi : a < 2 ^ hi)
    (hm : ∀ i, lo ≤ i → i < hi → m.testBit i = false) : a &&& m = 0 := by
  apply Nat.eq_of_testBit_eq
  intro i
  rw [Nat.testBit_and, Nat.zero_testBit]
  by_cases h1 : i < lo
  · have h0 : (decide (i < lo) && a.testBit i) = false := by
      rw [← Nat.testBit_mod_two_pow, halo]; exact Nat.zero_testBit i
    simp only [h1, decide_True, Bool.true_and] at h0
    simp [h0]
  · by_cases h2 : i < hi
    · rw [hm i (le_of_not_lt h1) h2, Bool.and_false]
    · have h0 : a.testBit i = false := Nat.testBit_lt_two_pow
        (lt_of_lt_of_le hahi (Nat.pow_le_pow_right (by norm_num) (le_of_not_lt h2)))
      simp [h0]

/-- Bitwise or of values with disjoint supports is addition. -/
theorem or_disjoint_add (a b k : Nat) (ha : a % 2 ^ k = 0) (hb : b < 2 ^ k) :
    a ||| b = a + b := by
  have hd : 2 ^ k ∣ a := Nat.dvd_of_mod_eq_zero ha
  have ha' : 2 ^ k * (a / 2 ^ k) = a := Nat.mul_div_cancel' hd
  rw [← ha', ← Nat.mul_add_lt_is_or hb]

/-! ### Monadic iteration helpers -/

theorem getD_range (n k : Nat) (hk : k < n) : (List.range n).getD k 0 = k := by
  simp [List.getD_eq_getElem?_getD, List.getElem?_range hk]

theorem mapM_ok_pointwise (f : Nat → Except Error Nat) :
    ∀ (l : List Nat) (C : List Nat), C.length = l.length →
      (∀ k, k < l.length → f (l.getD k 0) = .ok (C.getD k 0)) →
      l.mapM f = Except.ok C := by
  intro l
  induction l with
  | nil =>
    intro C hC _
    cases C with
    | nil => rfl
    | cons c C' => simp at hC
  | cons a l ih =>
    intro C hC hf
    cases C with
    | nil => simp at hC
    | cons c C' =>
      have h0 : f a = .ok c := by simpa using hf 0 (by simp)
      have hrest : l.mapM f = .ok C' := by
        refine ih C' (by simpa using hC) (fun k hk => ?_)
        simpa using hf (k + 1) (by simpa using Nat.succ_lt_succ hk)
      rw [List.mapM_cons, h0, hrest]
      rfl

theorem mapM_ok_exists (f : Nat → Except Error Nat) :
    ∀ (l : List Nat), (∀ a ∈ l, ∃ v, f a = .ok v) → ∃ C, l.mapM f = .ok C := by
  intro l
  induction l with
  | nil => exact fun _ => ⟨[], rfl⟩
  | cons a l ih =>
    intro h
    obtain ⟨v, hv⟩ := h a (by simp)
    obtain ⟨C, hC⟩ := ih (fun b hb => h b (by simp [hb]))
    exact ⟨v :: C, by rw [List.mapM_cons, hv, hC]; rfl⟩

theorem except_bind_pure {β : Type} (e : Except Error β) : (e >>= pure) = e := by
  cases e <;> rfl

theorem foldlM_range_succ {β : Type} (g : β → Nat → Except Error β) (b t : β) (n : Nat)
    (h : (List.range n).foldlM g b = .ok t) :
    (List.range (n + 1)).foldlM g b = g t n := by
  rw [List.range_succ, List.foldlM_append, h]
  show List.foldlM g t [n] = g t n
  simp only [List.foldlM_cons, List.foldlM_nil]
  exact except_bind_pure _

/-- The central fold invariant: running `from_colormap` writes each pixel once,
and afterwards every pixel reads back its colormap entry. -/
theorem roundtrip_generic {α : Type} [SNESTile α] (P : Nat → Prop) (Inv : α → Prop)
    (hnew : Inv (SNESTile.new : α))
    (hset : ∀ t x y v, Inv t → x < 8 → y < 8 → P v →
      ∃ t', SNESTile.set_value t x y v = .ok t' ∧ Inv t')
    (hsame : ∀ t t' x y v, Inv t → x < 8 → y < 8 → P v →
      SNESTile.set_value t x y v = .ok t' → SNESTile.get_value t' x y = .ok v)
    (hother : ∀ t t' x y v x' y', Inv t → x < 8 → y < 8 → P v → x' < 8 → y' < 8 →
      ¬(x' = x ∧ y' = y) → SNESTile.set_value t x y v = .ok t' →
      SNESTile.get_value t' x' y' = SNESTile.get_value t x' y')
    (C : List Nat) (hC : C.length = 64) (hP : ∀ k, k < 64 → P (C.getD k 0)) :
    ∃ t : α, SNESTile.from_colormap C = .ok t ∧ SNESTile.to_colormap t = .ok C := by
  have main : ∀ n, n ≤ 64 → ∃ t : α,
      (List.range n).foldlM
        (fun t i => SNESTile.set_value t (i % 8) (i / 8) (C.getD i 0))
        (SNESTile.new : α) = .ok t ∧ Inv t ∧
      ∀ k, k < n → SNESTile.get_value t (k % 8) (k / 8) = .ok (C.getD k 0) := by
    intro n
    induction n with
    | zero => exact fun _ => ⟨SNESTile.new, rfl, hnew, fun k hk => absurd hk (by omega)⟩
    | succ m ih =>
      intro hm
      obtain ⟨t, hfold, hinv, hreads⟩ := ih (by omega)
      have hx : m % 8 < 8 := Nat.mod_lt _ (by norm_num)
      have hy : m / 8 < 8 := by omega
      obtain ⟨t', hset', hinv'⟩ :=
        hset t (m % 8) (m / 8) (C.getD m 0) hinv hx hy (hP m (by omega))
      refine ⟨t', ?_, hinv', ?_⟩
      · rw [foldlM_range_succ _ _ t _ hfold]
        exact hset'
      · intro k hk
        rcases Nat.lt_or_ge k m with h | h
        · rw [hother t t' (m % 8) (m / 8) (C.getD m 0) (k % 8) (k / 8) hinv hx hy
            (hP m (by omega)) (Nat.mod_lt _ (by norm_num)) (by omega)
            (by rintro ⟨h1, h2⟩; omega) hset']
          exact hreads k h
        · have he : k = m := by omega
          subst he
          exact hsame t t' _ _ _ hinv hx hy (hP k (by omega)) hset'
  obtain ⟨t, hfold, _, hreads⟩ := main 64 (le_refl 64)
  refine ⟨t, ?_, ?_⟩
  · rw [SNESTile.from_colormap, hC]
    exact hfold
  · rw [SNESTile.to_colormap]
    refine mapM_ok_pointwise _ _ _ (by simp [hC]) (fun k hk => ?_)
    rw [List.length_range] at hk
    rw [getD_range _ _ hk]
    exact hreads k hk

/-- `to_colormap` succeeds whenever every in-bounds `get_value` succeeds. -/
theorem to_colormap_ok_of_get_total {α : Type} [SNESTile α] (t : α)
    (h : ∀ x y, x < 8 → y < 8 → ∃ v, SNESTile.get_value t x y = .ok v) :
    ∃ cm, SNESTile.to_colormap t = .ok cm := by
  rw [SNESTile.to_colormap]
  refine mapM_ok_exists _ _ (fun a ha => ?_)
  rw [List.mem_range] at ha
  exact h (a % 8) (a / 8) (Nat.mod_lt _ (by norm_num)) (by omega)

/-! ### Reading bytes through the clear and write passes -/

theorem readBit_passes_mem (i j : Nat) (prs : List (Nat × Nat)) (dd : List Nat)
    (off w : Nat) (hnd : (prs.map Prod.fst).Nodup) (hmem : (off, w) ∈ prs)
    (hlt : off < dd.length) :
    readBit j (writePass i prs (clearPass i prs dd)) off
      = (((dd.getD off 0 &&& ((1 <<< i) ^^^ 0xFF)) ||| (w <<< i)) &&& (1 <<< j)) >>> j := by
  rw [readBit, writePass, clearPass,
    getD_sweep_mem _ _ _ _ _ hnd hmem (by rw [sweep_length]; exact hlt),
    getD_sweep_mem _ _ _ _ _ hnd hmem hlt]

theorem readBit_passes_same (i : Nat) (prs : List (Nat × Nat)) (dd : List Nat)
    (off w : Nat) (hnd : (prs.map Prod.fst).Nodup) (hmem : (off, w) ∈ prs)
    (hlt : off < dd.length) (hw : w ≤ 1) (hi : i ≤ 7) :
    readBit i (writePass i prs (clearPass i prs dd)) off = w := by
  rw [readBit_passes_mem i i prs dd off w hnd hmem hlt]
  exact readBit_write_same _ _ _ hw hi

theorem readBit_passes_other (i j : Nat) (prs : List (Nat × Nat)) (dd : List Nat)
    (off w : Nat) (hnd : (prs.map Prod.fst).Nodup) (hmem : (off, w) ∈ prs)
    (hlt : off < dd.length) (hw : w ≤ 1) (hi : i ≤ 7) (hj : j ≤ 7) (hne : j ≠ i) :
    readBit j (writePass i prs (clearPass i prs dd)) off = readBit j dd off := by
  rw [readBit_passes_mem i j prs dd off w hnd hmem hlt, readBit]
  exact readBit_write_other _ _ _ _ hw hi hj hne

theorem readBit_passes_notin (i j : Nat) (prs : List (Nat × Nat)) (dd : List Nat)
    (off : Nat) (hoff : off ∉ prs.map Prod.fst) :
    readBit j (writePass i prs (clearPass i prs dd)) off = readBit j dd off := by
  rw [readBit, readBit, writePass, clearPass, getD_sweep_notin _ _ _ _ hoff,
    getD_sweep_notin _ _ _ _ hoff]

/-! ### Value reassembly from plane bits -/

theorem asm2 : ∀ u < 4, ((u &&& 1) >>> 0) ||| (((u &&& 2) >>> 1) <<< 1) = u := by decide

theorem asm3 : ∀ u < 8,
    ((u &&& 1) >>> 0) ||| (((u &&& 2) >>> 1) <<< 1) ||| (((u &&& 4) >>> 2) <<< 2) = u := by
  decide

theorem asm4 : ∀ u < 16,
    ((u &&& 1) >>> 0) ||| (((u &&& 2) >>> 1) <<< 1) ||| (((u &&& 4) >>> 2) <<< 2) |||
      (((u &&& 8) >>> 3) <<< 3) = u := by decide

theorem asm8p : ∀ u < 16,
    ((u &&& 0x01) >>> 0) ||| (((u &&& 0x02) >>> 1) <<< 1) ||| (((u &&& 0x04) >>> 2) <<< 2) |||
      (((u &&& 0x08) >>> 3) <<< 3) ||| (((u &&& 0x10) >>> 4) <<< 4) |||
      (((u &&& 0x20) >>> 5) <<< 5) ||| (((u &&& 0x40) >>> 6) <<< 6) |||
      (((u &&& 0x80) >>> 7) <<< 7) = u := by decide

set_option maxRecDepth 100000 in
theorem asm8 : ∀ u < 256,
    ((u &&& 0x01) >>> 0) ||| (((u &&& 0x02) >>> 1) <<< 1) ||| (((u &&& 0x04) >>> 2) <<< 2) |||
      (((u &&& 0x08) >>> 3) <<< 3) ||| (((u &&& 0x10) >>> 4) <<< 4) |||
      (((u &&& 0x20) >>> 5) <<< 5) ||| (((u &&& 0x40) >>> 6) <<< 6) |||
      (((u &&& 0x80) >>> 7) <<< 7) = u := by decide

/-! ### Per-format pixel read-back lemmas -/

namespace SNESTile1BPP

theorem set_ok_1BPP (t : SNESTile1BPP) (x y v : Nat)
    (hx : x < 8) (hy : y < 8) (hv : v < 2) :
    set_value t x y v =
      .ok ⟨writePass (7 - x) [(y, v)]
        (clearPass (7 - x) [(y, v)] t.data)⟩ := by
  simp only [set_value, if_neg (Nat.not_le.mpr hx), if_neg (Nat.not_le.mpr hy),
    if_neg (Nat.not_le.mpr hv)]

theorem get_in_bounds_1BPP (t : SNESTile1BPP) (x y : Nat) (hx : x < 8) (hy : y < 8) :
    get_value t x y =
      .ok (readBit (7 - x) t.data y) := by
  simp only [get_value, if_neg (Nat.not_le.mpr hx), if_neg (Nat.not_le.mpr hy)]

theorem get_set_same_1BPP (t t' : SNESTile1BPP) (x y v : Nat) (hlen : t.data.length = 8)
    (hx : x < 8) (hy : y < 8) (hv : v < 2) (hs : set_value t x y v = .ok t') :
    get_value t' x y = .ok v := by
  rw [set_ok_1BPP t x y v hx hy hv] at hs
  cases hs
  rw [get_in_bounds_1BPP _ x y hx hy]
  have hnd : (([(y, v)]).map Prod.fst).Nodup := by
    simp [List.nodup_cons] <;> omega
  have hi : 7 - x ≤ 7 := by omega
  rw [readBit_passes_same (7 - x) _ t.data (y) (v) hnd (by simp)
      (by rw [hlen]; omega) (by omega) hi]

theorem get_set_other_1BPP (t t' : SNESTile1BPP) (x y v x' y' : Nat)
    (hlen : t.data.length = 8) (hx : x < 8) (hy : y < 8) (hv : v < 2)
    (hx' : x' < 8) (hy' : y' < 8) (hne : ¬(x' = x ∧ y' = y))
    (hs : set_value t x y v = .ok t') :
    get_value t' x' y' = get_value t x' y' := by
  rw [set_ok_1BPP t x y v hx hy hv] at hs
  cases hs
  rw [get_in_bounds_1BPP _ x' y' hx' hy', get_in_bounds_1BPP t x' y' hx' hy']
  by_cases hyy : y' = y
  · subst hyy
    have hxx : x' ≠ x := fun h => hne ⟨h, rfl⟩
    have hnd : (([(y', v)]).map Prod.fst).Nodup := by
      simp [List.nodup_cons] <;> omega
    have hi : 7 - x ≤ 7 := by omega
    have hj : 7 - x' ≤ 7 := by omega
    have hjne : 7 - x' ≠ 7 - x := by omega
    rw [readBit_passes_other (7 - x) (7 - x') _ t.data (y') (v) hnd
        (by simp) (by rw [hlen]; omega) (by omega) hi hj hjne]
  ·
    rw [readBit_passes_notin _ _ _ _ _ (by simp <;> omega)]

end SNESTile1BPP

namespace SNESTile2BPPPlanar

theorem set_ok_2BPPPlanar (t : SNESTile2BPPPlanar) (x y v : Nat)
    (hx : x < 8) (hy : y < 8) (hv : v < 4) :
    set_value t x y v =
      .ok ⟨writePass (7 - x) [(y, (v &&& 1) >>> 0), (y + 0x8, (v &&& 2) >>> 1)]
        (clearPass (7 - x) [(y, (v &&& 1) >>> 0), (y + 0x8, (v &&& 2) >>> 1)] t.data)⟩ := by
  simp only [set_value, if_neg (Nat.not_le.mpr hx), if_neg (Nat.not_le.mpr hy),
    if_neg (Nat.not_le.mpr hv)]

theorem get_in_bounds_2BPPPlanar (t : SNESTile2BPPPlanar) (x y : Nat) (hx : x < 8) (hy : y < 8) :
    get_value t x y =
      .ok (readBit (7 - x) t.data y ||| (readBit (7 - x) t.data (y + 0x8) <<< 1)) := by
  simp only [get_value, if_neg (Nat.not_le.mpr hx), if_neg (Nat.not_le.mpr hy)]

theorem get_set_same_2BPPPlanar (t t' : SNESTile2BPPPlanar) (x y v : Nat) (hlen : t.data.length = 16)
    (hx : x < 8) (hy : y < 8) (hv : v < 4) (hs : set_value t x y v = .ok t') :
    get_value t' x y = .ok v := by
  rw [set_ok_2BPPPlanar t x y v hx hy hv] at hs
  cases hs
  rw [get_in_bounds_2BPPPlanar _ x y hx hy]
  have hnd : (([(y, (v &&& 1) >>> 0), (y + 0x8, (v &&& 2) >>> 1)]).map Prod.fst).Nodup := by
    simp [List.nodup_cons] <;> omega
  have hi : 7 - x ≤ 7 := by omega
  rw [readBit_passes_same (7 - x) _ t.data (y) ((v &&& 1) >>> 0) hnd (by simp)
      (by rw [hlen]; omega) (and_mask_shift_le_one v 1 0 (by decide)) hi]
  rw [readBit_passes_same (7 - x) _ t.data (y + 0x8) ((v &&& 2) >>> 1) hnd (by simp)
      (by rw [hlen]; omega) (and_mask_shift_le_one v 2 1 (by decide)) hi]
  rw [asm2 v hv]

theorem get_set_other_2BPPPlanar (t t' : SNESTile2BPPPlanar) (x y v x' y' : Nat)
    (hlen : t.data.length = 16) (hx : x < 8) (hy : y < 8) (hv : v < 4)
    (hx' : x' < 8) (hy' : y' < 8) (hne : ¬(x' = x ∧ y' = y))
    (hs : set_value t x y v = .ok t') :
    get_value t' x' y' = get_value t x' y' := by
  rw [set_ok_2BPPPlanar t x y v hx hy hv] at hs
  cases hs
  rw [get_in_bounds_2BPPPlanar _ x' y' hx' hy', get_in_bounds_2BPPPlanar t x' y' hx' hy']
  by_cases hyy : y' = y
  · subst hyy
    have hxx : x' ≠ x := fun h => hne ⟨h, rfl⟩
    have hnd : (([(y', (v &&& 1) >>> 0), (y' + 0x8, (v &&& 2) >>> 1)]).map Prod.fst).Nodup := by
      simp [List.nodup_cons] <;> omega
    have hi : 7 - x ≤ 7 := by omega
    have hj : 7 - x' ≤ 7 := by omega
    have hjne : 7 - x' ≠ 7 - x := by omega
    rw [readBit_passes_other (7 - x) (7 - x') _ t.data (y') ((v &&& 1) >>> 0) hnd
        (by simp) (by rw [hlen]; omega) (and_mask_shift_le_one v 1 0 (by decide)) hi hj hjne]
    rw [readBit_passes_other (7 - x) (7 - x') _ t.data (y' + 0x8) ((v &&& 2) >>> 1) hnd
        (by simp) (by rw [hlen]; omega) (and_mask_shift_le_one v 2 1 (by decide)) hi hj hjne]
  ·
    rw [readBit_passes_notin _ _ _ _ _ (by simp <;> omega)]
    rw [readBit_passes_notin _ _ _ _ _ (by simp <;> omega)]

end SNESTile2BPPPlanar

namespace SNESTile2BPPIntertwined

theorem set_ok_2BPPIntertwined (t : SNESTile2BPPIntertwined) (x y v : Nat)
    (hx : x < 8) (hy : y < 8) (hv : v < 4) :
    set_value t x y v =
      .ok ⟨writePass (7 - x) [(y * 2, (v &&& 1) >>> 0), (y * 2 + 1, (v &&& 2) >>> 1)]
        (clearPass (7 - x) [(y * 2, (v &&& 1) >>> 0), (y * 2 + 1, (v &&& 2) >>> 1)] t.data)⟩ := by
  simp only [set_value, if_neg (Nat.not_le.mpr hx), if_neg (Nat.not_le.mpr hy),
    if_neg (Nat.not_le.mpr hv)]

theorem get_in_bounds_2BPPIntertwined (t : SNESTile2BPPIntertwined) (x y : Nat) (hx : x < 8) (hy : y < 8) :
    get_value t x y =
      .ok (readBit (7 - x) t.data (y * 2) ||| (readBit (7 - x) t.data (y * 2 + 1) <<< 1)) := by
  simp only [get_value, if_neg (Nat.not_le.mpr hx), if_neg (Nat.not_le.mpr hy)]

theorem get_set_same_2BPPIntertwined (t t' : SNESTile2BPPIntertwined) (x y v : Nat) (hlen : t.data.length = 16)
    (hx : x < 8) (hy : y < 8) (hv : v < 4) (hs : set_value t x y v = .ok t') :
    get_value t' x y = .ok v := by
  rw [set_ok_2BPPIntertwined t x y v hx hy hv] at hs
  cases hs
  rw [get_in_bounds_2BPPIntertwined _ x y hx hy]
  have hnd : (([(y * 2, (v &&& 1) >>> 0), (y * 2 + 1, (v &&& 2) >>> 1)]).map Prod.fst).Nodup := by
    simp [List.nodup_cons] <;> omega
  have hi : 7 - x ≤ 7 := by omega
  rw [readBit_passes_same (7 - x) _ t.data (y * 2) ((v &&& 1) >>> 0) hnd (by simp)
      (by rw [hlen]; omega) (and_mask_shift_le_one v 1 0 (by decide)) hi]
  rw [readBit_passes_same (7 - x) _ t.data (y * 2 + 1) ((v &&& 2) >>> 1) hnd (by simp)
      (by rw [hlen]; omega) (and_mask_shift_le_one v 2 1 (by decide)) hi]
  rw [asm2 v hv]

theorem get_set_other_2BPPIntertwined (t t' : SNESTile2BPPIntertwined) (x y v x' y' : Nat)
    (hlen : t.data.length = 16) (hx : x < 8) (hy : y < 8) (hv : v < 4)
    (hx' : x' < 8) (hy' : y' < 8) (hne : ¬(x' = x ∧ y' = y))
    (hs : set_value t x y v = .ok t') :
    get_value t' x' y' = get_value t x' y' := by
  rw [set_ok_2BPPIntertwined t x y v hx hy hv] at hs
  cases hs
  rw [get_in_bounds_2BPPIntertwined _ x' y' hx' hy', get_in_bounds_2BPPIntertwined t x' y' hx' hy']
  by_cases hyy : y' = y
  · subst hyy
    have hxx : x' ≠ x := fun h => hne ⟨h, rfl⟩
    have hnd : (([(y' * 2, (v &&& 1) >>> 0), (y' * 2 + 1, (v &&& 2) >>> 1)]).map Prod.fst).Nodup := by
      simp [List.nodup_cons] <;> omega
    have hi : 7 - x ≤ 7 := by omega
    have hj : 7 - x' ≤ 7 := by omega
    have hjne : 7 - x' ≠ 7 - x := by omega
    rw [readBit_passes_other (7 - x) (7 - x') _ t.data (y' * 2) ((v &&& 1) >>> 0) hnd
        (by simp) (by rw [hlen]; omega) (and_mask_shift_le_one v 1 0 (by decide)) hi hj hjne]
    rw [readBit_passes_other (7 - x) (7 - x') _ t.data (y' * 2 + 1) ((v &&& 2) >>> 1) hnd
        (by simp) (by rw [hlen]; omega) (and_mask_shift_le_one v 2 1 (by decide)) hi hj hjne]
  ·
    rw [readBit_passes_notin _ _ _ _ _ (by simp <;> omega)]
    rw [readBit_passes_notin _ _ _ _ _ (by simp <;> omega)]

end SNESTile2BPPIntertwined

namespace SNESTile3BPPPlanar

theorem set_ok_3BPPPlanar (t : SNESTile3BPPPlanar) (x y v : Nat)
    (hx : x < 8) (hy : y < 8) (hv : v < 8) :
    set_value t x y v =
      .ok ⟨writePass (7 - x) [(y, (v &&& 1) >>> 0), (y + 0x8, (v &&& 2) >>> 1), (y + 0x10, (v &&& 4) >>> 2)]
        (clearPass (7 - x) [(y, (v &&& 1) >>> 0), (y + 0x8, (v &&& 2) >>> 1), (y + 0x10, (v &&& 4) >>> 2)] t.data)⟩ := by
  simp only [set_value, if_neg (Nat.not_le.mpr hx), if_neg (Nat.not_le.mpr hy),
    if_neg (Nat.not_le.mpr hv)]

theorem get_in_bounds_3BPPPlanar (t : SNESTile3BPPPlanar) (x y : Nat) (hx : x < 8) (hy : y < 8) :
    get_value t x y =
      .ok (readBit (7 - x) t.data y ||| (readBit (7 - x) t.data (y + 0x8) <<< 1) ||| (readBit (7 - x) t.data (y + 0x10) <<< 2)) := by
  simp only [get_value, if_neg (Nat.not_le.mpr hx), if_neg (Nat.not_le.mpr hy)]

theorem get_set_same_3BPPPlanar (t t' : SNESTile3BPPPlanar) (x y v : Nat) (hlen : t.data.length = 24)
    (hx : x < 8) (hy : y < 8) (hv : v < 8) (hs : set_value t x y v = .ok t') :
    get_value t' x y = .ok v := by
  rw [set_ok_3BPPPlanar t x y v hx hy hv] at hs
  cases hs
  rw [get_in_bounds_3BPPPlanar _ x y hx hy]
  have hnd : (([(y, (v &&& 1) >>> 0), (y + 0x8, (v &&& 2) >>> 1), (y + 0x10, (v &&& 4) >>> 2)]).map Prod.fst).Nodup := by
    simp [List.nodup_cons] <;> omega
  have hi : 7 - x ≤ 7 := by omega
  rw [readBit_passes_same (7 - x) _ t.data (y) ((v &&& 1) >>> 0) hnd (by simp)
      (by rw [hlen]; omega) (and_mask_shift_le_one v 1 0 (by decide)) hi]
  rw [readBit_passes_same (7 - x) _ t.data (y + 0x8) ((v &&& 2) >>> 1) hnd (by simp)
      (by rw [hlen]; omega) (and_mask_shift_le_one v 2 1 (by decide)) hi]
  rw [readBit_passes_same (7 - x) _ t.data (y + 0x10) ((v &&& 4) >>> 2) hnd (by simp)
      (by rw [hlen]; omega) (and_mask_shift_le_one v 4 2 (by decide)) hi]
  rw [asm3 v hv]

theorem get_set_other_3BPPPlanar (t t' : SNESTile3BPPPlanar) (x y v x' y' : Nat)
    (hlen : t.data.length = 24) (hx : x < 8) (hy : y < 8) (hv : v < 8)
    (hx' : x' < 8) (hy' : y' < 8) (hne : ¬(x' = x ∧ y' = y))
    (hs : set_value t x y v = .ok t') :
    get_value t' x' y' = get_value t x' y' := by
  rw [set_ok_3BPPPlanar t x y v hx hy hv] at hs
  cases hs
  rw [get_in_bounds_3BPPPlanar _ x' y' hx' hy', get_in_bounds_3BPPPlanar t x' y' hx' hy']
  by_cases hyy : y' = y
  · subst hyy
    have hxx : x' ≠ x := fun h => hne ⟨h, rfl⟩
    have hnd : (([(y', (v &&& 1) >>> 0), (y' + 0x8, (v &&& 2) >>> 1), (y' + 0x10, (v &&& 4) >>> 2)]).map Prod.fst).Nodup := by
      simp [List.nodup_cons] <;> omega
    have hi : 7 - x ≤ 7 := by omega
    have hj : 7 - x' ≤ 7 := by omega
    have hjne : 7 - x' ≠ 7 - x := by omega
    rw [readBit_passes_other (7 - x) (7 - x') _ t.data (y') ((v &&& 1) >>> 0) hnd
        (by simp) (by rw [hlen]; omega) (and_mask_shift_le_one v 1 0 (by decide)) hi hj hjne]
    rw [readBit_passes_other (7 - x) (7 - x') _ t.data (y' + 0x8) ((v &&& 2) >>> 1) hnd
        (by simp) (by rw [hlen]; omega) (and_mask_shift_le_one v 2 1 (by decide)) hi hj hjne]
    rw [readBit_passes_other (7 - x) (7 - x') _ t.data (y' + 0x10) ((v &&& 4) >>> 2) hnd
        (by simp) (by rw [hlen]; omega) (and_mask_shift_le_one v 4 2 (by decide)) hi hj hjne]
  ·
    rw [readBit_passes_notin _ _ _ _ _ (by simp <;> omega)]
    rw [readBit_passes_notin _ _ _ _ _ (by simp <;> omega)]
    rw [readBit_passes_notin _ _ _ _ _ (by simp <;> omega)]

end SNESTile3BPPPlanar

namespace SNESTile3BPPIntertwined

theorem set_ok_3BPPIntertwined (t : SNESTile3BPPIntertwined) (x y v : Nat)
    (hx : x < 8) (hy : y < 8) (hv : v < 8) :
    set_value t x y v =
      .ok ⟨writePass (7 - x) [(y * 2, (v &&& 1) >>> 0), (y * 2 + 1, (v &&& 2) >>> 1), (y + 0x10, (v &&& 4) >>> 2)]
        (clearPass (7 - x) [(y * 2, (v &&& 1) >>> 0), (y * 2 + 1, (v &&& 2) >>> 1), (y + 0x10, (v &&& 4) >>> 2)] t.data)⟩ := by
  simp only [set_value, if_neg (Nat.not_le.mpr hx), if_neg (Nat.not_le.mpr hy),
    if_neg (Nat.not_le.mpr hv)]

theorem get_in_bounds_3BPPIntertwined (t : SNESTile3BPPIntertwined) (x y : Nat) (hx : x < 8) (hy : y < 8) :
    get_value t x y =
      .ok (readBit (7 - x) t.data (y * 2) ||| (readBit (7 - x) t.data (y * 2 + 1) <<< 1) ||| (readBit (7 - x) t.data (y + 0x10) <<< 2)) := by
  simp only [get_value, if_neg (Nat.not_le.mpr hx), if_neg (Nat.not_le.mpr hy)]

theorem get_set_same_3BPPIntertwined (t t' : SNESTile3BPPIntertwined) (x y v : Nat) (hlen : t.data.length = 24)
    (hx : x < 8) (hy : y < 8) (hv : v < 8) (hs : set_value t x y v = .ok t') :
    get_value t' x y = .ok v := by
  rw [set_ok_3BPPIntertwined t x y v hx hy hv] at hs
  cases hs
  rw [get_in_bounds_3BPPIntertwined _ x y hx hy]
  have hnd : (([(y * 2, (v &&& 1) >>> 0), (y * 2 + 1, (v &&& 2) >>> 1), (y + 0x10, (v &&& 4) >>> 2)]).map Prod.fst).Nodup := by
    simp [List.nodup_cons] <;> omega
  have hi : 7 - x ≤ 7 := by omega
  rw [readBit_passes_same (7 - x) _ t.data (y * 2) ((v &&& 1) >>> 0) hnd (by simp)
      (by rw [hlen]; omega) (and_mask_shift_le_one v 1 0 (by decide)) hi]
  rw [readBit_passes_same (7 - x) _ t.data (y * 2 + 1) ((v &&& 2) >>> 1) hnd (by simp)
      (by rw [hlen]; omega) (and_mask_shift_le_one v 2 1 (by decide)) hi]
  rw [readBit_passes_same (7 - x) _ t.data (y + 0x10) ((v &&& 4) >>> 2) hnd (by simp)
      (by rw [hlen]; omega) (and_mask_shift_le_one v 4 2 (by decide)) hi]
  rw [asm3 v hv]

theorem get_set_other_3BPPIntertwined (t t' : SNESTile3BPPIntertwined) (x y v x' y' : Nat)
    (hlen : t.data.length = 24) (hx : x < 8) (hy : y < 8) (hv : v < 8)
    (hx' : x' < 8) (hy' : y' < 8) (hne : ¬(x' = x ∧ y' = y))
    (hs : set_value t x y v = .ok t') :
    get_value t' x' y' = get_value t x' y' := by
  rw [set_ok_3BPPIntertwined t x y v hx hy hv] at hs
  cases hs
  rw [get_in_bounds_3BPPIntertwined _ x' y' hx' hy', get_in_bounds_3BPPIntertwined t x' y' hx' hy']
  by_cases hyy : y' = y
  · subst hyy
    have hxx : x' ≠ x := fun h => hne ⟨h, rfl⟩
    have hnd : (([(y' * 2, (v &&& 1) >>> 0), (y' * 2 + 1, (v &&& 2) >>> 1), (y' + 0x10, (v &&& 4) >>> 2)]).map Prod.fst).Nodup := by
      simp [List.nodup_cons] <;> omega
    have hi : 7 - x ≤ 7 := by omega
    have hj : 7 - x' ≤ 7 := by omega
    have hjne : 7 - x' ≠ 7 - x := by omega
    rw [readBit_passes_other (7 - x) (7 - x') _ t.data (y' * 2) ((v &&& 1) >>> 0) hnd
        (by simp) (by rw [hlen]; omega) (and_mask_shift_le_one v 1 0 (by decide)) hi hj hjne]
    rw [readBit_passes_other (7 - x) (7 - x') _ t.data (y' * 2 + 1) ((v &&& 2) >>> 1) hnd
        (by simp) (by rw [hlen]; omega) (and_mask_shift_le_one v 2 1 (by decide)) hi hj hjne]
    rw [readBit_passes_other (7 - x) (7 - x') _ t.data (y' + 0x10) ((v &&& 4) >>> 2) hnd
        (by simp) (by rw [hlen]; omega) (and_mask_shift_le_one v 4 2 (by decide)) hi hj hjne]
  ·
    rw [readBit_passes_notin _ _ _ _ _ (by simp <;> omega)]
    rw [readBit_passes_notin _ _ _ _ _ (by simp <;> omega)]
    rw [readBit_passes_notin _ _ _ _ _ (by simp <;> omega)]

end SNESTile3BPPIntertwined

namespace SNESTile4BPPPlanar

theorem set_ok_4BPPPlanar (t : SNESTile4BPPPlanar) (x y v : Nat)
    (hx : x < 8) (hy : y < 8) (hv : v < 16) :
    set_value t x y v =
      .ok ⟨writePass (7 - x) [(y, (v &&& 1) >>> 0), (y + 0x8, (v &&& 2) >>> 1), (y + 0x10, (v &&& 4) >>> 2), (y + 0x18, (v &&& 8) >>> 3)]
        (clearPass (7 - x) [(y, (v &&& 1) >>> 0), (y + 0x8, (v &&& 2) >>> 1), (y + 0x10, (v &&& 4) >>> 2), (y + 0x18, (v &&& 8) >>> 3)] t.data)⟩ := by
  simp only [set_value, if_neg (Nat.not_le.mpr hx), if_neg (Nat.not_le.mpr hy),
    if_neg (Nat.not_le.mpr hv)]

theorem get_in_bounds_4BPPPlanar (t : SNESTile4BPPPlanar) (x y : Nat) (hx : x < 8) (hy : y < 8) :
    get_value t x y =
      .ok (readBit (7 - x) t.data y ||| (readBit (7 - x) t.data (y + 0x8) <<< 1) ||| (readBit (7 - x) t.data (y + 0x10) <<< 2) ||| (readBit (7 - x) t.data (y + 0x18) <<< 3)) := by
  simp only [get_value, if_neg (Nat.not_le.mpr hx), if_neg (Nat.not_le.mpr hy)]

theorem get_set_same_4BPPPlanar (t t' : SNESTile4BPPPlanar) (x y v : Nat) (hlen : t.data.length = 32)
    (hx : x < 8) (hy : y < 8) (hv : v < 16) (hs : set_value t x y v = .ok t') :
    get_value t' x y = .ok v := by
  rw [set_ok_4BPPPlanar t x y v hx hy hv] at hs
  cases hs
  rw [get_in_bounds_4BPPPlanar _ x y hx hy]
  have hnd : (([(y, (v &&& 1) >>> 0), (y + 0x8, (v &&& 2) >>> 1), (y + 0x10, (v &&& 4) >>> 2), (y + 0x18, (v &&& 8) >>> 3)]).map Prod.fst).Nodup := by
    simp [List.nodup_cons] <;> omega
  have hi : 7 - x ≤ 7 := by omega
  rw [readBit_passes_same (7 - x) _ t.data (y) ((v &&& 1) >>> 0) hnd (by simp)
      (by rw [hlen]; omega) (and_mask_shift_le_one v 1 0 (by decide)) hi]
  rw [readBit_passes_same (7 - x) _ t.data (y + 0x8) ((v &&& 2) >>> 1) hnd (by simp)
      (by rw [hlen]; omega) (and_mask_shift_le_one v 2 1 (by decide)) hi]
  rw [readBit_passes_same (7 - x) _ t.data (y + 0x10) ((v &&& 4) >>> 2) hnd (by simp)
      (by rw [hlen]; omega) (and_mask_shift_le_one v 4 2 (by decide)) hi]
  rw [readBit_passes_same (7 - x) _ t.data (y + 0x18) ((v &&& 8) >>> 3) hnd (by simp)
      (by rw [hlen]; omega) (and_mask_shift_le_one v 8 3 (by decide)) hi]
  rw [asm4 v hv]

theorem get_set_other_4BPPPlanar (t t' : SNESTile4BPPPlanar) (x y v x' y' : Nat)
    (hlen : t.data.length = 32) (hx : x < 8) (hy : y < 8) (hv : v < 16)
    (hx' : x' < 8) (hy' : y' < 8) (hne : ¬(x' = x ∧ y' = y))
    (hs : set_value t x y v = .ok t') :
    get_value t' x' y' = get_value t x' y' := by
  rw [set_ok_4BPPPlanar t x y v hx hy hv] at hs
  cases hs
  rw [get_in_bounds_4BPPPlanar _ x' y' hx' hy', get_in_bounds_4BPPPlanar t x' y' hx' hy']
  by_cases hyy : y' = y
  · subst hyy
    have hxx : x' ≠ x := fun h => hne ⟨h, rfl⟩
    have hnd : (([(y', (v &&& 1) >>> 0), (y' + 0x8, (v &&& 2) >>> 1), (y' + 0x10, (v &&& 4) >>> 2), (y' + 0x18, (v &&& 8) >>> 3)]).map Prod.fst).Nodup := by
      simp [List.nodup_cons] <;> omega
    have hi : 7 - x ≤ 7 := by omega
    have hj : 7 - x' ≤ 7 := by omega
    have hjne : 7 - x' ≠ 7 - x := by omega
    rw [readBit_passes_other (7 - x) (7 - x') _ t.data (y') ((v &&& 1) >>> 0) hnd
        (by simp) (by rw [hlen]; omega) (and_mask_shift_le_one v 1 0 (by decide)) hi hj hjne]
    rw [readBit_passes_other (7 - x) (7 - x') _ t.data (y' + 0x8) ((v &&& 2) >>> 1) hnd
        (by simp) (by rw [hlen]; omega) (and_mask_shift_le_one v 2 1 (by decide)) hi hj hjne]
    rw [readBit_passes_other (7 - x) (7 - x') _ t.data (y' + 0x10) ((v &&& 4) >>> 2) hnd
        (by simp) (by rw [hlen]; omega) (and_mask_shift_le_one v 4 2 (by decide)) hi hj hjne]
    rw [readBit_passes_other (7 - x) (7 - x') _ t.data (y' + 0x18) ((v &&& 8) >>> 3) hnd
        (by simp) (by rw [hlen]; omega) (and_mask_shift_le_one v 8 3 (by decide)) hi hj hjne]
  ·
    rw [readBit_passes_notin _ _ _ _ _ (by simp <;> omega)]
    rw [readBit_passes_notin _ _ _ _ _ (by simp <;> omega)]
    rw [readBit_passes_notin _ _ _ _ _ (by simp <;> omega)]
    rw [readBit_passes_notin _ _ _ _ _ (by simp <;> omega)]

end SNESTile4BPPPlanar

namespace SNESTile4BPPIntertwined

theorem set_ok_4BPPIntertwined (t : SNESTile4BPPIntertwined) (x y v : Nat)
    (hx : x < 8) (hy : y < 8) (hv : v < 16) :
    set_value t x y v =
      .ok ⟨writePass (7 - x) [(y * 2 + 0x00, (v &&& 1) >>> 0), (y * 2 + 0x01, (v &&& 2) >>> 1), (y * 2 + 0x10, (v &&& 4) >>> 2), (y * 2 + 0x11, (v &&& 8) >>> 3)]
        (clearPass (7 - x) [(y * 2 + 0x00, (v &&& 1) >>> 0), (y * 2 + 0x01, (v &&& 2) >>> 1), (y * 2 + 0x10, (v &&& 4) >>> 2), (y * 2 + 0x11, (v &&& 8) >>> 3)] t.data)⟩ := by
  simp only [set_value, if_neg (Nat.not_le.mpr hx), if_neg (Nat.not_le.mpr hy),
    if_neg (Nat.not_le.mpr hv)]

theorem get_in_bounds_4BPPIntertwined (t : SNESTile4BPPIntertwined) (x y : Nat) (hx : x < 8) (hy : y < 8) :
    get_value t x y =
      .ok (readBit (7 - x) t.data (y * 2 + 0x00) ||| (readBit (7 - x) t.data (y * 2 + 0x01) <<< 1) ||| (readBit (7 - x) t.data (y * 2 + 0x10) <<< 2) ||| (readBit (7 - x) t.data (y * 2 + 0x11) <<< 3)) := by
  simp only [get_value, if_neg (Nat.not_le.mpr hx), if_neg (Nat.not_le.mpr hy)]

theorem get_set_same_4BPPIntertwined (t t' : SNESTile4BPPIntertwined) (x y v : Nat) (hlen : t.data.length = 32)
    (hx : x < 8) (hy : y < 8) (hv : v < 16) (hs : set_value t x y v = .ok t') :
    get_value t' x y = .ok v := by
  rw [set_ok_4BPPIntertwined t x y v hx hy hv] at hs
  cases hs
  rw [get_in_bounds_4BPPIntertwined _ x y hx hy]
  have hnd : (([(y * 2 + 0x00, (v &&& 1) >>> 0), (y * 2 + 0x01, (v &&& 2) >>> 1), (y * 2 + 0x10, (v &&& 4) >>> 2), (y * 2 + 0x11, (v &&& 8) >>> 3)]).map Prod.fst).Nodup := by
    simp [List.nodup_cons] <;> omega
  have hi : 7 - x ≤ 7 := by omega
  rw [readBit_passes_same (7 - x) _ t.data (y * 2 + 0x00) ((v &&& 1) >>> 0) hnd (by simp)
      (by rw [hlen]; omega) (and_mask_shift_le_one v 1 0 (by decide)) hi]
  rw [readBit_passes_same (7 - x) _ t.data (y * 2 + 0x01) ((v &&& 2) >>> 1) hnd (by simp)
      (by rw [hlen]; omega) (and_mask_shift_le_one v 2 1 (by decide)) hi]
  rw [readBit_passes_same (7 - x) _ t.data (y * 2 + 0x10) ((v &&& 4) >>> 2) hnd (by simp)
      (by rw [hlen]; omega) (and_mask_shift_le_one v 4 2 (by decide)) hi]
  rw [readBit_passes_same (7 - x) _ t.data (y * 2 + 0x11) ((v &&& 8) >>> 3) hnd (by simp)
      (by rw [hlen]; omega) (and_mask_shift_le_one v 8 3 (by decide)) hi]
  rw [asm4 v hv]

theorem get_set_other_4BPPIntertwined (t t' : SNESTile4BPPIntertwined) (x y v x' y' : Nat)
    (hlen : t.data.length = 32) (hx : x < 8) (hy : y < 8) (hv : v < 16)
    (hx' : x' < 8) (hy' : y' < 8) (hne : ¬(x' = x ∧ y' = y))
    (hs : set_value t x y v = .ok t') :
    get_value t' x' y' = get_value t x' y' := by
  rw [set_ok_4BPPIntertwined t x y v hx hy hv] at hs
  cases hs
  rw [get_in_bounds_4BPPIntertwined _ x' y' hx' hy', get_in_bounds_4BPPIntertwined t x' y' hx' hy']
  by_cases hyy : y' = y
  · subst hyy
    have hxx : x' ≠ x := fun h => hne ⟨h, rfl⟩
    have hnd : (([(y' * 2 + 0x00, (v &&& 1) >>> 0), (y' * 2 + 0x01, (v &&& 2) >>> 1), (y' * 2 + 0x10, (v &&& 4) >>> 2), (y' * 2 + 0x11, (v &&& 8) >>> 3)]).map Prod.fst).Nodup := by
      simp [List.nodup_cons] <;> omega
    have hi : 7 - x ≤ 7 := by omega
    have hj : 7 - x' ≤ 7 := by omega
    have hjne : 7 - x' ≠ 7 - x := by omega
    rw [readBit_passes_other (7 - x) (7 - x') _ t.data (y' * 2 + 0x00) ((v &&& 1) >>> 0) hnd
        (by simp) (by rw [hlen]; omega) (and_mask_shift_le_one v 1 0 (by decide)) hi hj hjne]
    rw [readBit_passes_other (7 - x) (7 - x') _ t.data (y' * 2 + 0x01) ((v &&& 2) >>> 1) hnd
        (by simp) (by rw [hlen]; omega) (and_mask_shift_le_one v 2 1 (by decide)) hi hj hjne]
    rw [readBit_passes_other (7 - x) (7 - x') _ t.data (y' * 2 + 0x10) ((v &&& 4) >>> 2) hnd
        (by simp) (by rw [hlen]; omega) (and_mask_shift_le_one v 4 2 (by decide)) hi hj hjne]
    rw [readBit_passes_other (7 - x) (7 - x') _ t.data (y' * 2 + 0x11) ((v &&& 8) >>> 3) hnd
        (by simp) (by rw [hlen]; omega) (and_mask_shift_le_one v 8 3 (by decide)) hi hj hjne]
  ·
    rw [readBit_passes_notin _ _ _ _ _ (by simp <;> omega)]
    rw [readBit_passes_notin _ _ _ _ _ (by simp <;> omega)]
    rw [readBit_passes_notin _ _ _ _ _ (by simp <;> omega)]
    rw [readBit_passes_notin _ _ _ _ _ (by simp <;> omega)]

end SNESTile4BPPIntertwined

namespace SNESTile8BPPPlanar

theorem set_ok_8BPPPlanar (t : SNESTile8BPPPlanar) (x y v : Nat)
    (hx : x < 8) (hy : y < 8) (hv : v < 16) :
    set_value t x y v =
      .ok ⟨writePass (7 - x) [(y, (v &&& 0x01) >>> 0), (y + 0x8, (v &&& 0x02) >>> 1), (y + 0x10, (v &&& 0x04) >>> 2), (y + 0x18, (v &&& 0x08) >>> 3), (y + 0x20, (v &&& 0x10) >>> 4), (y + 0x28, (v &&& 0x20) >>> 5), (y + 0x30, (v &&& 0x40) >>> 6), (y + 0x38, (v &&& 0x80) >>> 7)]
        (clearPass (7 - x) [(y, (v &&& 0x01) >>> 0), (y + 0x8, (v &&& 0x02) >>> 1), (y + 0x10, (v &&& 0x04) >>> 2), (y + 0x18, (v &&& 0x08) >>> 3), (y + 0x20, (v &&& 0x10) >>> 4), (y + 0x28, (v &&& 0x20) >>> 5), (y + 0x30, (v &&& 0x40) >>> 6), (y + 0x38, (v &&& 0x80) >>> 7)] t.data)⟩ := by
  simp only [set_value, if_neg (Nat.not_le.mpr hx), if_neg (Nat.not_le.mpr hy),
    if_neg (Nat.not_le.mpr hv)]

theorem get_in_bounds_8BPPPlanar (t : SNESTile8BPPPlanar) (x y : Nat) (hx : x < 8) (hy : y < 8) :
    get_value t x y =
      .ok (readBit (7 - x) t.data y ||| (readBit (7 - x) t.data (y + 0x8) <<< 1) ||| (readBit (7 - x) t.data (y + 0x10) <<< 2) ||| (readBit (7 - x) t.data (y + 0x18) <<< 3) ||| (readBit (7 - x) t.data (y + 0x20) <<< 4) ||| (readBit (7 - x) t.data (y + 0x28) <<< 5) ||| (readBit (7 - x) t.data (y + 0x30) <<< 6) ||| (readBit (7 - x) t.data (y + 0x38) <<< 7)) := by
  simp only [get_value, if_neg (Nat.not_le.mpr hx), if_neg (Nat.not_le.mpr hy)]

theorem get_set_same_8BPPPlanar (t t' : SNESTile8BPPPlanar) (x y v : Nat) (hlen : t.data.length = 64)
    (hx : x < 8) (hy : y < 8) (hv : v < 16) (hs : set_value t x y v = .ok t') :
    get_value t' x y = .ok v := by
  rw [set_ok_8BPPPlanar t x y v hx hy hv] at hs
  cases hs
  rw [get_in_bounds_8BPPPlanar _ x y hx hy]
  have hnd : (([(y, (v &&& 0x01) >>> 0), (y + 0x8, (v &&& 0x02) >>> 1), (y + 0x10, (v &&& 0x04) >>> 2), (y + 0x18, (v &&& 0x08) >>> 3), (y + 0x20, (v &&& 0x10) >>> 4), (y + 0x28, (v &&& 0x20) >>> 5), (y + 0x30, (v &&& 0x40) >>> 6), (y + 0x38, (v &&& 0x80) >>> 7)]).map Prod.fst).Nodup := by
    simp [List.nodup_cons] <;> omega
  have hi : 7 - x ≤ 7 := by omega
  rw [readBit_passes_same (7 - x) _ t.data (y) ((v &&& 0x01) >>> 0) hnd (by simp)
      (by rw [hlen]; omega) (and_mask_shift_le_one v 0x01 0 (by decide)) hi]
  rw [readBit_passes_same (7 - x) _ t.data (y + 0x8) ((v &&& 0x02) >>> 1) hnd (by simp)
      (by rw [hlen]; omega) (and_mask_shift_le_one v 0x02 1 (by decide)) hi]
  rw [readBit_passes_same (7 - x) _ t.data (y + 0x10) ((v &&& 0x04) >>> 2) hnd (by simp)
      (by rw [hlen]; omega) (and_mask_shift_le_one v 0x04 2 (by decide)) hi]
  rw [readBit_passes_same (7 - x) _ t.data (y + 0x18) ((v &&& 0x08) >>> 3) hnd (by simp)
      (by rw [hlen]; omega) (and_mask_shift_le_one v 0x08 3 (by decide)) hi]
  rw [readBit_passes_same (7 - x) _ t.data (y + 0x20) ((v &&& 0x10) >>> 4) hnd (by simp)
      (by rw [hlen]; omega) (and_mask_shift_le_one v 0x10 4 (by decide)) hi]
  rw [readBit_passes_same (7 - x) _ t.data (y + 0x28) ((v &&& 0x20) >>> 5) hnd (by simp)
      (by rw [hlen]; omega) (and_mask_shift_le_one v 0x20 5 (by decide)) hi]
  rw [readBit_passes_same (7 - x) _ t.data (y + 0x30) ((v &&& 0x40) >>> 6) hnd (by simp)
      (by rw [hlen]; omega) (and_mask_shift_le_one v 0x40 6 (by decide)) hi]
  rw [readBit_passes_same (7 - x) _ t.data (y + 0x38) ((v &&& 0x80) >>> 7) hnd (by simp)
      (by rw [hlen]; omega) (and_mask_shift_le_one v 0x80 7 (by decide)) hi]
  rw [asm8p v hv]

theorem get_set_other_8BPPPlanar (t t' : SNESTile8BPPPlanar) (x y v x' y' : Nat)
    (hlen : t.data.length = 64) (hx : x < 8) (hy : y < 8) (hv : v < 16)
    (hx' : x' < 8) (hy' : y' < 8) (hne : ¬(x' = x ∧ y' = y))
    (hs : set_value t x y v = .ok t') :
    get_value t' x' y' = get_value t x' y' := by
  rw [set_ok_8BPPPlanar t x y v hx hy hv] at hs
  cases hs
  rw [get_in_bounds_8BPPPlanar _ x' y' hx' hy', get_in_bounds_8BPPPlanar t x' y' hx' hy']
  by_cases hyy : y' = y
  · subst hyy
    have hxx : x' ≠ x := fun h => hne ⟨h, rfl⟩
    have hnd : (([(y', (v &&& 0x01) >>> 0), (y' + 0x8, (v &&& 0x02) >>> 1), (y' + 0x10, (v &&& 0x04) >>> 2), (y' + 0x18, (v &&& 0x08) >>> 3), (y' + 0x20, (v &&& 0x10) >>> 4), (y' + 0x28, (v &&& 0x20) >>> 5), (y' + 0x30, (v &&& 0x40) >>> 6), (y' + 0x38, (v &&& 0x80) >>> 7)]).map Prod.fst).Nodup := by
      simp [List.nodup_cons] <;> omega
    have hi : 7 - x ≤ 7 := by omega
    have hj : 7 - x' ≤ 7 := by omega
    have hjne : 7 - x' ≠ 7 - x := by omega
    rw [readBit_passes_other (7 - x) (7 - x') _ t.data (y') ((v &&& 0x01) >>> 0) hnd
        (by simp) (by rw [hlen]; omega) (and_mask_shift_le_one v 0x01 0 (by decide)) hi hj hjne]
    rw [readBit_passes_other (7 - x) (7 - x') _ t.data (y' + 0x8) ((v &&& 0x02) >>> 1) hnd
        (by simp) (by rw [hlen]; omega) (and_mask_shift_le_one v 0x02 1 (by decide)) hi hj hjne]
    rw [readBit_passes_other (7 - x) (7 - x') _ t.data (y' + 0x10) ((v &&& 0x04) >>> 2) hnd
        (by simp) (by rw [hlen]; omega) (and_mask_shift_le_one v 0x04 2 (by decide)) hi hj hjne]
    rw [readBit_passes_other (7 - x) (7 - x') _ t.data (y' + 0x18) ((v &&& 0x08) >>> 3) hnd
        (by simp) (by rw [hlen]; omega) (and_mask_shift_le_one v 0x08 3 (by decide)) hi hj hjne]
    rw [readBit_passes_other (7 - x) (7 - x') _ t.data (y' + 0x20) ((v &&& 0x10) >>> 4) hnd
        (by simp) (by rw [hlen]; omega) (and_mask_shift_le_one v 0x10 4 (by decide)) hi hj hjne]
    rw [readBit_passes_other (7 - x) (7 - x') _ t.data (y' + 0x28) ((v &&& 0x20) >>> 5) hnd
        (by simp) (by rw [hlen]; omega) (and_mask_shift_le_one v 0x20 5 (by decide)) hi hj hjne]
    rw [readBit_passes_other (7 - x) (7 - x') _ t.data (y' + 0x30) ((v &&& 0x40) >>> 6) hnd
        (by simp) (by rw [hlen]; omega) (and_mask_shift_le_one v 0x40 6 (by decide)) hi hj hjne]
    rw [readBit_passes_other (7 - x) (7 - x') _ t.data (y' + 0x38) ((v &&& 0x80) >>> 7) hnd
        (by simp) (by rw [hlen]; omega) (and_mask_shift_le_one v 0x80 7 (by decide)) hi hj hjne]
  ·
    rw [readBit_passes_notin _ _ _ _ _ (by simp <;> omega)]
    rw [readBit_passes_notin _ _ _ _ _ (by simp <;> omega)]
    rw [readBit_passes_notin _ _ _ _ _ (by simp <;> omega)]
    rw [readBit_passes_notin _ _ _ _ _ (by simp <;> omega)]
    rw [readBit_passes_notin _ _ _ _ _ (by simp <;> omega)]
    rw [readBit_passes_notin _ _ _ _ _ (by simp <;> omega)]
    rw [readBit_passes_notin _ _ _ _ _ (by simp <;> omega)]
    rw [readBit_passes_notin _ _ _ _ _ (by simp <;> omega)]

end SNESTile8BPPPlanar

namespace SNESTile8BPPIntertwined

theorem set_ok_8BPPIntertwined (t : SNESTile8BPPIntertwined) (x y v : Nat)
    (hx : x < 8) (hy : y < 8) (hv : v < 256) :
    set_value t x y v =
      .ok ⟨writePass (7 - x) [(y * 2 + 0x00, (v &&& 0x01) >>> 0), (y * 2 + 0x01, (v &&& 0x02) >>> 1), (y * 2 + 0x10, (v &&& 0x04) >>> 2), (y * 2 + 0x11, (v &&& 0x08) >>> 3), (y * 2 + 0x20, (v &&& 0x10) >>> 4), (y * 2 + 0x21, (v &&& 0x20) >>> 5), (y * 2 + 0x30, (v &&& 0x40) >>> 6), (y * 2 + 0x31, (v &&& 0x80) >>> 7)]
        (clearPass (7 - x) [(y * 2 + 0x00, (v &&& 0x01) >>> 0), (y * 2 + 0x01, (v &&& 0x02) >>> 1), (y * 2 + 0x10, (v &&& 0x04) >>> 2), (y * 2 + 0x11, (v &&& 0x08) >>> 3), (y * 2 + 0x20, (v &&& 0x10) >>> 4), (y * 2 + 0x21, (v &&& 0x20) >>> 5), (y * 2 + 0x30, (v &&& 0x40) >>> 6), (y * 2 + 0x31, (v &&& 0x80) >>> 7)] t.data)⟩ := by
  simp only [set_value, if_neg (Nat.not_le.mpr hx), if_neg (Nat.not_le.mpr hy)]

theorem get_in_bounds_8BPPIntertwined (t : SNESTile8BPPIntertwined) (x y : Nat) (hx : x < 8) (hy : y < 8) :
    get_value t x y =
      .ok (readBit (7 - x) t.data (y * 2 + 0x00) ||| (readBit (7 - x) t.data (y * 2 + 0x01) <<< 1) ||| (readBit (7 - x) t.data (y * 2 + 0x10) <<< 2) ||| (readBit (7 - x) t.data (y * 2 + 0x11) <<< 3) ||| (readBit (7 - x) t.data (y * 2 + 0x20) <<< 4) ||| (readBit (7 - x) t.data (y * 2 + 0x21) <<< 5) ||| (readBit (7 - x) t.data (y * 2 + 0x30) <<< 6) ||| (readBit (7 - x) t.data (y * 2 + 0x31) <<< 7)) := by
  simp only [get_value, if_neg (Nat.not_le.mpr hx), if_neg (Nat.not_le.mpr hy)]

theorem get_set_same_8BPPIntertwined (t t' : SNESTile8BPPIntertwined) (x y v : Nat) (hlen : t.data.length = 64)
    (hx : x < 8) (hy : y < 8) (hv : v < 256) (hs : set_value t x y v = .ok t') :
    get_value t' x y = .ok v := by
  rw [set_ok_8BPPIntertwined t x y v hx hy hv] at hs
  cases hs
  rw [get_in_bounds_8BPPIntertwined _ x y hx hy]
  have hnd : (([(y * 2 + 0x00, (v &&& 0x01) >>> 0), (y * 2 + 0x01, (v &&& 0x02) >>> 1), (y * 2 + 0x10, (v &&& 0x04) >>> 2), (y * 2 + 0x11, (v &&& 0x08) >>> 3), (y * 2 + 0x20, (v &&& 0x10) >>> 4), (y * 2 + 0x21, (v &&& 0x20) >>> 5), (y * 2 + 0x30, (v &&& 0x40) >>> 6), (y * 2 + 0x31, (v &&& 0x80) >>> 7)]).map Prod.fst).Nodup := by
    simp [List.nodup_cons] <;> omega
  have hi : 7 - x ≤ 7 := by omega
  rw [readBit_passes_same (7 - x) _ t.data (y * 2 + 0x00) ((v &&& 0x01) >>> 0) hnd (by simp)
      (by rw [hlen]; omega) (and_mask_shift_le_one v 0x01 0 (by decide)) hi]
  rw [readBit_passes_same (7 - x) _ t.data (y * 2 + 0x01) ((v &&& 0x02) >>> 1) hnd (by simp)
      (by rw [hlen]; omega) (and_mask_shift_le_one v 0x02 1 (by decide)) hi]
  rw [readBit_passes_same (7 - x) _ t.data (y * 2 + 0x10) ((v &&& 0x04) >>> 2) hnd (by simp)
      (by rw [hlen]; omega) (and_mask_shift_le_one v 0x04 2 (by decide)) hi]
  rw [readBit_passes_same (7 - x) _ t.data (y * 2 + 0x11) ((v &&& 0x08) >>> 3) hnd (by simp)
      (by rw [hlen]; omega) (and_mask_shift_le_one v 0x08 3 (by decide)) hi]
  rw [readBit_passes_same (7 - x) _ t.data (y * 2 + 0x20) ((v &&& 0x10) >>> 4) hnd (by simp)
      (by rw [hlen]; omega) (and_mask_shift_le_one v 0x10 4 (by decide)) hi]
  rw [readBit_passes_same (7 - x) _ t.data (y * 2 + 0x21) ((v &&& 0x20) >>> 5) hnd (by simp)
      (by rw [hlen]; omega) (and_mask_shift_le_one v 0x20 5 (by decide)) hi]
  rw [readBit_passes_same (7 - x) _ t.data (y * 2 + 0x30) ((v &&& 0x40) >>> 6) hnd (by simp)
      (by rw [hlen]; omega) (and_mask_shift_le_one v 0x40 6 (by decide)) hi]
  rw [readBit_passes_same (7 - x) _ t.data (y * 2 + 0x31) ((v &&& 0x80) >>> 7) hnd (by simp)
      (by rw [hlen]; omega) (and_mask_shift_le_one v 0x80 7 (by decide)) hi]
  rw [asm8 v hv]

theorem get_set_other_8BPPIntertwined (t t' : SNESTile8BPPIntertwined) (x y v x' y' : Nat)
    (hlen : t.data.length = 64) (hx : x < 8) (hy : y < 8) (hv : v < 256)
    (hx' : x' < 8) (hy' : y' < 8) (hne : ¬(x' = x ∧ y' = y))
    (hs : set_value t x y v = .ok t') :
    get_value t' x' y' = get_value t x' y' := by
  rw [set_ok_8BPPIntertwined t x y v hx hy hv] at hs
  cases hs
  rw [get_in_bounds_8BPPIntertwined _ x' y' hx' hy', get_in_bounds_8BPPIntertwined t x' y' hx' hy']
  by_cases hyy : y' = y
  · subst hyy
    have hxx : x' ≠ x := fun h => hne ⟨h, rfl⟩
    have hnd : (([(y' * 2 + 0x00, (v &&& 0x01) >>> 0), (y' * 2 + 0x01, (v &&& 0x02) >>> 1), (y' * 2 + 0x10, (v &&& 0x04) >>> 2), (y' * 2 + 0x11, (v &&& 0x08) >>> 3), (y' * 2 + 0x20, (v &&& 0x10) >>> 4), (y' * 2 + 0x21, (v &&& 0x20) >>> 5), (y' * 2 + 0x30, (v &&& 0x40) >>> 6), (y' * 2 + 0x31, (v &&& 0x80) >>> 7)]).map Prod.fst).Nodup := by
      simp [List.nodup_cons] <;> omega
    have hi : 7 - x ≤ 7 := by omega
    have hj : 7 - x' ≤ 7 := by omega
    have hjne : 7 - x' ≠ 7 - x := by omega
    rw [readBit_passes_other (7 - x) (7 - x') _ t.data (y' * 2 + 0x00) ((v &&& 0x01) >>> 0) hnd
        (by simp) (by rw [hlen]; omega) (and_mask_shift_le_one v 0x01 0 (by decide)) hi hj hjne]
    rw [readBit_passes_other (7 - x) (7 - x') _ t.data (y' * 2 + 0x01) ((v &&& 0x02) >>> 1) hnd
        (by simp) (by rw [hlen]; omega) (and_mask_shift_le_one v 0x02 1 (by decide)) hi hj hjne]
    rw [readBit_passes_other (7 - x) (7 - x') _ t.data (y' * 2 + 0x10) ((v &&& 0x04) >>> 2) hnd
        (by simp) (by rw [hlen]; omega) (and_mask_shift_le_one v 0x04 2 (by decide)) hi hj hjne]
    rw [readBit_passes_other (7 - x) (7 - x') _ t.data (y' * 2 + 0x11) ((v &&& 0x08) >>> 3) hnd
        (by simp) (by rw [hlen]; omega) (and_mask_shift_le_one v 0x08 3 (by decide)) hi hj hjne]
    rw [readBit_passes_other (7 - x) (7 - x') _ t.data (y' * 2 + 0x20) ((v &&& 0x10) >>> 4) hnd
        (by simp) (by rw [hlen]; omega) (and_mask_shift_le_one v 0x10 4 (by decide)) hi hj hjne]
    rw [readBit_passes_other (7 - x) (7 - x') _ t.data (y' * 2 + 0x21) ((v &&& 0x20) >>> 5) hnd
        (by simp) (by rw [hlen]; omega) (and_mask_shift_le_one v 0x20 5 (by decide)) hi hj hjne]
    rw [readBit_passes_other (7 - x) (7 - x') _ t.data (y' * 2 + 0x30) ((v &&& 0x40) >>> 6) hnd
        (by simp) (by rw [hlen]; omega) (and_mask_shift_le_one v 0x40 6 (by decide)) hi hj hjne]
    rw [readBit_passes_other (7 - x) (7 - x') _ t.data (y' * 2 + 0x31) ((v &&& 0x80) >>> 7) hnd
        (by simp) (by rw [hlen]; omega) (and_mask_shift_le_one v 0x80 7 (by decide)) hi hj hjne]
  ·
    rw [readBit_passes_notin _ _ _ _ _ (by simp <;> omega)]
    rw [readBit_passes_notin _ _ _ _ _ (by simp <;> omega)]
    rw [readBit_passes_notin _ _ _ _ _ (by simp <;> omega)]
    rw [readBit_passes_notin _ _ _ _ _ (by simp <;> omega)]
    rw [readBit_passes_notin _ _ _ _ _ (by simp <;> omega)]
    rw [readBit_passes_notin _ _ _ _ _ (by simp <;> omega)]
    rw [readBit_passes_notin _ _ _ _ _ (by simp <;> omega)]
    rw [readBit_passes_notin _ _ _ _ _ (by simp <;> omega)]

end SNESTile8BPPIntertwined

namespace SNESTileMode7

theorem set_ok_Mode7 (t : SNESTileMode7) (x y v : Nat) (hx : x < 8) (hy : y < 8) :
    set_value t x y v = .ok ⟨t.data.set (y * 8 + x) v⟩ := by
  simp only [set_value, if_neg (Nat.not_le.mpr hx), if_neg (Nat.not_le.mpr hy)]

theorem get_in_bounds_Mode7 (t : SNESTileMode7) (x y : Nat) (hx : x < 8) (hy : y < 8) :
    get_value t x y = .ok (t.data.getD (y * 8 + x) 0) := by
  simp only [get_value, if_neg (Nat.not_le.mpr hx), if_neg (Nat.not_le.mpr hy)]

theorem get_set_same_Mode7 (t t' : SNESTileMode7) (x y v : Nat) (hlen : t.data.length = 64)
    (hx : x < 8) (hy : y < 8) (hs : set_value t x y v = .ok t') :
    get_value t' x y = .ok v := by
  rw [set_ok_Mode7 t x y v hx hy] at hs
  cases hs
  rw [get_in_bounds_Mode7 _ x y hx hy, getD_set_self _ _ _ (by rw [hlen]; omega)]

theorem get_set_other_Mode7 (t t' : SNESTileMode7) (x y v x' y' : Nat)
    (hx : x < 8) (hy : y < 8) (hx' : x' < 8) (hy' : y' < 8)
    (hne : ¬(x' = x ∧ y' = y)) (hs : set_value t x y v = .ok t') :
    get_value t' x' y' = get_value t x' y' := by
  rw [set_ok_Mode7 t x y v hx hy] at hs
  cases hs
  rw [get_in_bounds_Mode7 _ x' y' hx' hy', get_in_bounds_Mode7 t x' y' hx' hy',
    getD_set_ne _ _ _ _ (by omega)]

end SNESTileMode7

/-! ### Claim theorems -/

instance {ε α : Type} [DecidableEq ε] [DecidableEq α] : DecidableEq (Except ε α) :=
  fun a b =>
    match a, b with
    | .ok x, .ok y =>
      if h : x = y then .isTrue (by rw [h]) else .isFalse (fun he => by cases he; exact h rfl)
    | .error x, .error y =>
      if h : x = y then .isTrue (by rw [h]) else .isFalse (fun he => by cases he; exact h rfl)
    | .ok _, .error _ => .isFalse (fun he => by cases he)
    | .error _, .ok _ => .isFalse (fun he => by cases he)

/-- The colormap of the cross-layout equivalence vector (spec section 8,
src/tests.rs lines 40-47). -/
def testColormap2bpp : List Nat :=
  [2,2,3,3,3,3,1,1, 2,2,2,1,1,1,1,1, 2,2,3,2,2,1,1,3, 2,2,3,1,2,2,2,2,
   2,2,3,2,2,1,1,1, 2,2,3,1,1,1,1,1, 3,3,2,0,0,2,2,2, 2,2,2,0,0,0,0,0]

set_option maxRecDepth 100000 in
/-- C6: encoding the spec's 64-entry colormap as 2bpp-planar yields bytes
`3f1f2730273fc000fce0f9eff8e0e7e0`, as 2bpp-intertwined yields
`3ffc1fe027f930ef27f83fe0c0e700e0`, and `to_colormap` of each resulting tile
returns the original colormap. -/
theorem claim_C6 :
    (SNESTile.from_colormap testColormap2bpp : Except Error SNESTile2BPPPlanar) =
      .ok ⟨[0x3f, 0x1f, 0x27, 0x30, 0x27, 0x3f, 0xc0, 0x00,
            0xfc, 0xe0, 0xf9, 0xef, 0xf8, 0xe0, 0xe7, 0xe0]⟩ ∧
    (SNESTile.from_colormap testColormap2bpp : Except Error SNESTile2BPPIntertwined) =
      .ok ⟨[0x3f, 0xfc, 0x1f, 0xe0, 0x27, 0xf9, 0x30, 0xef,
            0x27, 0xf8, 0x3f, 0xe0, 0xc0, 0xe7, 0x00, 0xe0]⟩ ∧
    SNESTile.to_colormap
      (⟨[0x3f, 0x1f, 0x27, 0x30, 0x27, 0x3f, 0xc0, 0x00,
         0xfc, 0xe0, 0xf9, 0xef, 0xf8, 0xe0, 0xe7, 0xe0]⟩ : SNESTile2BPPPlanar) =
      .ok testColormap2bpp ∧
    SNESTile.to_colormap
      (⟨[0x3f, 0xfc, 0x1f, 0xe0, 0x27, 0xf9, 0x30, 0xef,
         0x27, 0xf8, 0x3f, 0xe0, 0xc0, 0xe7, 0x00, 0xe0]⟩ : SNESTile2BPPIntertwined) =
      .ok testColormap2bpp := by
  refine ⟨?_, ?_, ?_, ?_⟩ <;> decide

set_option maxRecDepth 100000 in
/-- C7: decoding tile bytes `18 3c 7e db ff 24 5a 81` as a 1bpp tile succeeds
and yields the spec's 64-entry colormap (pixel x taken from bit `7 - x` of row
byte y). -/
theorem claim_C7 :
    SNESTile1BPP.from_data [0x18, 0x3c, 0x7e, 0xdb, 0xff, 0x24, 0x5a, 0x81] =
      .ok ⟨[0x18, 0x3c, 0x7e, 0xdb, 0xff, 0x24, 0x5a, 0x81]⟩ ∧
    SNESTile.to_colormap
      (⟨[0x18, 0x3c, 0x7e, 0xdb, 0xff, 0x24, 0x5a, 0x81]⟩ : SNESTile1BPP) =
      .ok [0,0,0,1,1,0,0,0, 0,0,1,1,1,1,0,0, 0,1,1,1,1,1,1,0, 1,1,0,1,1,0,1,1,
           1,1,1,1,1,1,1,1, 0,0,1,0,0,1,0,0, 0,1,0,1,1,0,1,0, 1,0,0,0,0,0,0,1] := by
  refine ⟨?_, ?_⟩ <;> decide

set_option maxRecDepth 100000 in
/-- C10: a 64-byte buffer whose byte at offset 0x20 (bit-plane 4 of row 0) is
`0x80` decodes through the 8bpp-planar format to a colormap whose first entry
is 16, and that very colormap is rejected by the same format's
`from_colormap`, because `set_value` rejects values >= 16. -/
theorem claim_C10 :
    ∃ (b : List Nat) (t : SNESTile8BPPPlanar) (cm : List Nat),
      SNESTile8BPPPlanar.from_data b = .ok t ∧
      SNESTile.to_colormap t = .ok cm ∧
      (∃ c ∈ cm, 16 ≤ c) ∧
      (SNESTile.from_colormap cm : Except Error SNESTile8BPPPlanar) =
        .error (.InvalidColorIndex 16) := by
  refine ⟨[0,0,0,0,0,0,0,0, 0,0,0,0,0,0,0,0, 0,0,0,0,0,0,0,0, 0,0,0,0,0,0,0,0,
           0x80,0,0,0,0,0,0,0, 0,0,0,0,0,0,0,0, 0,0,0,0,0,0,0,0, 0,0,0,0,0,0,0,0],
    ⟨[0,0,0,0,0,0,0,0, 0,0,0,0,0,0,0,0, 0,0,0,0,0,0,0,0, 0,0,0,0,0,0,0,0,
      0x80,0,0,0,0,0,0,0, 0,0,0,0,0,0,0,0, 0,0,0,0,0,0,0,0, 0,0,0,0,0,0,0,0]⟩,
    16 :: List.replicate 63 0, ?_, ?_, ?_, ?_⟩ <;> decide

/-- C4: pixel-value range checking is per-variant.  With in-bounds
coordinates, the 8bpp-planar `set_value` rejects every value >= 16 with an
invalid-value error, while the 8bpp-intertwined and Mode7 `set_value` accept
every byte value. -/
theorem claim_C4 : ∀ x y v : Nat, x < 8 → y < 8 →
    (16 ≤ v → ∀ t : SNESTile8BPPPlanar,
      SNESTile8BPPPlanar.set_value t x y v = .error (.InvalidColorIndex v)) ∧
    (v < 256 → ∀ t : SNESTile8BPPIntertwined,
      ∃ t', SNESTile8BPPIntertwined.set_value t x y v = .ok t') ∧
    (v < 256 → ∀ t : SNESTileMode7,
      ∃ t', SNESTileMode7.set_value t x y v = .ok t') := by
  intro x y v hx hy
  refine ⟨fun hv t => ?_, fun hv t => ?_, fun hv t => ?_⟩
  · simp only [SNESTile8BPPPlanar.set_value, if_neg (Nat.not_le.mpr hx),
      if_neg (Nat.not_le.mpr hy), if_pos hv]
  · exact ⟨_, SNESTile8BPPIntertwined.set_ok_8BPPIntertwined t x y v hx hy hv⟩
  · exact ⟨_, SNESTileMode7.set_ok_Mode7 t x y v hx hy⟩

/-- Witness for C4 at concrete inputs. -/
theorem claim_C4_witness :
    (SNESTile8BPPPlanar.set_value ⟨List.replicate 64 0⟩ 0 0 16 =
      .error (.InvalidColorIndex 16)) ∧
    (∃ t', SNESTile8BPPIntertwined.set_value ⟨List.replicate 64 0⟩ 0 0 255 = .ok t') ∧
    (∃ t', SNESTileMode7.set_value ⟨List.replicate 64 0⟩ 0 0 255 = .ok t') :=
  ⟨(claim_C4 0 0 16 (by decide) (by decide)).1 (by decide) _,
   (claim_C4 0 0 255 (by decide) (by decide)).2.1 (by decide) _,
   (claim_C4 0 0 255 (by decide) (by decide)).2.2 (by decide) _⟩

/-- C9: the 16-entry palette rejects exactly the indices >= 16 on both
`get_index` and `set_index`, and accepts 0-15; the 256-entry palette accepts
every 8-bit index with no error path. -/
theorem claim_C9 : ∀ (p : SNESPalette16) (q : SNESPalette256) (i : Nat) (c : Bgr555),
    (16 ≤ i → p.get_index i = .error (.InvalidColorIndex i) ∧
      p.set_index i c = .error (.InvalidColorIndex i)) ∧
    (i < 16 → (∃ col, p.get_index i = .ok col) ∧ (∃ p', p.set_index i c = .ok p')) ∧
    (i < 256 → (∃ col, q.get_index i = .ok col) ∧ (∃ q', q.set_index i c = .ok q')) := by
  intro p q i c
  refine ⟨fun h => ⟨?_, ?_⟩, fun h => ⟨?_, ?_⟩, fun _ => ⟨⟨_, rfl⟩, ⟨_, rfl⟩⟩⟩
  · simp only [SNESPalette16.get_index, if_pos h]
  · simp only [SNESPalette16.set_index, if_pos h]
  · refine ⟨p.colors.getD i ⟨0⟩, ?_⟩
    simp only [SNESPalette16.get_index, if_neg (Nat.not_le.mpr h)]
  · refine ⟨⟨p.colors.set i c⟩, ?_⟩
    simp only [SNESPalette16.set_index, if_neg (Nat.not_le.mpr h)]

/-- Witness for C9 at concrete inputs: index 16 fails, 15 and 255 succeed. -/
theorem claim_C9_witness :
    ((⟨List.replicate 16 ⟨0⟩⟩ : SNESPalette16).get_index 16 =
        .error (.InvalidColorIndex 16) ∧
      (⟨List.replicate 16 ⟨0⟩⟩ : SNESPalette16).set_index 16 ⟨0⟩ =
        .error (.InvalidColorIndex 16)) ∧
    ((∃ col, (⟨List.replicate 16 ⟨0⟩⟩ : SNESPalette16).get_index 15 = .ok col) ∧
      (∃ p', (⟨List.replicate 16 ⟨0⟩⟩ : SNESPalette16).set_index 15 ⟨0⟩ = .ok p')) ∧
    ((∃ col, (⟨List.replicate 256 ⟨0⟩⟩ : SNESPalette256).get_index 255 = .ok col) ∧
      (∃ q', (⟨List.replicate 256 ⟨0⟩⟩ : SNESPalette256).set_index 255 ⟨0⟩ = .ok q')) :=
  ⟨(claim_C9 ⟨List.replicate 16 ⟨0⟩⟩ ⟨List.replicate 256 ⟨0⟩⟩ 16 ⟨0⟩).1 (by decide),
   (claim_C9 ⟨List.replicate 16 ⟨0⟩⟩ ⟨List.replicate 256 ⟨0⟩⟩ 15 ⟨0⟩).2.1 (by decide),
   (claim_C9 ⟨List.replicate 16 ⟨0⟩⟩ ⟨List.replicate 256 ⟨0⟩⟩ 255 ⟨0⟩).2.2 (by decide)⟩

/-- An out-of-bounds failure, as `get_value`/`set_value` report it. -/
def isOOB {β : Type} (e : Except Error β) : Prop :=
  ∃ a b, e = .error (.OutOfBounds a b)

/-- C8: for every tile format, `get_value` and `set_value` with `x >= 8` or
`y >= 8` fail with an out-of-bounds error; and every tile and palette type
rejects a byte buffer whose length differs from the format's exact size with a
length-mismatch error carrying the actual and expected sizes, while a buffer
of exactly the expected length succeeds. -/
theorem claim_C8 :
    (∀ (t : SNESTile1BPP) (x y v : Nat), 8 ≤ x ∨ 8 ≤ y →
      isOOB (SNESTile1BPP.get_value t x y) ∧ isOOB (SNESTile1BPP.set_value t x y v)) ∧
    (∀ (t : SNESTile2BPPPlanar) (x y v : Nat), 8 ≤ x ∨ 8 ≤ y →
      isOOB (SNESTile2BPPPlanar.get_value t x y) ∧ isOOB (SNESTile2BPPPlanar.set_value t x y v)) ∧
    (∀ (t : SNESTile2BPPIntertwined) (x y v : Nat), 8 ≤ x ∨ 8 ≤ y →
      isOOB (SNESTile2BPPIntertwined.get_value t x y) ∧ isOOB (SNESTile2BPPIntertwined.set_value t x y v)) ∧
    (∀ (t : SNESTile3BPPPlanar) (x y v : Nat), 8 ≤ x ∨ 8 ≤ y →
      isOOB (SNESTile3BPPPlanar.get_value t x y) ∧ isOOB (SNESTile3BPPPlanar.set_value t x y v)) ∧
    (∀ (t : SNESTile3BPPIntertwined) (x y v : Nat), 8 ≤ x ∨ 8 ≤ y →
      isOOB (SNESTile3BPPIntertwined.get_value t x y) ∧ isOOB (SNESTile3BPPIntertwined.set_value t x y v)) ∧
    (∀ (t : SNESTile4BPPPlanar) (x y v : Nat), 8 ≤ x ∨ 8 ≤ y →
      isOOB (SNESTile4BPPPlanar.get_value t x y) ∧ isOOB (SNESTile4BPPPlanar.set_value t x y v)) ∧
    (∀ (t : SNESTile4BPPIntertwined) (x y v : Nat), 8 ≤ x ∨ 8 ≤ y →
      isOOB (SNESTile4BPPIntertwined.get_value t x y) ∧ isOOB (SNESTile4BPPIntertwined.set_value t x y v)) ∧
    (∀ (t : SNESTile8BPPPlanar) (x y v : Nat), 8 ≤ x ∨ 8 ≤ y →
      isOOB (SNESTile8BPPPlanar.get_value t x y) ∧ isOOB (SNESTile8BPPPlanar.set_value t x y v)) ∧
    (∀ (t : SNESTile8BPPIntertwined) (x y v : Nat), 8 ≤ x ∨ 8 ≤ y →
      isOOB (SNESTile8BPPIntertwined.get_value t x y) ∧ isOOB (SNESTile8BPPIntertwined.set_value t x y v)) ∧
    (∀ (t : SNESTileMode7) (x y v : Nat), 8 ≤ x ∨ 8 ≤ y →
      isOOB (SNESTileMode7.get_value t x y) ∧ isOOB (SNESTileMode7.set_value t x y v)) ∧
    (∀ d : List Nat,
      (d.length ≠ 8 → SNESTile1BPP.from_data d =
        .error (.DataLengthMismatch d.length (8))) ∧
      (d.length = 8 → ∃ t, SNESTile1BPP.from_data d = .ok t)) ∧
    (∀ d : List Nat,
      (d.length ≠ 8 * 2 → SNESTile2BPPPlanar.from_data d =
        .error (.DataLengthMismatch d.length (8 * 2))) ∧
      (d.length = 8 * 2 → ∃ t, SNESTile2BPPPlanar.from_data d = .ok t)) ∧
    (∀ d : List Nat,
      (d.length ≠ 8 * 2 → SNESTile2BPPIntertwined.from_data d =
        .error (.DataLengthMismatch d.length (8 * 2))) ∧
      (d.length = 8 * 2 → ∃ t, SNESTile2BPPIntertwined.from_data d = .ok t)) ∧
    (∀ d : List Nat,
      (d.length ≠ 8 * 3 → SNESTile3BPPPlanar.from_data d =
        .error (.DataLengthMismatch d.length (8 * 3))) ∧
      (d.length = 8 * 3 → ∃ t, SNESTile3BPPPlanar.from_data d = .ok t)) ∧
    (∀ d : List Nat,
      (d.length ≠ 8 * 3 → SNESTile3BPPIntertwined.from_data d =
        .error (.DataLengthMismatch d.length (8 * 3))) ∧
      (d.length = 8 * 3 → ∃ t, SNESTile3BPPIntertwined.from_data d = .ok t)) ∧
    (∀ d : List Nat,
      (d.length ≠ 8 * 4 → SNESTile4BPPPlanar.from_data d =
        .error (.DataLengthMismatch d.length (8 * 4))) ∧
      (d.length = 8 * 4 → ∃ t, SNESTile4BPPPlanar.from_data d = .ok t)) ∧
    (∀ d : List Nat,
      (d.length ≠ 8 * 4 → SNESTile4BPPIntertwined.from_data d =
        .error (.DataLengthMismatch d.length (8 * 4))) ∧
      (d.length = 8 * 4 → ∃ t, SNESTile4BPPIntertwined.from_data d = .ok t)) ∧
    (∀ d : List Nat,
      (d.length ≠ 8 * 8 → SNESTile8BPPPlanar.from_data d =
        .error (.DataLengthMismatch d.length (8 * 8))) ∧
      (d.length = 8 * 8 → ∃ t, SNESTile8BPPPlanar.from_data d = .ok t)) ∧
    (∀ d : List Nat,
      (d.length ≠ 8 * 8 → SNESTile8BPPIntertwined.from_data d =
        .error (.DataLengthMismatch d.length (8 * 8))) ∧
      (d.length = 8 * 8 → ∃ t, SNESTile8BPPIntertwined.from_data d = .ok t)) ∧
    (∀ d : List Nat,
      (d.length ≠ 8 * 8 → SNESTileMode7.from_data d =
        .error (.DataLengthMismatch d.length (8 * 8))) ∧
      (d.length = 8 * 8 → ∃ t, SNESTileMode7.from_data d = .ok t)) ∧
    (∀ d : List Nat,
      (d.length ≠ 16 * 2 → SNESPalette16.from_data d =
        .error (.DataLengthMismatch d.length (16 * 2))) ∧
      (d.length = 16 * 2 → ∃ p, SNESPalette16.from_data d = .ok p)) ∧
    (∀ d : List Nat,
      (d.length ≠ 256 * 2 → SNESPalette256.from_data d =
        .error (.DataLengthMismatch d.length (256 * 2))) ∧
      (d.length = 256 * 2 → ∃ p, SNESPalette256.from_data d = .ok p)) := by
  refine ⟨?_, ?_, ?_, ?_, ?_, ?_, ?_, ?_, ?_, ?_, ?_, ?_, ?_, ?_, ?_, ?_, ?_, ?_, ?_, ?_, ?_, ?_⟩
  · intro t x y v h
    constructor
    · by_cases hx : 8 ≤ x
      · exact ⟨x, 8, by simp only [SNESTile1BPP.get_value, if_pos hx]⟩
      · have hy : 8 ≤ y := h.resolve_left hx
        exact ⟨y, 8, by simp only [SNESTile1BPP.get_value, if_neg hx, if_pos hy]⟩
    · by_cases hx : 8 ≤ x
      · exact ⟨x, 8, by simp only [SNESTile1BPP.set_value, if_pos hx]⟩
      · have hy : 8 ≤ y := h.resolve_left hx
        exact ⟨y, 8, by simp only [SNESTile1BPP.set_value, if_neg hx, if_pos hy]⟩
  · intro t x y v h
    constructor
    · by_cases hx : 8 ≤ x
      · exact ⟨x, 8, by simp only [SNESTile2BPPPlanar.get_value, if_pos hx]⟩
      · have hy : 8 ≤ y := h.resolve_left hx
        exact ⟨y, 8, by simp only [SNESTile2BPPPlanar.get_value, if_neg hx, if_pos hy]⟩
    · by_cases hx : 8 ≤ x
      · exact ⟨x, 8, by simp only [SNESTile2BPPPlanar.set_value, if_pos hx]⟩
      · have hy : 8 ≤ y := h.resolve_left hx
        exact ⟨y, 8, by simp only [SNESTile2BPPPlanar.set_value, if_neg hx, if_pos hy]⟩
  · intro t x y v h
    constructor
    · by_cases hx : 8 ≤ x
      · exact ⟨x, 8, by simp only [SNESTile2BPPIntertwined.get_value, if_pos hx]⟩
      · have hy : 8 ≤ y := h.resolve_left hx
        exact ⟨y, 8, by simp only [SNESTile2BPPIntertwined.get_value, if_neg hx, if_pos hy]⟩
    · by_cases hx : 8 ≤ x
      · exact ⟨x, 8, by simp only [SNESTile2BPPIntertwined.set_value, if_pos hx]⟩
      · have hy : 8 ≤ y := h.resolve_left hx
        exact ⟨y, 8, by simp only [SNESTile2BPPIntertwined.set_value, if_neg hx, if_pos hy]⟩
  · intro t x y v h
    constructor
    · by_cases hx : 8 ≤ x
      · exact ⟨x, 8, by simp only [SNESTile3BPPPlanar.get_value, if_pos hx]⟩
      · have hy : 8 ≤ y := h.resolve_left hx
        exact ⟨y, 8, by simp only [SNESTile3BPPPlanar.get_value, if_neg hx, if_pos hy]⟩
    · by_cases hx : 8 ≤ x
      · exact ⟨x, 8, by simp only [SNESTile3BPPPlanar.set_value, if_pos hx]⟩
      · have hy : 8 ≤ y := h.resolve_left hx
        exact ⟨y, 8, by simp only [SNESTile3BPPPlanar.set_value, if_neg hx, if_pos hy]⟩
  · intro t x y v h
    constructor
    · by_cases hx : 8 ≤ x
      · exact ⟨x, 8, by simp only [SNESTile3BPPIntertwined.get_value, if_pos hx]⟩
      · have hy : 8 ≤ y := h.resolve_left hx
        exact ⟨y, 8, by simp only [SNESTile3BPPIntertwined.get_value, if_neg hx, if_pos hy]⟩
    · by_cases hx : 8 ≤ x
      · exact ⟨x, 8, by simp only [SNESTile3BPPIntertwined.set_value, if_pos hx]⟩
      · have hy : 8 ≤ y := h.resolve_left hx
        exact ⟨y, 8, by simp only [SNESTile3BPPIntertwined.set_value, if_neg hx, if_pos hy]⟩
  · intro t x y v h
    constructor
    · by_cases hx : 8 ≤ x
      · exact ⟨x, 8, by simp only [SNESTile4BPPPlanar.get_value, if_pos hx]⟩
      · have hy : 8 ≤ y := h.resolve_left hx
        exact ⟨y, 8, by simp only [SNESTile4BPPPlanar.get_value, if_neg hx, if_pos hy]⟩
    · by_cases hx : 8 ≤ x
      · exact ⟨x, 8, by simp only [SNESTile4BPPPlanar.set_value, if_pos hx]⟩
      · have hy : 8 ≤ y := h.resolve_left hx
        exact ⟨y, 8, by simp only [SNESTile4BPPPlanar.set_value, if_neg hx, if_pos hy]⟩
  · intro t x y v h
    constructor
    · by_cases hx : 8 ≤ x
      · exact ⟨x, 8, by simp only [SNESTile4BPPIntertwined.get_value, if_pos hx]⟩
      · have hy : 8 ≤ y := h.resolve_left hx
        exact ⟨y, 8, by simp only [SNESTile4BPPIntertwined.get_value, if_neg hx, if_pos hy]⟩
    · by_cases hx : 8 ≤ x
      · exact ⟨x, 8, by simp only [SNESTile4BPPIntertwined.set_value, if_pos hx]⟩
      · have hy : 8 ≤ y := h.resolve_left hx
        exact ⟨y, 8, by simp only [SNESTile4BPPIntertwined.set_value, if_neg hx, if_pos hy]⟩
  · intro t x y v h
    constructor
    · by_cases hx : 8 ≤ x
      · exact ⟨x, 8, by simp only [SNESTile8BPPPlanar.get_value, if_pos hx]⟩
      · have hy : 8 ≤ y := h.resolve_left hx
        exact ⟨y, 8, by simp only [SNESTile8BPPPlanar.get_value, if_neg hx, if_pos hy]⟩
    · by_cases hx : 8 ≤ x
      · exact ⟨x, 8, by simp only [SNESTile8BPPPlanar.set_value, if_pos hx]⟩
      · have hy : 8 ≤ y := h.resolve_left hx
        exact ⟨y, 8, by simp only [SNESTile8BPPPlanar.set_value, if_neg hx, if_pos hy]⟩
  · intro t x y v h
    constructor
    · by_cases hx : 8 ≤ x
      · exact ⟨x, 8, by simp only [SNESTile8BPPIntertwined.get_value, if_pos hx]⟩
      · have hy : 8 ≤ y := h.resolve_left hx
        exact ⟨y, 8, by simp only [SNESTile8BPPIntertwined.get_value, if_neg hx, if_pos hy]⟩
    · by_cases hx : 8 ≤ x
      · exact ⟨x, 8, by simp only [SNESTile8BPPIntertwined.set_value, if_pos hx]⟩
      · have hy : 8 ≤ y := h.resolve_left hx
        exact ⟨y, 8, by simp only [SNESTile8BPPIntertwined.set_value, if_neg hx, if_pos hy]⟩
  · intro t x y v h
    constructor
    · by_cases hx : 8 ≤ x
      · exact ⟨x, 8, by simp only [SNESTileMode7.get_value, if_pos hx]⟩
      · have hy : 8 ≤ y := h.resolve_left hx
        exact ⟨y, 8, by simp only [SNESTileMode7.get_value, if_neg hx, if_pos hy]⟩
    · by_cases hx : 8 ≤ x
      · exact ⟨x, 8, by simp only [SNESTileMode7.set_value, if_pos hx]⟩
      · have hy : 8 ≤ y := h.resolve_left hx
        exact ⟨y, 8, by simp only [SNESTileMode7.set_value, if_neg hx, if_pos hy]⟩
  · intro d
    refine ⟨fun h => ?_, fun h => ⟨⟨d⟩, ?_⟩⟩
    · simp only [SNESTile1BPP.from_data, if_neg h]
    · simp only [SNESTile1BPP.from_data, if_pos h]
  · intro d
    refine ⟨fun h => ?_, fun h => ⟨⟨d⟩, ?_⟩⟩
    · simp only [SNESTile2BPPPlanar.from_data, if_neg h]
    · simp only [SNESTile2BPPPlanar.from_data, if_pos h]
  · intro d
    refine ⟨fun h => ?_, fun h => ⟨⟨d⟩, ?_⟩⟩
    · simp only [SNESTile2BPPIntertwined.from_data, if_neg h]
    · simp only [SNESTile2BPPIntertwined.from_data, if_pos h]
  · intro d
    refine ⟨fun h => ?_, fun h => ⟨⟨d⟩, ?_⟩⟩
    · simp only [SNESTile3BPPPlanar.from_data, if_neg h]
    · simp only [SNESTile3BPPPlanar.from_data, if_pos h]
  · intro d
    refine ⟨fun h => ?_, fun h => ⟨⟨d⟩, ?_⟩⟩
    · simp only [SNESTile3BPPIntertwined.from_data, if_neg h]
    · simp only [SNESTile3BPPIntertwined.from_data, if_pos h]
  · intro d
    refine ⟨fun h => ?_, fun h => ⟨⟨d⟩, ?_⟩⟩
    · simp only [SNESTile4BPPPlanar.from_data, if_neg h]
    · simp only [SNESTile4BPPPlanar.from_data, if_pos h]
  · intro d
    refine ⟨fun h => ?_, fun h => ⟨⟨d⟩, ?_⟩⟩
    · simp only [SNESTile4BPPIntertwined.from_data, if_neg h]
    · simp only [SNESTile4BPPIntertwined.from_data, if_pos h]
  · intro d
    refine ⟨fun h => ?_, fun h => ⟨⟨d⟩, ?_⟩⟩
    · simp only [SNESTile8BPPPlanar.from_data, if_neg h]
    · simp only [SNESTile8BPPPlanar.from_data, if_pos h]
  · intro d
    refine ⟨fun h => ?_, fun h => ⟨⟨d⟩, ?_⟩⟩
    · simp only [SNESTile8BPPIntertwined.from_data, if_neg h]
    · simp only [SNESTile8BPPIntertwined.from_data, if_pos h]
  · intro d
    refine ⟨fun h => ?_, fun h => ⟨⟨d⟩, ?_⟩⟩
    · simp only [SNESTileMode7.from_data, if_neg h]
    · simp only [SNESTileMode7.from_data, if_pos h]
  · intro d
    refine ⟨fun h => ?_, fun h => ⟨⟨(List.range 16).map (decodeBgr555At d)⟩, ?_⟩⟩
    · simp only [SNESPalette16.from_data, if_pos h]
    · simp only [SNESPalette16.from_data, if_neg (not_not_intro h)]
  · intro d
    refine ⟨fun h => ?_, fun h => ⟨⟨(List.range 256).map (decodeBgr555At d)⟩, ?_⟩⟩
    · simp only [SNESPalette256.from_data, if_pos h]
    · simp only [SNESPalette256.from_data, if_neg (not_not_intro h)]

set_option maxRecDepth 100000 in
/-- Witness for C8: coordinate 8 fails, and buffers one byte short, one byte
long, and exactly right behave as stated, for every type. -/
theorem claim_C8_witness :
    (isOOB (SNESTile1BPP.get_value ⟨List.replicate 8 0⟩ 8 0) ∧
      isOOB (SNESTile1BPP.set_value ⟨List.replicate 8 0⟩ 8 0 0)) ∧
    (isOOB (SNESTile2BPPPlanar.get_value ⟨List.replicate 16 0⟩ 8 0) ∧
      isOOB (SNESTile2BPPPlanar.set_value ⟨List.replicate 16 0⟩ 8 0 0)) ∧
    (isOOB (SNESTile2BPPIntertwined.get_value ⟨List.replicate 16 0⟩ 8 0) ∧
      isOOB (SNESTile2BPPIntertwined.set_value ⟨List.replicate 16 0⟩ 8 0 0)) ∧
    (isOOB (SNESTile3BPPPlanar.get_value ⟨List.replicate 24 0⟩ 8 0) ∧
      isOOB (SNESTile3BPPPlanar.set_value ⟨List.replicate 24 0⟩ 8 0 0)) ∧
    (isOOB (SNESTile3BPPIntertwined.get_value ⟨List.replicate 24 0⟩ 8 0) ∧
      isOOB (SNESTile3BPPIntertwined.set_value ⟨List.replicate 24 0⟩ 8 0 0)) ∧
    (isOOB (SNESTile4BPPPlanar.get_value ⟨List.replicate 32 0⟩ 8 0) ∧
      isOOB (SNESTile4BPPPlanar.set_value ⟨List.replicate 32 0⟩ 8 0 0)) ∧
    (isOOB (SNESTile4BPPIntertwined.get_value ⟨List.replicate 32 0⟩ 8 0) ∧
      isOOB (SNESTile4BPPIntertwined.set_value ⟨List.replicate 32 0⟩ 8 0 0)) ∧
    (isOOB (SNESTile8BPPPlanar.get_value ⟨List.replicate 64 0⟩ 8 0) ∧
      isOOB (SNESTile8BPPPlanar.set_value ⟨List.replicate 64 0⟩ 8 0 0)) ∧
    (isOOB (SNESTile8BPPIntertwined.get_value ⟨List.replicate 64 0⟩ 8 0) ∧
      isOOB (SNESTile8BPPIntertwined.set_value ⟨List.replicate 64 0⟩ 8 0 0)) ∧
    (isOOB (SNESTileMode7.get_value ⟨List.replicate 64 0⟩ 8 0) ∧
      isOOB (SNESTileMode7.set_value ⟨List.replicate 64 0⟩ 8 0 0)) ∧
    (SNESTile1BPP.from_data (List.replicate 7 0) =
        .error (.DataLengthMismatch (List.replicate 7 0).length (8)) ∧
      SNESTile1BPP.from_data (List.replicate 9 0) =
        .error (.DataLengthMismatch (List.replicate 9 0).length (8)) ∧
      ∃ t, SNESTile1BPP.from_data (List.replicate 8 0) = .ok t) ∧
    (SNESTile2BPPPlanar.from_data (List.replicate 15 0) =
        .error (.DataLengthMismatch (List.replicate 15 0).length (8 * 2)) ∧
      SNESTile2BPPPlanar.from_data (List.replicate 17 0) =
        .error (.DataLengthMismatch (List.replicate 17 0).length (8 * 2)) ∧
      ∃ t, SNESTile2BPPPlanar.from_data (List.replicate 16 0) = .ok t) ∧
    (SNESTile2BPPIntertwined.from_data (List.replicate 15 0) =
        .error (.DataLengthMismatch (List.replicate 15 0).length (8 * 2)) ∧
      SNESTile2BPPIntertwined.from_data (List.replicate 17 0) =
        .error (.DataLengthMismatch (List.replicate 17 0).length (8 * 2)) ∧
      ∃ t, SNESTile2BPPIntertwined.from_data (List.replicate 16 0) = .ok t) ∧
    (SNESTile3BPPPlanar.from_data (List.replicate 23 0) =
        .error (.DataLengthMismatch (List.replicate 23 0).length (8 * 3)) ∧
      SNESTile3BPPPlanar.from_data (List.replicate 25 0) =
        .error (.DataLengthMismatch (List.replicate 25 0).length (8 * 3)) ∧
      ∃ t, SNESTile3BPPPlanar.from_data (List.replicate 24 0) = .ok t) ∧
    (SNESTile3BPPIntertwined.from_data (List.replicate 23 0) =
        .error (.DataLengthMismatch (List.replicate 23 0).length (8 * 3)) ∧
      SNESTile3BPPIntertwined.from_data (List.replicate 25 0) =
        .error (.DataLengthMismatch (List.replicate 25 0).length (8 * 3)) ∧
      ∃ t, SNESTile3BPPIntertwined.from_data (List.replicate 24 0) = .ok t) ∧
    (SNESTile4BPPPlanar.from_data (List.replicate 31 0) =
        .error (.DataLengthMismatch (List.replicate 31 0).length (8 * 4)) ∧
      SNESTile4BPPPlanar.from_data (List.replicate 33 0) =
        .error (.DataLengthMismatch (List.replicate 33 0).length (8 * 4)) ∧
      ∃ t, SNESTile4BPPPlanar.from_data (List.replicate 32 0) = .ok t) ∧
    (SNESTile4BPPIntertwined.from_data (List.replicate 31 0) =
        .error (.DataLengthMismatch (List.replicate 31 0).length (8 * 4)) ∧
      SNESTile4BPPIntertwined.from_data (List.replicate 33 0) =
        .error (.DataLengthMismatch (List.replicate 33 0).length (8 * 4)) ∧
      ∃ t, SNESTile4BPPIntertwined.from_data (List.replicate 32 0) = .ok t) ∧
    (SNESTile8BPPPlanar.from_data (List.replicate 63 0) =
        .error (.DataLengthMismatch (List.replicate 63 0).length (8 * 8)) ∧
      SNESTile8BPPPlanar.from_data (List.replicate 65 0) =
        .error (.DataLengthMismatch (List.replicate 65 0).length (8 * 8)) ∧
      ∃ t, SNESTile8BPPPlanar.from_data (List.replicate 64 0) = .ok t) ∧
    (SNESTile8BPPIntertwined.from_data (List.replicate 63 0) =
        .error (.DataLengthMismatch (List.replicate 63 0).length (8 * 8)) ∧
      SNESTile8BPPIntertwined.from_data (List.replicate 65 0) =
        .error (.DataLengthMismatch (List.replicate 65 0).length (8 * 8)) ∧
      ∃ t, SNESTile8BPPIntertwined.from_data (List.replicate 64 0) = .ok t) ∧
    (SNESTileMode7.from_data (List.replicate 63 0) =
        .error (.DataLengthMismatch (List.replicate 63 0).length (8 * 8)) ∧
      SNESTileMode7.from_data (List.replicate 65 0) =
        .error (.DataLengthMismatch (List.replicate 65 0).length (8 * 8)) ∧
      ∃ t, SNESTileMode7.from_data (List.replicate 64 0) = .ok t) ∧
    (SNESPalette16.from_data (List.replicate 31 0) =
        .error (.DataLengthMismatch (List.replicate 31 0).length (16 * 2)) ∧
      SNESPalette16.from_data (List.replicate 33 0) =
        .error (.DataLengthMismatch (List.replicate 33 0).length (16 * 2)) ∧
      ∃ p, SNESPalette16.from_data (List.replicate 32 0) = .ok p) ∧
    (SNESPalette256.from_data (List.replicate 511 0) =
        .error (.DataLengthMismatch (List.replicate 511 0).length (256 * 2)) ∧
      SNESPalette256.from_data (List.replicate 513 0) =
        .error (.DataLengthMismatch (List.replicate 513 0).length (256 * 2)) ∧
      ∃ p, SNESPalette256.from_data (List.replicate 512 0) = .ok p) := by
  obtain ⟨h1, h2, h3, h4, h5, h6, h7, h8, h9, h10, f1, f2, f3, f4, f5, f6, f7, f8, f9, f10, p1, p2⟩ := claim_C8
  refine ⟨?_, ?_, ?_, ?_, ?_, ?_, ?_, ?_, ?_, ?_, ?_, ?_, ?_, ?_, ?_, ?_, ?_, ?_, ?_, ?_, ?_, ?_⟩
  · exact ⟨(h1 ⟨List.replicate 8 0⟩ 8 0 0 (Or.inl (by simp))).1,
      (h1 ⟨List.replicate 8 0⟩ 8 0 0 (Or.inl (by simp))).2⟩
  · exact ⟨(h2 ⟨List.replicate 16 0⟩ 8 0 0 (Or.inl (by simp))).1,
      (h2 ⟨List.replicate 16 0⟩ 8 0 0 (Or.inl (by simp))).2⟩
  · exact ⟨(h3 ⟨List.replicate 16 0⟩ 8 0 0 (Or.inl (by simp))).1,
      (h3 ⟨List.replicate 16 0⟩ 8 0 0 (Or.inl (by simp))).2⟩
  · exact ⟨(h4 ⟨List.replicate 24 0⟩ 8 0 0 (Or.inl (by simp))).1,
      (h4 ⟨List.replicate 24 0⟩ 8 0 0 (Or.inl (by simp))).2⟩
  · exact ⟨(h5 ⟨List.replicate 24 0⟩ 8 0 0 (Or.inl (by simp))).1,
      (h5 ⟨List.replicate 24 0⟩ 8 0 0 (Or.inl (by simp))).2⟩
  · exact ⟨(h6 ⟨List.replicate 32 0⟩ 8 0 0 (Or.inl (by simp))).1,
      (h6 ⟨List.replicate 32 0⟩ 8 0 0 (Or.inl (by simp))).2⟩
  · exact ⟨(h7 ⟨List.replicate 32 0⟩ 8 0 0 (Or.inl (by simp))).1,
      (h7 ⟨List.replicate 32 0⟩ 8 0 0 (Or.inl (by simp))).2⟩
  · exact ⟨(h8 ⟨List.replicate 64 0⟩ 8 0 0 (Or.inl (by simp))).1,
      (h8 ⟨List.replicate 64 0⟩ 8 0 0 (Or.inl (by simp))).2⟩
  · exact ⟨(h9 ⟨List.replicate 64 0⟩ 8 0 0 (Or.inl (by simp))).1,
      (h9 ⟨List.replicate 64 0⟩ 8 0 0 (Or.inl (by simp))).2⟩
  · exact ⟨(h10 ⟨List.replicate 64 0⟩ 8 0 0 (Or.inl (by simp))).1,
      (h10 ⟨List.replicate 64 0⟩ 8 0 0 (Or.inl (by simp))).2⟩
  · exact ⟨(f1 (List.replicate 7 0)).1 (by simp),
      (f1 (List.replicate 9 0)).1 (by simp),
      (f1 (List.replicate 8 0)).2 (by simp)⟩
  · exact ⟨(f2 (List.replicate 15 0)).1 (by simp),
      (f2 (List.replicate 17 0)).1 (by simp),
      (f2 (List.replicate 16 0)).2 (by simp)⟩
  · exact ⟨(f3 (List.replicate 15 0)).1 (by simp),
      (f3 (List.replicate 17 0)).1 (by simp),
      (f3 (List.replicate 16 0)).2 (by simp)⟩
  · exact ⟨(f4 (List.replicate 23 0)).1 (by simp),
      (f4 (List.replicate 25 0)).1 (by simp),
      (f4 (List.replicate 24 0)).2 (by simp)⟩
  · exact ⟨(f5 (List.replicate 23 0)).1 (by simp),
      (f5 (List.replicate 25 0)).1 (by simp),
      (f5 (List.replicate 24 0)).2 (by simp)⟩
  · exact ⟨(f6 (List.replicate 31 0)).1 (by simp),
      (f6 (List.replicate 33 0)).1 (by simp),
      (f6 (List.replicate 32 0)).2 (by simp)⟩
  · exact ⟨(f7 (List.replicate 31 0)).1 (by simp),
      (f7 (List.replicate 33 0)).1 (by simp),
      (f7 (List.replicate 32 0)).2 (by simp)⟩
  · exact ⟨(f8 (List.replicate 63 0)).1 (by simp),
      (f8 (List.replicate 65 0)).1 (by simp),
      (f8 (List.replicate 64 0)).2 (by simp)⟩
  · exact ⟨(f9 (List.replicate 63 0)).1 (by simp),
      (f9 (List.replicate 65 0)).1 (by simp),
      (f9 (List.replicate 64 0)).2 (by simp)⟩
  · exact ⟨(f10 (List.replicate 63 0)).1 (by simp),
      (f10 (List.replicate 65 0)).1 (by simp),
      (f10 (List.replicate 64 0)).2 (by simp)⟩
  · exact ⟨(p1 (List.replicate 31 0)).1 (by simp),
      (p1 (List.replicate 33 0)).1 (by simp),
      (p1 (List.replicate 32 0)).2 (by simp)⟩
  · exact ⟨(p2 (List.replicate 511 0)).1 (by simp),
      (p2 (List.replicate 513 0)).1 (by simp),
      (p2 (List.replicate 512 0)).2 (by simp)⟩

theorem getD_mem_of_lt (l : List Nat) (k : Nat) (h : k < l.length) : l.getD k 0 ∈ l := by
  rw [List.getD_eq_getElem?_getD, List.getElem?_eq_getElem h]
  simpa using List.getElem_mem h

set_option maxHeartbeats 1600000 in
theorem roundTrip_1BPP (C : List Nat) (hC : C.length = 64) (hmem : ∀ c ∈ C, c < 2) :
    ∃ t : SNESTile1BPP, SNESTile.from_colormap C = .ok t ∧ SNESTile.to_colormap t = .ok C := by
  refine roundtrip_generic (fun v => v < 2) (fun t => t.data.length = 8)
    (by show (List.replicate 8 0).length = 8; simp)
      (fun t x y v hInv hx hy hv =>
        ⟨_, SNESTile1BPP.set_ok_1BPP t x y v hx hy hv, by
          simp only [writePass, clearPass, sweep_length]; exact hInv⟩)
      (fun t t' x y v hInv hx hy hv hs =>
        SNESTile1BPP.get_set_same_1BPP t t' x y v hInv hx hy hv hs)
      (fun t t' x y v x' y' hInv hx hy hv hx' hy' hne hs =>
        SNESTile1BPP.get_set_other_1BPP t t' x y v x' y' hInv hx hy hv hx' hy' hne hs)
    C hC (fun k hk => hmem _ (getD_mem_of_lt C k (by omega)))

set_option maxHeartbeats 1600000 in
theorem roundTrip_2BPPPlanar (C : List Nat) (hC : C.length = 64) (hmem : ∀ c ∈ C, c < 4) :
    ∃ t : SNESTile2BPPPlanar, SNESTile.from_colormap C = .ok t ∧ SNESTile.to_colormap t = .ok C := by
  refine roundtrip_generic (fun v => v < 4) (fun t => t.data.length = 16)
    (by show (List.replicate (8 * 2) 0).length = 16; simp)
      (fun t x y v hInv hx hy hv =>
        ⟨_, SNESTile2BPPPlanar.set_ok_2BPPPlanar t x y v hx hy hv, by
          simp only [writePass, clearPass, sweep_length]; exact hInv⟩)
      (fun t t' x y v hInv hx hy hv hs =>
        SNESTile2BPPPlanar.get_set_same_2BPPPlanar t t' x y v hInv hx hy hv hs)
      (fun t t' x y v x' y' hInv hx hy hv hx' hy' hne hs =>
        SNESTile2BPPPlanar.get_set_other_2BPPPlanar t t' x y v x' y' hInv hx hy hv hx' hy' hne hs)
    C hC (fun k hk => hmem _ (getD_mem_of_lt C k (by omega)))

set_option maxHeartbeats 1600000 in
theorem roundTrip_2BPPIntertwined (C : List Nat) (hC : C.length = 64) (hmem : ∀ c ∈ C, c < 4) :
    ∃ t : SNESTile2BPPIntertwined, SNESTile.from_colormap C = .ok t ∧ SNESTile.to_colormap t = .ok C := by
  refine roundtrip_generic (fun v => v < 4) (fun t => t.data.length = 16)
    (by show (List.replicate (8 * 2) 0).length = 16; simp)
      (fun t x y v hInv hx hy hv =>
        ⟨_, SNESTile2BPPIntertwined.set_ok_2BPPIntertwined t x y v hx hy hv, by
          simp only [writePass, clearPass, sweep_length]; exact hInv⟩)
      (fun t t' x y v hInv hx hy hv hs =>
        SNESTile2BPPIntertwined.get_set_same_2BPPIntertwined t t' x y v hInv hx hy hv hs)
      (fun t t' x y v x' y' hInv hx hy hv hx' hy' hne hs =>
        SNESTile2BPPIntertwined.get_set_other_2BPPIntertwined t t' x y v x' y' hInv hx hy hv hx' hy' hne hs)
    C hC (fun k hk => hmem _ (getD_mem_of_lt C k (by omega)))

set_option maxHeartbeats 1600000 in
theorem roundTrip_3BPPPlanar (C : List Nat) (hC : C.length = 64) (hmem : ∀ c ∈ C, c < 8) :
    ∃ t : SNESTile3BPPPlanar, SNESTile.from_colormap C = .ok t ∧ SNESTile.to_colormap t = .ok C := by
  refine roundtrip_generic (fun v => v < 8) (fun t => t.data.length = 24)
    (by show (List.replicate (8 * 3) 0).length = 24; simp)
      (fun t x y v hInv hx hy hv =>
        ⟨_, SNESTile3BPPPlanar.set_ok_3BPPPlanar t x y v hx hy hv, by
          simp only [writePass, clearPass, sweep_length]; exact hInv⟩)
      (fun t t' x y v hInv hx hy hv hs =>
        SNESTile3BPPPlanar.get_set_same_3BPPPlanar t t' x y v hInv hx hy hv hs)
      (fun t t' x y v x' y' hInv hx hy hv hx' hy' hne hs =>
        SNESTile3BPPPlanar.get_set_other_3BPPPlanar t t' x y v x' y' hInv hx hy hv hx' hy' hne hs)
    C hC (fun k hk => hmem _ (getD_mem_of_lt C k (by omega)))

set_option maxHeartbeats 1600000 in
theorem roundTrip_3BPPIntertwined (C : List Nat) (hC : C.length = 64) (hmem : ∀ c ∈ C, c < 8) :
    ∃ t : SNESTile3BPPIntertwined, SNESTile.from_colormap C = .ok t ∧ SNESTile.to_colormap t = .ok C := by
  refine roundtrip_generic (fun v => v < 8) (fun t => t.data.length = 24)
    (by show (List.replicate (8 * 3) 0).length = 24; simp)
      (fun t x y v hInv hx hy hv =>
        ⟨_, SNESTile3BPPIntertwined.set_ok_3BPPIntertwined t x y v hx hy hv, by
          simp only [writePass, clearPass, sweep_length]; exact hInv⟩)
      (fun t t' x y v hInv hx hy hv hs =>
        SNESTile3BPPIntertwined.get_set_same_3BPPIntertwined t t' x y v hInv hx hy hv hs)
      (fun t t' x y v x' y' hInv hx hy hv hx' hy' hne hs =>
        SNESTile3BPPIntertwined.get_set_other_3BPPIntertwined t t' x y v x' y' hInv hx hy hv hx' hy' hne hs)
    C hC (fun k hk => hmem _ (getD_mem_of_lt C k (by omega)))

set_option maxHeartbeats 1600000 in
theorem roundTrip_4BPPPlanar (C : List Nat) (hC : C.length = 64) (hmem : ∀ c ∈ C, c < 16) :
    ∃ t : SNESTile4BPPPlanar, SNESTile.from_colormap C = .ok t ∧ SNESTile.to_colormap t = .ok C := by
  refine roundtrip_generic (fun v => v < 16) (fun t => t.data.length = 32)
    (by show (List.replicate (8 * 4) 0).length = 32; simp)
      (fun t x y v hInv hx hy hv =>
        ⟨_, SNESTile4BPPPlanar.set_ok_4BPPPlanar t x y v hx hy hv, by
          simp only [writePass, clearPass, sweep_length]; exact hInv⟩)
      (fun t t' x y v hInv hx hy hv hs =>
        SNESTile4BPPPlanar.get_set_same_4BPPPlanar t t' x y v hInv hx hy hv hs)
      (fun t t' x y v x' y' hInv hx hy hv hx' hy' hne hs =>
        SNESTile4BPPPlanar.get_set_other_4BPPPlanar t t' x y v x' y' hInv hx hy hv hx' hy' hne hs)
    C hC (fun k hk => hmem _ (getD_mem_of_lt C k (by omega)))

set_option maxHeartbeats 1600000 in
theorem roundTrip_4BPPIntertwined (C : List Nat) (hC : C.length = 64) (hmem : ∀ c ∈ C, c < 16) :
    ∃ t : SNESTile4BPPIntertwined, SNESTile.from_colormap C = .ok t ∧ SNESTile.to_colormap t = .ok C := by
  refine roundtrip_generic (fun v => v < 16) (fun t => t.data.length = 32)
    (by show (List.replicate (8 * 4) 0).length = 32; simp)
      (fun t x y v hInv hx hy hv =>
        ⟨_, SNESTile4BPPIntertwined.set_ok_4BPPIntertwined t x y v hx hy hv, by
          simp only [writePass, clearPass, sweep_length]; exact hInv⟩)
      (fun t t' x y v hInv hx hy hv hs =>
        SNESTile4BPPIntertwined.get_set_same_4BPPIntertwined t t' x y v hInv hx hy hv hs)
      (fun t t' x y v x' y' hInv hx hy hv hx' hy' hne hs =>
        SNESTile4BPPIntertwined.get_set_other_4BPPIntertwined t t' x y v x' y' hInv hx hy hv hx' hy' hne hs)
    C hC (fun k hk => hmem _ (getD_mem_of_lt C k (by omega)))

set_option maxHeartbeats 1600000 in
theorem roundTrip_8BPPPlanar (C : List Nat) (hC : C.length = 64) (hmem : ∀ c ∈ C, c < 16) :
    ∃ t : SNESTile8BPPPlanar, SNESTile.from_colormap C = .ok t ∧ SNESTile.to_colormap t = .ok C := by
  refine roundtrip_generic (fun v => v < 16) (fun t => t.data.length = 64)
    (by show (List.replicate (8 * 8) 0).length = 64; simp)
      (fun t x y v hInv hx hy hv =>
        ⟨_, SNESTile8BPPPlanar.set_ok_8BPPPlanar t x y v hx hy hv, by
          simp only [writePass, clearPass, sweep_length]; exact hInv⟩)
      (fun t t' x y v hInv hx hy hv hs =>
        SNESTile8BPPPlanar.get_set_same_8BPPPlanar t t' x y v hInv hx hy hv hs)
      (fun t t' x y v x' y' hInv hx hy hv hx' hy' hne hs =>
        SNESTile8BPPPlanar.get_set_other_8BPPPlanar t t' x y v x' y' hInv hx hy hv hx' hy' hne hs)
    C hC (fun k hk => hmem _ (getD_mem_of_lt C k (by omega)))

set_option maxHeartbeats 1600000 in
theorem roundTrip_8BPPIntertwined (C : List Nat) (hC : C.length = 64) (hmem : ∀ c ∈ C, c < 256) :
    ∃ t : SNESTile8BPPIntertwined, SNESTile.from_colormap C = .ok t ∧ SNESTile.to_colormap t = .ok C := by
  refine roundtrip_generic (fun v => v < 256) (fun t => t.data.length = 64)
    (by show (List.replicate (8 * 8) 0).length = 64; simp)
      (fun t x y v hInv hx hy hv =>
        ⟨_, SNESTile8BPPIntertwined.set_ok_8BPPIntertwined t x y v hx hy hv, by
          simp only [writePass, clearPass, sweep_length]; exact hInv⟩)
      (fun t t' x y v hInv hx hy hv hs =>
        SNESTile8BPPIntertwined.get_set_same_8BPPIntertwined t t' x y v hInv hx hy hv hs)
      (fun t t' x y v x' y' hInv hx hy hv hx' hy' hne hs =>
        SNESTile8BPPIntertwined.get_set_other_8BPPIntertwined t t' x y v x' y' hInv hx hy hv hx' hy' hne hs)
    C hC (fun k hk => hmem _ (getD_mem_of_lt C k (by omega)))

set_option maxHeartbeats 1600000 in
theorem roundTrip_Mode7 (C : List Nat) (hC : C.length = 64) (hmem : ∀ c ∈ C, c < 256) :
    ∃ t : SNESTileMode7, SNESTile.from_colormap C = .ok t ∧ SNESTile.to_colormap t = .ok C := by
  refine roundtrip_generic (fun v => v < 256) (fun t => t.data.length = 64)
    (by show (List.replicate (8 * 8) 0).length = 64; simp)
      (fun t x y v hInv hx hy hv =>
        ⟨⟨t.data.set (y * 8 + x) v⟩, SNESTileMode7.set_ok_Mode7 t x y v hx hy, by
          show (t.data.set (y * 8 + x) v).length = 64
          rw [List.length_set]; exact hInv⟩)
      (fun t t' x y v hInv hx hy hv hs => SNESTileMode7.get_set_same_Mode7 t t' x y v hInv hx hy hs)
      (fun t t' x y v x' y' hInv hx hy hv hx' hy' hne hs =>
        SNESTileMode7.get_set_other_Mode7 t t' x y v x' y' hx hy hx' hy' hne hs)
    C hC (fun k hk => hmem _ (getD_mem_of_lt C k (by omega)))


set_option maxRecDepth 100000 in
/-- C3 counterexample: the 64-entry colormap `16, 0, ..., 0` has every entry
within the 8bpp depth range `[0, 2^8)`, yet the 8bpp-planar `from_colormap`
rejects it, because its `set_value` rejects values >= 16; so the claimed
round-trip does not hold for every colormap consistent with that format's
depth of 8. -/
theorem claim_C3_counterexample :
    (16 :: List.replicate 63 0).length = 64 ∧
    (∀ c ∈ 16 :: List.replicate 63 0, c < 2 ^ 8) ∧
    (SNESTile.from_colormap (16 :: List.replicate 63 0) :
      Except Error SNESTile8BPPPlanar) = .error (.InvalidColorIndex 16) := by
  refine ⟨by decide, by decide, by decide⟩

/-- C3 (amended): for every tile format and every length-64 colormap whose
entries lie in the range that format's `set_value` accepts — `[0, 2^depth)`
for the 1/2/3/4bpp formats, `[0, 16)` for 8bpp-planar (which rejects values
>= 16 despite its depth of 8), and any byte for 8bpp-intertwined and Mode7 —
`from_colormap` succeeds and `to_colormap` of the result returns the original
colormap. -/
theorem claim_C3 :
    (∀ C : List Nat, C.length = 64 → (∀ c ∈ C, c < 2) →
      ∃ t : SNESTile1BPP, SNESTile.from_colormap C = .ok t ∧
        SNESTile.to_colormap t = .ok C) ∧
    (∀ C : List Nat, C.length = 64 → (∀ c ∈ C, c < 4) →
      ∃ t : SNESTile2BPPPlanar, SNESTile.from_colormap C = .ok t ∧
        SNESTile.to_colormap t = .ok C) ∧
    (∀ C : List Nat, C.length = 64 → (∀ c ∈ C, c < 4) →
      ∃ t : SNESTile2BPPIntertwined, SNESTile.from_colormap C = .ok t ∧
        SNESTile.to_colormap t = .ok C) ∧
    (∀ C : List Nat, C.length = 64 → (∀ c ∈ C, c < 8) →
      ∃ t : SNESTile3BPPPlanar, SNESTile.from_colormap C = .ok t ∧
        SNESTile.to_colormap t = .ok C) ∧
    (∀ C : List Nat, C.length = 64 → (∀ c ∈ C, c < 8) →
      ∃ t : SNESTile3BPPIntertwined, SNESTile.from_colormap C = .ok t ∧
        SNESTile.to_colormap t = .ok C) ∧
    (∀ C : List Nat, C.length = 64 → (∀ c ∈ C, c < 16) →
      ∃ t : SNESTile4BPPPlanar, SNESTile.from_colormap C = .ok t ∧
        SNESTile.to_colormap t = .ok C) ∧
    (∀ C : List Nat, C.length = 64 → (∀ c ∈ C, c < 16) →
      ∃ t : SNESTile4BPPIntertwined, SNESTile.from_colormap C = .ok t ∧
        SNESTile.to_colormap t = .ok C) ∧
    (∀ C : List Nat, C.length = 64 → (∀ c ∈ C, c < 16) →
      ∃ t : SNESTile8BPPPlanar, SNESTile.from_colormap C = .ok t ∧
        SNESTile.to_colormap t = .ok C) ∧
    (∀ C : List Nat, C.length = 64 → (∀ c ∈ C, c < 256) →
      ∃ t : SNESTile8BPPIntertwined, SNESTile.from_colormap C = .ok t ∧
        SNESTile.to_colormap t = .ok C) ∧
    (∀ C : List Nat, C.length = 64 → (∀ c ∈ C, c < 256) →
      ∃ t : SNESTileMode7, SNESTile.from_colormap C = .ok t ∧
        SNESTile.to_colormap t = .ok C) :=
  ⟨roundTrip_1BPP, roundTrip_2BPPPlanar, roundTrip_2BPPIntertwined, roundTrip_3BPPPlanar, roundTrip_3BPPIntertwined, roundTrip_4BPPPlanar, roundTrip_4BPPIntertwined, roundTrip_8BPPPlanar, roundTrip_8BPPIntertwined, roundTrip_Mode7⟩

/-- Witness for C3 at the concrete all-ones colormap, for every format. -/
theorem claim_C3_witness :
    (∃ t : SNESTile1BPP, SNESTile.from_colormap (List.replicate 64 1) = .ok t ∧
      SNESTile.to_colormap t = .ok (List.replicate 64 1)) ∧
    (∃ t : SNESTile2BPPPlanar, SNESTile.from_colormap (List.replicate 64 1) = .ok t ∧
      SNESTile.to_colormap t = .ok (List.replicate 64 1)) ∧
    (∃ t : SNESTile2BPPIntertwined, SNESTile.from_colormap (List.replicate 64 1) = .ok t ∧
      SNESTile.to_colormap t = .ok (List.replicate 64 1)) ∧
    (∃ t : SNESTile3BPPPlanar, SNESTile.from_colormap (List.replicate 64 1) = .ok t ∧
      SNESTile.to_colormap t = .ok (List.replicate 64 1)) ∧
    (∃ t : SNESTile3BPPIntertwined, SNESTile.from_colormap (List.replicate 64 1) = .ok t ∧
      SNESTile.to_colormap t = .ok (List.replicate 64 1)) ∧
    (∃ t : SNESTile4BPPPlanar, SNESTile.from_colormap (List.replicate 64 1) = .ok t ∧
      SNESTile.to_colormap t = .ok (List.replicate 64 1)) ∧
    (∃ t : SNESTile4BPPIntertwined, SNESTile.from_colormap (List.replicate 64 1) = .ok t ∧
      SNESTile.to_colormap t = .ok (List.replicate 64 1)) ∧
    (∃ t : SNESTile8BPPPlanar, SNESTile.from_colormap (List.replicate 64 1) = .ok t ∧
      SNESTile.to_colormap t = .ok (List.replicate 64 1)) ∧
    (∃ t : SNESTile8BPPIntertwined, SNESTile.from_colormap (List.replicate 64 1) = .ok t ∧
      SNESTile.to_colormap t = .ok (List.replicate 64 1)) ∧
    (∃ t : SNESTileMode7, SNESTile.from_colormap (List.replicate 64 1) = .ok t ∧
      SNESTile.to_colormap t = .ok (List.replicate 64 1)) := by
  obtain ⟨h1, h2, h3, h4, h5, h6, h7, h8, h9, h10⟩ := claim_C3
  exact ⟨h1 _ (by simp) (by simp), h2 _ (by simp) (by simp), h3 _ (by simp) (by simp),
    h4 _ (by simp) (by simp), h5 _ (by simp) (by simp), h6 _ (by simp) (by simp),
    h7 _ (by simp) (by simp), h8 _ (by simp) (by simp), h9 _ (by simp) (by simp),
    h10 _ (by simp) (by simp)⟩

/-- The per-pixel computation of the `direct_color_mode` loop body
(src/graphics.rs lines 238-248), transcribed bit for bit: in particular
`blue_bit = (palette_arg & 4) >> 1`. -/
def directColorPixel (palette_arg c : Nat) : Bgr555 :=
  let red_bit := (palette_arg &&& 1) >>> 0
  let green_bit := (palette_arg &&& 2) >>> 1
  let blue_bit := (palette_arg &&& 4) >>> 1
  let blue := ((c &&& 0xC0) >>> 4) ||| blue_bit
  let green := ((c &&& 0x38) >>> 2) ||| green_bit
  let red := ((c &&& 0x7) <<< 1) ||| red_bit
  (((Bgr555.mk 0).set_blue blue).set_green green).set_red red

/-- The per-pixel formula exactly as the specification states it (claim C1):
`blueBit = (paletteArgument >> 2) & 1`, `greenBit = (paletteArgument >> 1) & 1`,
`redBit = paletteArgument & 1`; `blue = ((c & 0xC0) >> 4) | blueBit`,
`green = ((c & 0x38) >> 2) | greenBit`, `red = ((c & 0x07) << 1) | redBit`. -/
def directColorPixelClaimed (palette_arg c : Nat) : Bgr555 :=
  let blue := ((c &&& 0xC0) >>> 4) ||| ((palette_arg >>> 2) &&& 1)
  let green := ((c &&& 0x38) >>> 2) ||| ((palette_arg >>> 1) &&& 1)
  let red := ((c &&& 0x7) <<< 1) ||| (palette_arg &&& 1)
  (((Bgr555.mk 0).set_blue blue).set_green green).set_red red

/-- The spec formula amended minimally: the blue palette bit lands at bit 1 of
the blue channel, not bit 0; green and red are as the spec states. -/
def directColorPixelFixed (palette_arg c : Nat) : Bgr555 :=
  let blue := ((c &&& 0xC0) >>> 4) ||| (((palette_arg >>> 2) &&& 1) <<< 1)
  let green := ((c &&& 0x38) >>> 2) ||| ((palette_arg >>> 1) &&& 1)
  let red := ((c &&& 0x7) <<< 1) ||| (palette_arg &&& 1)
  (((Bgr555.mk 0).set_blue blue).set_green green).set_red red

theorem red_bit_eq (pa : Nat) : (pa &&& 1) >>> 0 = pa &&& 1 := Nat.shiftRight_zero

theorem green_bit_eq (pa : Nat) : (pa &&& 2) >>> 1 = (pa >>> 1) &&& 1 := by
  have h := Nat.and_two_pow pa 1
  rw [Nat.toNat_testBit] at h
  norm_num at h
  have h2 : (pa >>> 1) &&& 1 = pa / 2 % 2 := by
    rw [Nat.and_one_is_mod, Nat.shiftRight_eq_div_pow]
    try norm_num
  rw [h, h2, Nat.shiftRight_eq_div_pow]
  try omega

theorem blue_bit_eq (pa : Nat) : (pa &&& 4) >>> 1 = ((pa >>> 2) &&& 1) <<< 1 := by
  have h := Nat.and_two_pow pa 2
  rw [Nat.toNat_testBit] at h
  norm_num at h
  have h2 : (pa >>> 2) &&& 1 = pa / 4 % 2 := by
    rw [Nat.and_one_is_mod, Nat.shiftRight_eq_div_pow]
    try norm_num
  rw [h, h2, Nat.shiftRight_eq_div_pow, Nat.shiftLeft_eq]
  try omega

theorem directColorPixel_eq_fixed (pa c : Nat) :
    directColorPixel pa c = directColorPixelFixed pa c := by
  simp only [directColorPixel, directColorPixelFixed]
  rw [red_bit_eq pa, green_bit_eq pa, blue_bit_eq pa]

/-- Unfolding `direct_color_mode` over a successfully decoded colormap. -/
theorem direct_color_mode_eq {α : Type} [SNESTile α] (t : α) (pa : Nat) (cm : List Nat)
    (h : SNESTile.to_colormap t = .ok cm) :
    SNESTile.direct_color_mode t pa = .ok (cm.map (directColorPixel pa)) := by
  rw [SNESTile.direct_color_mode, h]
  rfl

/-- C1 (amended): for every tile of any format and every palette argument
byte, `direct_color_mode` returns Ok, and the output color at linear index i
is assembled from the colormap value c at index i with channels
`green = ((c & 0x38) >> 2) | ((pa >> 1) & 1)`,
`red = ((c & 0x07) << 1) | (pa & 1)` — as the spec states — but
`blue = ((c & 0xC0) >> 4) | (((pa >> 2) & 1) << 1)`: the blue palette bit is
placed at bit 1 of the blue channel, not bit 0. -/
theorem claim_C1 :
    (∀ (t : SNESTile1BPP) (pa : Nat), pa < 256 →
      ∃ cm, SNESTile.to_colormap t = .ok cm ∧
        SNESTile.direct_color_mode t pa = .ok (cm.map (directColorPixelFixed pa))) ∧
    (∀ (t : SNESTile2BPPPlanar) (pa : Nat), pa < 256 →
      ∃ cm, SNESTile.to_colormap t = .ok cm ∧
        SNESTile.direct_color_mode t pa = .ok (cm.map (directColorPixelFixed pa))) ∧
    (∀ (t : SNESTile2BPPIntertwined) (pa : Nat), pa < 256 →
      ∃ cm, SNESTile.to_colormap t = .ok cm ∧
        SNESTile.direct_color_mode t pa = .ok (cm.map (directColorPixelFixed pa))) ∧
    (∀ (t : SNESTile3BPPPlanar) (pa : Nat), pa < 256 →
      ∃ cm, SNESTile.to_colormap t = .ok cm ∧
        SNESTile.direct_color_mode t pa = .ok (cm.map (directColorPixelFixed pa))) ∧
    (∀ (t : SNESTile3BPPIntertwined) (pa : Nat), pa < 256 →
      ∃ cm, SNESTile.to_colormap t = .ok cm ∧
        SNESTile.direct_color_mode t pa = .ok (cm.map (directColorPixelFixed pa))) ∧
    (∀ (t : SNESTile4BPPPlanar) (pa : Nat), pa < 256 →
      ∃ cm, SNESTile.to_colormap t = .ok cm ∧
        SNESTile.direct_color_mode t pa = .ok (cm.map (directColorPixelFixed pa))) ∧
    (∀ (t : SNESTile4BPPIntertwined) (pa : Nat), pa < 256 →
      ∃ cm, SNESTile.to_colormap t = .ok cm ∧
        SNESTile.direct_color_mode t pa = .ok (cm.map (directColorPixelFixed pa))) ∧
    (∀ (t : SNESTile8BPPPlanar) (pa : Nat), pa < 256 →
      ∃ cm, SNESTile.to_colormap t = .ok cm ∧
        SNESTile.direct_color_mode t pa = .ok (cm.map (directColorPixelFixed pa))) ∧
    (∀ (t : SNESTile8BPPIntertwined) (pa : Nat), pa < 256 →
      ∃ cm, SNESTile.to_colormap t = .ok cm ∧
        SNESTile.direct_color_mode t pa = .ok (cm.map (directColorPixelFixed pa))) ∧
    (∀ (t : SNESTileMode7) (pa : Nat), pa < 256 →
      ∃ cm, SNESTile.to_colormap t = .ok cm ∧
        SNESTile.direct_color_mode t pa = .ok (cm.map (directColorPixelFixed pa))) := by
  refine ⟨?_, ?_, ?_, ?_, ?_, ?_, ?_, ?_, ?_, ?_⟩
  · intro t pa hpa
    obtain ⟨cm, hcm⟩ := to_colormap_ok_of_get_total t (fun x y hx hy =>
      ⟨_, SNESTile1BPP.get_in_bounds_1BPP t x y hx hy⟩)
    refine ⟨cm, hcm, ?_⟩
    rw [direct_color_mode_eq t pa cm hcm,
      show directColorPixel pa = directColorPixelFixed pa from
        funext (directColorPixel_eq_fixed pa)]
  · intro t pa hpa
    obtain ⟨cm, hcm⟩ := to_colormap_ok_of_get_total t (fun x y hx hy =>
      ⟨_, SNESTile2BPPPlanar.get_in_bounds_2BPPPlanar t x y hx hy⟩)
    refine ⟨cm, hcm, ?_⟩
    rw [direct_color_mode_eq t pa cm hcm,
      show directColorPixel pa = directColorPixelFixed pa from
        funext (directColorPixel_eq_fixed pa)]
  · intro t pa hpa
    obtain ⟨cm, hcm⟩ := to_colormap_ok_of_get_total t (fun x y hx hy =>
      ⟨_, SNESTile2BPPIntertwined.get_in_bounds_2BPPIntertwined t x y hx hy⟩)
    refine ⟨cm, hcm, ?_⟩
    rw [direct_color_mode_eq t pa cm hcm,
      show directColorPixel pa = directColorPixelFixed pa from
        funext (directColorPixel_eq_fixed pa)]
  · intro t pa hpa
    obtain ⟨cm, hcm⟩ := to_colormap_ok_of_get_total t (fun x y hx hy =>
      ⟨_, SNESTile3BPPPlanar.get_in_bounds_3BPPPlanar t x y hx hy⟩)
    refine ⟨cm, hcm, ?_⟩
    rw [direct_color_mode_eq t pa cm hcm,
      show directColorPixel pa = directColorPixelFixed pa from
        funext (directColorPixel_eq_fixed pa)]
  · intro t pa hpa
    obtain ⟨cm, hcm⟩ := to_colormap_ok_of_get_total t (fun x y hx hy =>
      ⟨_, SNESTile3BPPIntertwined.get_in_bounds_3BPPIntertwined t x y hx hy⟩)
    refine ⟨cm, hcm, ?_⟩
    rw [direct_color_mode_eq t pa cm hcm,
      show directColorPixel pa = directColorPixelFixed pa from
        funext (directColorPixel_eq_fixed pa)]
  · intro t pa hpa
    obtain ⟨cm, hcm⟩ := to_colormap_ok_of_get_total t (fun x y hx hy =>
      ⟨_, SNESTile4BPPPlanar.get_in_bounds_4BPPPlanar t x y hx hy⟩)
    refine ⟨cm, hcm, ?_⟩
    rw [direct_color_mode_eq t pa cm hcm,
      show directColorPixel pa = directColorPixelFixed pa from
        funext (directColorPixel_eq_fixed pa)]
  · intro t pa hpa
    obtain ⟨cm, hcm⟩ := to_colormap_ok_of_get_total t (fun x y hx hy =>
      ⟨_, SNESTile4BPPIntertwined.get_in_bounds_4BPPIntertwined t x y hx hy⟩)
    refine ⟨cm, hcm, ?_⟩
    rw [direct_color_mode_eq t pa cm hcm,
      show directColorPixel pa = directColorPixelFixed pa from
        funext (directColorPixel_eq_fixed pa)]
  · intro t pa hpa
    obtain ⟨cm, hcm⟩ := to_colormap_ok_of_get_total t (fun x y hx hy =>
      ⟨_, SNESTile8BPPPlanar.get_in_bounds_8BPPPlanar t x y hx hy⟩)
    refine ⟨cm, hcm, ?_⟩
    rw [direct_color_mode_eq t pa cm hcm,
      show directColorPixel pa = directColorPixelFixed pa from
        funext (directColorPixel_eq_fixed pa)]
  · intro t pa hpa
    obtain ⟨cm, hcm⟩ := to_colormap_ok_of_get_total t (fun x y hx hy =>
      ⟨_, SNESTile8BPPIntertwined.get_in_bounds_8BPPIntertwined t x y hx hy⟩)
    refine ⟨cm, hcm, ?_⟩
    rw [direct_color_mode_eq t pa cm hcm,
      show directColorPixel pa = directColorPixelFixed pa from
        funext (directColorPixel_eq_fixed pa)]
  · intro t pa hpa
    obtain ⟨cm, hcm⟩ := to_colormap_ok_of_get_total t (fun x y hx hy =>
      ⟨_, SNESTileMode7.get_in_bounds_Mode7 t x y hx hy⟩)
    refine ⟨cm, hcm, ?_⟩
    rw [direct_color_mode_eq t pa cm hcm,
      show directColorPixel pa = directColorPixelFixed pa from
        funext (directColorPixel_eq_fixed pa)]

set_option maxRecDepth 100000 in
/-- C1 counterexample: on the all-zero Mode7 tile (colormap all zeros) with
palette argument 4, the code produces blue channel 2 (value 0x800) in every
output entry, while the spec formula of the claim predicts blue channel 1
(value 0x400); so the claim as stated is false. -/
theorem claim_C1_counterexample :
    SNESTile.to_colormap (⟨List.replicate 64 0⟩ : SNESTileMode7) =
      .ok (List.replicate 64 0) ∧
    SNESTile.direct_color_mode (⟨List.replicate 64 0⟩ : SNESTileMode7) 4 =
      .ok (List.replicate 64 ⟨0x800⟩) ∧
    directColorPixelClaimed 4 0 = ⟨0x400⟩ ∧
    SNESTile.direct_color_mode (⟨List.replicate 64 0⟩ : SNESTileMode7) 4 ≠
      .ok ((List.replicate 64 0).map (directColorPixelClaimed 4)) := by
  refine ⟨by decide, by decide, by decide, by decide⟩

/-- Witness for C1 at concrete all-zero tiles and palette argument 4. -/
theorem claim_C1_witness :
    (∃ cm, SNESTile.to_colormap (⟨List.replicate 8 0⟩ : SNESTile1BPP) = .ok cm ∧
      SNESTile.direct_color_mode (⟨List.replicate 8 0⟩ : SNESTile1BPP) 4 =
        .ok (cm.map (directColorPixelFixed 4))) ∧
    (∃ cm, SNESTile.to_colormap (⟨List.replicate 16 0⟩ : SNESTile2BPPPlanar) = .ok cm ∧
      SNESTile.direct_color_mode (⟨List.replicate 16 0⟩ : SNESTile2BPPPlanar) 4 =
        .ok (cm.map (directColorPixelFixed 4))) ∧
    (∃ cm, SNESTile.to_colormap (⟨List.replicate 16 0⟩ : SNESTile2BPPIntertwined) = .ok cm ∧
      SNESTile.direct_color_mode (⟨List.replicate 16 0⟩ : SNESTile2BPPIntertwined) 4 =
        .ok (cm.map (directColorPixelFixed 4))) ∧
    (∃ cm, SNESTile.to_colormap (⟨List.replicate 24 0⟩ : SNESTile3BPPPlanar) = .ok cm ∧
      SNESTile.direct_color_mode (⟨List.replicate 24 0⟩ : SNESTile3BPPPlanar) 4 =
        .ok (cm.map (directColorPixelFixed 4))) ∧
    (∃ cm, SNESTile.to_colormap (⟨List.replicate 24 0⟩ : SNESTile3BPPIntertwined) = .ok cm ∧
      SNESTile.direct_color_mode (⟨List.replicate 24 0⟩ : SNESTile3BPPIntertwined) 4 =
        .ok (cm.map (directColorPixelFixed 4))) ∧
    (∃ cm, SNESTile.to_colormap (⟨List.replicate 32 0⟩ : SNESTile4BPPPlanar) = .ok cm ∧
      SNESTile.direct_color_mode (⟨List.replicate 32 0⟩ : SNESTile4BPPPlanar) 4 =
        .ok (cm.map (directColorPixelFixed 4))) ∧
    (∃ cm, SNESTile.to_colormap (⟨List.replicate 32 0⟩ : SNESTile4BPPIntertwined) = .ok cm ∧
      SNESTile.direct_color_mode (⟨List.replicate 32 0⟩ : SNESTile4BPPIntertwined) 4 =
        .ok (cm.map (directColorPixelFixed 4))) ∧
    (∃ cm, SNESTile.to_colormap (⟨List.replicate 64 0⟩ : SNESTile8BPPPlanar) = .ok cm ∧
      SNESTile.direct_color_mode (⟨List.replicate 64 0⟩ : SNESTile8BPPPlanar) 4 =
        .ok (cm.map (directColorPixelFixed 4))) ∧
    (∃ cm, SNESTile.to_colormap (⟨List.replicate 64 0⟩ : SNESTile8BPPIntertwined) = .ok cm ∧
      SNESTile.direct_color_mode (⟨List.replicate 64 0⟩ : SNESTile8BPPIntertwined) 4 =
        .ok (cm.map (directColorPixelFixed 4))) ∧
    (∃ cm, SNESTile.to_colormap (⟨List.replicate 64 0⟩ : SNESTileMode7) = .ok cm ∧
      SNESTile.direct_color_mode (⟨List.replicate 64 0⟩ : SNESTileMode7) 4 =
        .ok (cm.map (directColorPixelFixed 4))) := by
  obtain ⟨h1, h2, h3, h4, h5, h6, h7, h8, h9, h10⟩ := claim_C1
  exact ⟨h1 _ 4 (by norm_num), h2 _ 4 (by norm_num), h3 _ 4 (by norm_num),
    h4 _ 4 (by norm_num), h5 _ 4 (by norm_num), h6 _ 4 (by norm_num),
    h7 _ 4 (by norm_num), h8 _ 4 (by norm_num), h9 _ 4 (by norm_num),
    h10 _ 4 (by norm_num)⟩

/-- C2 (amended): each channel setter writes its own field from the given
value's low bits and preserves every other bit below the color's width, but
clears the unused high bits (bit 15 for Bgr555, bits 24-31 for Rgb888) to
zero rather than leaving them unchanged. -/
theorem claim_C2 :
    (∀ (c : Bgr555) (v i : Nat), v < 256 →
      ((i ≤ 4 → (c.set_red v).val.testBit i = v.testBit i) ∧
       (5 ≤ i → i ≤ 14 → (c.set_red v).val.testBit i = c.val.testBit i) ∧
       (15 ≤ i → (c.set_red v).val.testBit i = false)) ∧
      ((5 ≤ i → i ≤ 9 → (c.set_green v).val.testBit i = v.testBit (i - 5)) ∧
       (i ≤ 4 ∨ (10 ≤ i ∧ i ≤ 14) → (c.set_green v).val.testBit i = c.val.testBit i) ∧
       (15 ≤ i → (c.set_green v).val.testBit i = false)) ∧
      ((10 ≤ i → i ≤ 14 → (c.set_blue v).val.testBit i = v.testBit (i - 10)) ∧
       (i ≤ 9 → (c.set_blue v).val.testBit i = c.val.testBit i) ∧
       (15 ≤ i → (c.set_blue v).val.testBit i = false))) ∧
    (∀ (c : Rgb888) (v i : Nat), v < 256 →
      ((16 ≤ i → i ≤ 23 → (c.set_red v).val.testBit i = v.testBit (i - 16)) ∧
       (i ≤ 15 → (c.set_red v).val.testBit i = c.val.testBit i) ∧
       (24 ≤ i → (c.set_red v).val.testBit i = false)) ∧
      ((8 ≤ i → i ≤ 15 → (c.set_green v).val.testBit i = v.testBit (i - 8)) ∧
       (i ≤ 7 ∨ (16 ≤ i ∧ i ≤ 23) → (c.set_green v).val.testBit i = c.val.testBit i) ∧
       (24 ≤ i → (c.set_green v).val.testBit i = false)) ∧
      ((i ≤ 7 → (c.set_blue v).val.testBit i = v.testBit i) ∧
       (8 ≤ i → i ≤ 23 → (c.set_blue v).val.testBit i = c.val.testBit i) ∧
       (24 ≤ i → (c.set_blue v).val.testBit i = false))) := by
  constructor
  · intro c v i hv
    refine ⟨⟨fun h1 => ?_, fun h1 h2 => ?_, fun h1 => ?_⟩,
      ⟨fun h1 h2 => ?_, fun h1 => ?_, fun h1 => ?_⟩,
      ⟨fun h1 h2 => ?_, fun h1 => ?_, fun h1 => ?_⟩⟩
    · have hm1 : Nat.testBit 0x7FE0 i = false := by interval_cases i <;> decide
      have hm2 : Nat.testBit 0x1F i = true := by interval_cases i <;> decide
      simp [Bgr555.set_red, Nat.testBit_or, Nat.testBit_and, hm1, hm2]
    · have hm1 : Nat.testBit 0x7FE0 i = true := by interval_cases i <;> decide
      have hm2 : Nat.testBit 0x1F i = false := by interval_cases i <;> decide
      simp [Bgr555.set_red, Nat.testBit_or, Nat.testBit_and, hm1, hm2]
    · have hm1 : Nat.testBit 0x7FE0 i = false := testBit_lit_false 15 (by norm_num) h1
      have hm2 : Nat.testBit 0x1F i = false := testBit_lit_false 5 (by norm_num) (by omega)
      simp [Bgr555.set_red, Nat.testBit_or, Nat.testBit_and, hm1, hm2]
    · have hm1 : Nat.testBit 0x7C1F i = false := by interval_cases i <;> decide
      have hm2 : Nat.testBit 0x1F (i - 5) = true := by interval_cases i <;> decide
      simp [Bgr555.set_green, Nat.testBit_or, Nat.testBit_and, Nat.testBit_shiftLeft,
        hm1, hm2, h1]
    · have hm1 : Nat.testBit 0x7C1F i = true := by
        rcases h1 with h | ⟨h, h'⟩ <;> interval_cases i <;> decide
      have hm2 : Nat.testBit ((v &&& 0x1F) <<< 5) i = false := by
        rw [Nat.testBit_shiftLeft]
        rcases h1 with h | ⟨h, h'⟩
        · simp [Nat.not_le.mpr (by omega : i < 5)]
        · have hm3 : Nat.testBit 0x1F (i - 5) = false := by interval_cases i <;> decide
          simp [Nat.testBit_and, hm3]
      simp [Bgr555.set_green, Nat.testBit_or, Nat.testBit_and, hm1, hm2]
    · have hm1 : Nat.testBit 0x7C1F i = false := testBit_lit_false 15 (by norm_num) h1
      have hm2 : Nat.testBit 0x1F (i - 5) = false :=
        testBit_lit_false 5 (by norm_num) (by omega)
      simp [Bgr555.set_green, Nat.testBit_or, Nat.testBit_and, Nat.testBit_shiftLeft,
        hm1, hm2]
    · have hm1 : Nat.testBit 0x3FF i = false := by interval_cases i <;> decide
      have hm2 : Nat.testBit 0x1F (i - 10) = true := by interval_cases i <;> decide
      simp [Bgr555.set_blue, Nat.testBit_or, Nat.testBit_and, Nat.testBit_shiftLeft,
        hm1, hm2, h1]
    · have hm1 : Nat.testBit 0x3FF i = true := by interval_cases i <;> decide
      have hm2 : Nat.testBit ((v &&& 0x1F) <<< 10) i = false := by
        rw [Nat.testBit_shiftLeft]
        simp [Nat.not_le.mpr (by omega : i < 10)]
      simp [Bgr555.set_blue, Nat.testBit_or, Nat.testBit_and, hm1, hm2]
    · have hm1 : Nat.testBit 0x3FF i = false := testBit_lit_false 10 (by norm_num) (by omega)
      have hm2 : Nat.testBit 0x1F (i - 10) = false :=
        testBit_lit_false 5 (by norm_num) (by omega)
      simp [Bgr555.set_blue, Nat.testBit_or, Nat.testBit_and, Nat.testBit_shiftLeft,
        hm1, hm2]
  · intro c v i hv
    refine ⟨⟨fun h1 h2 => ?_, fun h1 => ?_, fun h1 => ?_⟩,
      ⟨fun h1 h2 => ?_, fun h1 => ?_, fun h1 => ?_⟩,
      ⟨fun h1 => ?_, fun h1 h2 => ?_, fun h1 => ?_⟩⟩
    · have hm1 : Nat.testBit 0xFFFF i = false := by interval_cases i <;> decide
      simp [Rgb888.set_red, Nat.testBit_or, Nat.testBit_and, Nat.testBit_shiftLeft,
        hm1, h1]
    · have hm1 : Nat.testBit 0xFFFF i = true := by interval_cases i <;> decide
      have hm2 : Nat.testBit (v <<< 16) i = false := by
        rw [Nat.testBit_shiftLeft]
        simp [Nat.not_le.mpr (by omega : i < 16)]
      simp [Rgb888.set_red, Nat.testBit_or, Nat.testBit_and, hm1, hm2]
    · have hm1 : Nat.testBit 0xFFFF i = false := testBit_lit_false 16 (by norm_num) (by omega)
      have hm2 : Nat.testBit v (i - 16) = false := testBit_lit_false 8 hv (by omega)
      simp [Rgb888.set_red, Nat.testBit_or, Nat.testBit_and, Nat.testBit_shiftLeft,
        hm1, hm2]
    · have hm1 : Nat.testBit 0xFF00FF i = false := by interval_cases i <;> decide
      simp [Rgb888.set_green, Nat.testBit_or, Nat.testBit_and, Nat.testBit_shiftLeft,
        hm1, h1]
    · have hm1 : Nat.testBit 0xFF00FF i = true := by
        rcases h1 with h | ⟨h, h'⟩ <;> interval_cases i <;> decide
      have hm2 : Nat.testBit (v <<< 8) i = false := by
        rw [Nat.testBit_shiftLeft]
        rcases h1 with h | ⟨h, h'⟩
        · simp [Nat.not_le.mpr (by omega : i < 8)]
        · have hm3 : Nat.testBit v (i - 8) = false := testBit_lit_false 8 hv (by omega)
          simp [hm3]
      simp [Rgb888.set_green, Nat.testBit_or, Nat.testBit_and, hm1, hm2]
    · have hm1 : Nat.testBit 0xFF00FF i = false := testBit_lit_false 24 (by norm_num) h1
      have hm2 : Nat.testBit v (i - 8) = false := testBit_lit_false 8 hv (by omega)
      simp [Rgb888.set_green, Nat.testBit_or, Nat.testBit_and, Nat.testBit_shiftLeft,
        hm1, hm2]
    · have hm1 : Nat.testBit 0xFFFF00 i = false := by interval_cases i <;> decide
      simp [Rgb888.set_blue, Nat.testBit_or, Nat.testBit_and, hm1]
    · have hm1 : Nat.testBit 0xFFFF00 i = true := by interval_cases i <;> decide
      have hm2 : Nat.testBit v i = false := testBit_lit_false 8 hv (by omega)
      simp [Rgb888.set_blue, Nat.testBit_or, Nat.testBit_and, hm1, hm2]
    · have hm1 : Nat.testBit 0xFFFF00 i = false := testBit_lit_false 24 (by norm_num) h1
      have hm2 : Nat.testBit v i = false := testBit_lit_false 8 hv (by omega)
      simp [Rgb888.set_blue, Nat.testBit_or, Nat.testBit_and, hm1, hm2]

/-- C2 counterexample: `Bgr555::set_red` does not leave the unused bit 15
unchanged: on input 0x8000 it clears it. -/
theorem claim_C2_counterexample :
    (Bgr555.set_red ⟨0x8000⟩ 0).val.testBit 15 ≠ (0x8000 : Nat).testBit 15 := by decide

/-- Witness for C2 at concrete inputs. -/
theorem claim_C2_witness :
    ((Bgr555.set_red ⟨0xFFFF⟩ 3).val.testBit 0 = (3 : Nat).testBit 0 ∧
      (Bgr555.set_red ⟨0xFFFF⟩ 3).val.testBit 5 = (0xFFFF : Nat).testBit 5 ∧
      (Bgr555.set_red ⟨0xFFFF⟩ 3).val.testBit 15 = false) ∧
    ((Rgb888.set_green ⟨0xFFFFFFFF⟩ 3).val.testBit 8 = (3 : Nat).testBit 0 ∧
      (Rgb888.set_green ⟨0xFFFFFFFF⟩ 3).val.testBit 16 = (0xFFFFFFFF : Nat).testBit 16 ∧
      (Rgb888.set_green ⟨0xFFFFFFFF⟩ 3).val.testBit 24 = false) :=
  ⟨⟨((claim_C2.1 ⟨0xFFFF⟩ 3 0 (by norm_num)).1).1 (by norm_num),
    ((claim_C2.1 ⟨0xFFFF⟩ 3 5 (by norm_num)).1).2.1 (by norm_num) (by norm_num),
    ((claim_C2.1 ⟨0xFFFF⟩ 3 15 (by norm_num)).1).2.2 (by norm_num)⟩,
   ⟨((claim_C2.2 ⟨0xFFFFFFFF⟩ 3 8 (by norm_num)).2.1).1 (by norm_num) (by norm_num),
    ((claim_C2.2 ⟨0xFFFFFFFF⟩ 3 16 (by norm_num)).2.1).2.1 (Or.inr ⟨by norm_num, by norm_num⟩),
    ((claim_C2.2 ⟨0xFFFFFFFF⟩ 3 24 (by norm_num)).2.1).2.2 (by norm_num)⟩⟩

/-! ### Color conversion arithmetic -/

theorem and31_of_lt (x : Nat) (h : x < 32) : x &&& 0x1F = x := by
  have e := Nat.and_pow_two_sub_one_eq_mod x 5
  norm_num at e
  rw [e, Nat.mod_eq_of_lt h]

theorem bgr_new_val (r g b : Nat) (hr : r < 32) (hg : g < 32) (hb : b < 32) :
    (Bgr555.new r g b).val = 1024 * b + 32 * g + r := by
  show (((((0 &&& 0x7FE0) ||| (r &&& 0x1F)) &&& 0x7C1F) |||
      ((g &&& 0x1F) <<< 5)) &&& 0x3FF) ||| ((b &&& 0x1F) <<< 10) = 1024 * b + 32 * g + r
  rw [Nat.zero_and, Nat.zero_or, and31_of_lt r hr, and31_of_lt g hg, and31_of_lt b hb]
  have e2 : r &&& 0x7C1F = r := by
    refine and_eq_self_of_mask r 0x7C1F 0 5 (by omega) (by norm_num; omega) ?_
    intro i hi1 hi2
    interval_cases i <;> decide
  rw [e2, Nat.shiftLeft_eq, Nat.shiftLeft_eq]
  have e3 : r ||| g * 2 ^ 5 = 32 * g + r := by
    rw [Nat.or_comm, or_disjoint_add (g * 2 ^ 5) r 5 (by omega) (by norm_num; omega)]
    ring
  rw [e3]
  have e4 : (32 * g + r) &&& 0x3FF = 32 * g + r := by
    have e := Nat.and_pow_two_sub_one_eq_mod (32 * g + r) 10
    norm_num at e
    rw [e, Nat.mod_eq_of_lt (by omega)]
  rw [e4, Nat.or_comm, or_disjoint_add (b * 2 ^ 10) (32 * g + r) 10 (by omega)
    (by norm_num; omega)]
  ring

theorem bgr_val_get_red (c : Bgr555) : c.get_red = c.val % 32 := by
  rw [Bgr555.get_red]
  have e := Nat.and_pow_two_sub_one_eq_mod c.val 5
  norm_num at e
  exact e

theorem bgr_val_get_green (c : Bgr555) : c.get_green = c.val / 32 % 32 := by
  rw [Bgr555.get_green, Nat.shiftRight_eq_div_pow]
  have e := Nat.and_pow_two_sub_one_eq_mod (c.val / 2 ^ 5) 5
  norm_num at e ⊢
  exact e

theorem bgr_val_get_blue (c : Bgr555) : c.get_blue = c.val / 1024 % 32 := by
  rw [Bgr555.get_blue, Nat.shiftRight_eq_div_pow]
  have e := Nat.and_pow_two_sub_one_eq_mod (c.val / 2 ^ 10) 5
  norm_num at e ⊢
  exact e

theorem rgb_new_val (R G B : Nat) (hR : R < 256) (hG : G < 256) (hB : B < 256) :
    ((((Rgb888.mk 0).set_red R).set_green G).set_blue B).val =
      65536 * R + 256 * G + B := by
  show (((((0 &&& 0xFFFF) ||| (R <<< 16)) &&& 0xFF00FF) |||
      (G <<< 8)) &&& 0xFFFF00) ||| B = 65536 * R + 256 * G + B
  rw [Nat.zero_and, Nat.zero_or, Nat.shiftLeft_eq, Nat.shiftLeft_eq]
  have e1 : R * 2 ^ 16 &&& 0xFF00FF = R * 2 ^ 16 := by
    refine and_eq_self_of_mask (R * 2 ^ 16) 0xFF00FF 16 24 (by omega)
      (by norm_num; omega) ?_
    intro i hi1 hi2
    interval_cases i <;> decide
  rw [e1, or_disjoint_add (R * 2 ^ 16) (G * 2 ^ 8) 16 (by omega) (by norm_num; omega)]
  have e2 : (R * 2 ^ 16 + G * 2 ^ 8) &&& 0xFFFF00 = R * 2 ^ 16 + G * 2 ^ 8 := by
    refine and_eq_self_of_mask _ 0xFFFF00 8 24 (by omega) (by norm_num; omega) ?_
    intro i hi1 hi2
    interval_cases i <;> decide
  rw [e2, or_disjoint_add (R * 2 ^ 16 + G * 2 ^ 8) B 8 (by omega) (by norm_num; omega)]
  ring

theorem rgb_val_get_red (c : Rgb888) : c.get_red = c.val / 65536 % 256 := by
  rw [Rgb888.get_red, Nat.shiftRight_eq_div_pow]
  have e := Nat.and_pow_two_sub_one_eq_mod (c.val / 2 ^ 16) 8
  norm_num at e ⊢
  exact e

theorem rgb_val_get_green (c : Rgb888) : c.get_green = c.val / 256 % 256 := by
  rw [Rgb888.get_green, Nat.shiftRight_eq_div_pow]
  have e := Nat.and_pow_two_sub_one_eq_mod (c.val / 2 ^ 8) 8
  norm_num at e ⊢
  exact e

theorem rgb_val_get_blue (c : Rgb888) : c.get_blue = c.val % 256 := by
  rw [Rgb888.get_blue]
  have e := Nat.and_pow_two_sub_one_eq_mod c.val 8
  norm_num at e
  exact e

/-- C5: each 5-bit channel survives `(v << 3) >> 3`, and the Color15 built
from channels (r, g, b) converts to Color24 and back to exactly the original
value. -/
theorem claim_C5 :
    (∀ v < 32, (v <<< 3) >>> 3 = v) ∧
    (∀ r g b : Nat, r < 32 → g < 32 → b < 32 →
      (Bgr555.new r g b).as_rgb888.as_bgr555 = Bgr555.new r g b) := by
  constructor
  · decide
  · intro r g b hr hg hb
    have hval := bgr_new_val r g b hr hg hb
    have hR : (Bgr555.new r g b).get_red = r := by
      rw [bgr_val_get_red, hval]; omega
    have hG : (Bgr555.new r g b).get_green = g := by
      rw [bgr_val_get_green, hval]; omega
    have hB : (Bgr555.new r g b).get_blue = b := by
      rw [bgr_val_get_blue, hval]; omega
    rw [Bgr555.as_rgb888, hR, hG, hB]
    have hs : ∀ u : Nat, u <<< 3 = u * 8 := fun u => by rw [Nat.shiftLeft_eq]; try norm_num
    simp only [hs]
    have hu := rgb_new_val (r * 8) (g * 8) (b * 8) (by omega) (by omega) (by omega)
    have hRr : ((((Rgb888.mk 0).set_red (r * 8)).set_green (g * 8)).set_blue
        (b * 8)).get_red = r * 8 := by
      rw [rgb_val_get_red, hu]
      clear hval hR hG hB hu
      omega
    have hGg : ((((Rgb888.mk 0).set_red (r * 8)).set_green (g * 8)).set_blue
        (b * 8)).get_green = g * 8 := by
      rw [rgb_val_get_green, hu]
      clear hval hR hG hB hu
      omega
    have hBb : ((((Rgb888.mk 0).set_red (r * 8)).set_green (g * 8)).set_blue
        (b * 8)).get_blue = b * 8 := by
      rw [rgb_val_get_blue, hu]
      clear hval hR hG hB hu
      omega
    rw [Rgb888.as_bgr555, hRr, hGg, hBb]
    have hsr : ∀ u : Nat, u < 32 → (u * 8) >>> 3 = u := fun u h => by
      rw [Nat.shiftRight_eq_div_pow]; omega
    rw [hsr r hr, hsr g hg, hsr b hb]
    rfl

/-- Witness for C5 at the concrete channels (1, 2, 3) and v = 5. -/
theorem claim_C5_witness :
    ((5 <<< 3) >>> 3 = 5) ∧
    (Bgr555.new 1 2 3).as_rgb888.as_bgr555 = Bgr555.new 1 2 3 :=
  ⟨claim_C5.1 5 (by norm_num), claim_C5.2 1 2 3 (by norm_num) (by norm_num) (by norm_num)⟩
